import Mathlib

/-!
# MightyBoard firmware: the heat-fail orchestrator and the control slice

A shallow embedding of `firmware/src/MightyBoard/Motherboard/Motherboard.cc`.

* The fields of the `Motherboard` singleton and the three file-scope booleans
  (`connectionsErrorTriggered`, `extruder_update`, `triggered`) form one record
  that every operation passes along explicitly.
* Every call into a collaborator (interface board, piezo, RGB LED, host,
  command, steppers, the heaters' sampling steps) is appended to `log` as an
  `Event`, in program order.  What a collaborator does internally is outside the
  embedding; the values the slice reads back from collaborators are the fields
  of `SliceInput`.
* The set temperature of the three heaters and the enable bit of the stepper
  axes are kept as state, because the slice reads resp. writes them.
* The clock is constant during one slice (the tick interrupt is not interleaved
  with the slice body); a tick is the separate step `UpdateMicros`, and a run of
  the main loop is a list of ticks and slices (`TimedOp`).
* `reset` and `state_reset` read the persisted configuration through
  `ResetInput`; the variables of the heat-progress display are left out.
* `doStepperInterrupt` touches no field of the board, only timer registers and
  the interrupt flag; it has its own small state, `IrqState`.
-/

namespace MightyBoard

/-! ## Types declared outside `Motherboard.cc` -/

/-- Modelled from the spec: the failure-kind enumeration of the heater class
(declared in `Heater.hh`): none, not-plugged-in, software-cutoff, not-heating,
dropping-temperature, temperature-out-of-range. -/
inductive HeaterFailMode where
  | HEATER_FAIL_NONE
  | HEATER_FAIL_NOT_PLUGGED_IN
  | HEATER_FAIL_SOFTWARE_CUTOFF
  | HEATER_FAIL_NOT_HEATING
  | HEATER_FAIL_DROPPING_TEMP
  | HEATER_FAIL_TEMP_OUT_OF_RANGE
  deriving DecidableEq, Repr

/-- The four failure kinds whose announcement is the full shutdown
(the first four cases of the switch in `runMotherboardSlice`). -/
def HeaterFailMode.isLatching : HeaterFailMode → Bool
  | .HEATER_FAIL_SOFTWARE_CUTOFF => true
  | .HEATER_FAIL_NOT_HEATING => true
  | .HEATER_FAIL_DROPPING_TEMP => true
  | .HEATER_FAIL_TEMP_OUT_OF_RANGE => true
  | _ => false

/-- Modelled from the spec: the build state reported by the host layer,
`getBuildState() -> {idle, building, buildingFromStorage}`. -/
inductive HostState where
  | HOST_STATE_READY
  | HOST_STATE_BUILDING
  | HOST_STATE_BUILDING_FROM_SD
  deriving DecidableEq, Repr

/-- The message identifiers (from `Menu_locales.hh`) that `Motherboard.cc`
passes to `interfaceBoard.errorMessage`. -/
inductive Message where
  | HEATER_INACTIVITY_MSG
  | HEATER_FAIL_SOFTWARE_CUTOFF_MSG
  | HEATER_FAIL_NOT_HEATING_MSG
  | HEATER_FAIL_DROPPING_TEMP_MSG
  | HEATER_FAIL_READ_TEMP_OUT_OF_RANGE_MSG
  | HEATER_FAIL_NOT_PLUGGED_IN_MSG
  deriving DecidableEq, Repr

/-- The tunes `Motherboard.cc` passes to `Piezo::playTune`. -/
inductive Tune where
  | TUNE_STARTUP
  | TUNE_ERROR
  deriving DecidableEq, Repr

/-- The channel reported by `therm_sensor.getLastUpdated()` (Replicator 2). -/
inductive ThermocoupleChannel where
  | CHANNEL_ONE
  | CHANNEL_TWO
  | CHANNEL_OTHER
  deriving DecidableEq, Repr

/-- One call into a collaborator, as issued by `Motherboard.cc`. -/
inductive Event where
  | interfaceDoInterrupt
  | interfaceDoUpdate
  | platformManageTemperature
  | interfaceBlink (on_time off_time : Nat)
  | setDefaultColor
  | doneWithMessage (pop : Bool)
  | stopBuild
  | errorMessage (msg : Message)
  | waitForButton (mask : Nat)
  | setColor (r g b : Nat) (clear : Bool)
  | playTune (t : Tune)
  | errorSequence
  | hostHeatShutdown
  | commandHeatShutdown
  | steppersAbort
  | enableAxis (i : Nat) (enable : Bool)
  | thermSensorUpdate
  | extruderOneSlice
  | heatingAlerts
  | extruderTwoSlice
  | indicateError (error_code : Nat)
  | setHoldZ (hold : Bool)
  | hostUartEnable
  | hostUartInReset
  | interfaceBoardInit
  | interfaceLedsOn
  | queueScreen (welcome : Bool)
  | delayMicros (n : Nat)
  | interfaceInit
  | rgbInit
  | setExtra (value : Bool)
  | extruderTwoDisable (value : Bool)
  | platformDisable (value : Bool)
  | interfacePopScreen
  deriving DecidableEq, Repr

/-- Constants, macros and default arguments that `Motherboard.cc` uses but that
are declared in headers outside src; they are parameters of the embedding. -/
structure Config where
  /-- Width in bits of `micros_t`. -/
  MICROS_WIDTH : Nat
  STEPPER_COUNT : Nat
  USER_INPUT_TIMEOUT : Nat
  SAMPLE_INTERVAL_MICROS_THERMISTOR : Nat
  SAMPLE_INTERVAL_MICROS_THERMOCOUPLE : Nat
  THERMOCOUPLE_UPDATE_RATE : Nat
  /-- Bit masks of the `status_states` enumeration. -/
  STATUS_PREHEATING : Nat
  STATUS_ONBOARD_PROCESS : Nat
  STATUS_HEAT_INACTIVE_SHUTDOWN : Nat
  /-- Whether the build defines `MODEL_REPLICATOR2`. -/
  MODEL_REPLICATOR2 : Bool
  /-- Default of the `reset` argument of `errorResponse`. -/
  errorResponse_default_reset : Bool
  /-- Default of the `PopScreen` argument of `errorResponse`. -/
  errorResponse_default_PopScreen : Bool

/-- Modelled from the spec: the Interval Timeout (class `Timeout`, outside src),
`{ deadline : MonotonicMicros, armed : bool }`. -/
structure Timeout where
  deadline : Nat
  armed : Bool
  deriving DecidableEq, Repr

namespace Timeout

/-- Modelled from the spec: `start(duration)` arms deadline = now + duration
(in the wrapping arithmetic of the clock). -/
def start (w now duration : Nat) : Timeout :=
  { deadline := (now + duration) % 2 ^ w, armed := true }

/-- Modelled from the spec: `hasElapsed()` is true once now ≥ deadline, compared
wrap-safely (the wrapped difference now - deadline lies in the lower half of the
range), and an aborted (disarmed) timeout never reports elapsed. -/
def hasElapsed (w : Nat) (t : Timeout) (now : Nat) : Bool :=
  t.armed && decide ((now + 2 ^ w - t.deadline % 2 ^ w) % 2 ^ w < 2 ^ (w - 1))

/-- Modelled from the spec: `clear()` sets deadline = now. -/
def clear (t : Timeout) (now : Nat) : Timeout :=
  { t with deadline := now }

/-- Modelled from the spec: `abort()` disarms, so that `hasElapsed()` never
fires until `start` is called again. -/
def abort (t : Timeout) : Timeout :=
  { t with armed := false }

end Timeout

/-- The values of `has_failed()` of the three heaters at the time of a call. -/
structure HeaterReadings where
  extruder_one : Bool
  extruder_two : Bool
  platform : Bool
  deriving DecidableEq, Repr

/-- What one invocation of `runMotherboardSlice` reads from its collaborators. -/
structure SliceInput where
  /-- The value of `interfaceBoard.getUpdateRate()`. -/
  updateRate : Nat
  /-- The value of `interfaceBoard.buttonPushed()`. -/
  buttonPushed : Bool
  /-- The value of `host::getHostState()` in the inactivity guard. -/
  hostState : HostState
  /-- The value of `user_input_timeout.getCurrentElapsed()`. -/
  userInputCurrentElapsed : Nat
  /-- The value of `Piezo::isPlaying()` in the announcement guard. -/
  piezoIsPlaying : Bool
  /-- The values of `has_failed()` read by the not-plugged-in case. -/
  has_failed : HeaterReadings
  /-- The value of `therm_sensor.update()` (Replicator 2). -/
  thermUpdateSuccess : Bool
  /-- The value of `therm_sensor.getLastUpdated()` (Replicator 2). -/
  thermLastUpdated : ThermocoupleChannel

/-- What `reset` and `state_reset` read from the persisted configuration store
and from the interface board. -/
structure ResetInput where
  /-- The byte `eeprom_offsets::AXIS_INVERSION`. -/
  axis_inversion : Nat
  /-- The byte `eeprom_offsets::HEATER_TIMEOUT_ON_CANCEL`, in minutes. -/
  heater_timeout_on_cancel : Nat
  /-- The byte `eeprom_offsets::FIRST_BOOT_FLAG`. -/
  first_boot_flag : Nat
  /-- The value of `eeprom::isSingleTool()`. -/
  isSingleTool : Bool
  /-- The value of `eeprom::hasHBP()`. -/
  hasHBP : Bool
  /-- The value of `interfaceBoard.getUpdateRate()`. -/
  updateRate : Nat

/-- The state of the `Motherboard` singleton together with the file-scope
variables of `Motherboard.cc` and the collaborators' state the slice writes. -/
structure Motherboard where
  hasInterfaceBoard : Bool
  using_platform : Bool
  micros : Nat
  restart_timeout : Nat
  board_status : Nat
  heatShutdown : Bool
  heatFailMode : HeaterFailMode
  buttonWait : Bool
  popScreen : Bool
  reset_request : Bool
  /-- File-scope `bool connectionsErrorTriggered`. -/
  connectionsErrorTriggered : Bool
  /-- File-scope `bool extruder_update`. -/
  extruder_update : Bool
  /-- File-scope `bool triggered`. -/
  triggered : Bool
  interface_update_timeout : Timeout
  platform_timeout : Timeout
  user_input_timeout : Timeout
  heat_hold_timeout : Timeout
  extruder_manage_timeout : Timeout
  therm_sensor_timeout : Timeout
  /-- Set temperature of `Extruder_One.getExtruderHeater()`. -/
  extruder_one_target : Nat
  /-- Set temperature of `Extruder_Two.getExtruderHeater()`. -/
  extruder_two_target : Nat
  /-- Set temperature of `platform_heater`. -/
  platform_target : Nat
  /-- Enable bit of each stepper axis, written by `steppers::enableAxis`. -/
  axis_enabled : Nat → Bool
  /-- Calls into collaborators issued so far, oldest first. -/
  log : List Event

/-! ## Constants of `Motherboard.cc` -/

def ONE_MINUTE : Nat := 60000000

def ONE_SECOND : Nat := 1000000

/-! ## Operations of `Motherboard.cc` -/

/-- Record one collaborator call. -/
def emit (e : Event) (s : Motherboard) : Motherboard :=
  { s with log := s.log ++ [e] }

/-- The collaborator call `steppers::enableAxis(i, enable)`. -/
def enableAxis (i : Nat) (enable : Bool) (s : Motherboard) : Motherboard :=
  emit (.enableAxis i enable)
    { s with axis_enabled := fun j => if j = i then enable else s.axis_enabled j }

/-- The procedure `Motherboard::interfaceBlink`; the LED timing it sets up is
rendered by the tick interrupt and is kept as an event. -/
def interfaceBlink (on_time off_time : Nat) (s : Motherboard) : Motherboard :=
  emit (.interfaceBlink on_time off_time) s

/-- The procedure `Motherboard::heaterFail` (lines 345-366). -/
def heaterFail (isSingleTool : Bool) (has_failed : HeaterReadings)
    (mode : HeaterFailMode) (s : Motherboard) : Motherboard :=
  let s1 := { s with heatFailMode := mode }
  if s1.heatFailMode = .HEATER_FAIL_NOT_PLUGGED_IN then
    if !has_failed.platform && isSingleTool &&
        !(has_failed.extruder_one && has_failed.extruder_two) then
      s1
    else if s1.connectionsErrorTriggered then
      s1
    else
      { s1 with connectionsErrorTriggered := true, heatShutdown := true }
  else
    { s1 with heatShutdown := true }

/-- The procedure `Motherboard::startButtonWait` (lines 370-377). -/
def startButtonWait (s : Motherboard) : Motherboard :=
  let s1 := interfaceBlink 25 15 s
  let s2 := emit (.waitForButton 0xFF) s1
  { s2 with buttonWait := true }

/-- The procedure `Motherboard::errorResponse` (lines 382-388). -/
def errorResponse (msg : Message) (reset PopScreen : Bool) (s : Motherboard) :
    Motherboard :=
  let s1 := { s with popScreen := PopScreen }
  let s2 := emit (.errorMessage msg) s1
  let s3 := startButtonWait s2
  let s4 := emit (.playTune .TUNE_ERROR) s3
  { s4 with reset_request := reset }

/-- The procedure `Motherboard::abortHeatHoldTimeout` (lines 703-706). -/
def abortHeatHoldTimeout (s : Motherboard) : Motherboard :=
  { s with heat_hold_timeout := (s.heat_hold_timeout.clear s.micros).abort }

/-- Lines 526-534 of `runMotherboardSlice`: interface polling and refresh.
The boolean is the local `interface_updated`. -/
def sliceInterface (cfg : Config) (inp : SliceInput) (s : Motherboard) :
    Motherboard × Bool :=
  if s.hasInterfaceBoard then
    let s1 := emit .interfaceDoInterrupt s
    if s1.interface_update_timeout.hasElapsed cfg.MICROS_WIDTH s1.micros then
      let s2 := emit .interfaceDoUpdate s1
      ({ s2 with interface_update_timeout :=
            Timeout.start cfg.MICROS_WIDTH s2.micros inp.updateRate }, true)
    else (s1, false)
  else (s, false)

/-- Lines 536-540 of `runMotherboardSlice`: platform heater management. -/
def slicePlatform (cfg : Config) (s : Motherboard) : Motherboard :=
  if s.using_platform && s.platform_timeout.hasElapsed cfg.MICROS_WIDTH s.micros then
    let s1 := emit .platformManageTemperature s
    { s1 with platform_timeout :=
                Timeout.start cfg.MICROS_WIDTH s1.micros cfg.SAMPLE_INTERVAL_MICROS_THERMISTOR }
  else s

/-- Lines 543-560 of `runMotherboardSlice`: the button-wait block. -/
def sliceButtonWait (inp : SliceInput) (s : Motherboard) : Motherboard :=
  if s.buttonWait then
    if inp.buttonPushed then
      let s1 := interfaceBlink 0 0 s
      let s2 := emit .setDefaultColor s1
      let s3 := { s2 with buttonWait := false }
      let s4 := emit (.doneWithMessage s3.popScreen) s3
      let s5 := { s4 with popScreen := true }
      let s6 := if s5.reset_request then emit .stopBuild s5 else s5
      { s6 with triggered := false }
    else s
  else s

/-- Lines 565-568 of `runMotherboardSlice`: heat-hold timeout elapsed during an
onboard process. -/
def sliceOnboard (cfg : Config) (s : Motherboard) : Motherboard :=
  if s.heat_hold_timeout.hasElapsed cfg.MICROS_WIDTH s.micros &&
      decide (s.board_status &&& cfg.STATUS_ONBOARD_PROCESS ≠ 0) then
    abortHeatHoldTimeout s
  else s

/-- Lines 572-602 of `runMotherboardSlice`: the inactivity path. -/
def sliceInactivity (cfg : Config) (inp : SliceInput) (s : Motherboard) : Motherboard :=
  if (s.heat_hold_timeout.hasElapsed cfg.MICROS_WIDTH s.micros ||
        s.user_input_timeout.hasElapsed cfg.MICROS_WIDTH s.micros) &&
      !s.heatShutdown &&
      decide (inp.hostState ≠ .HOST_STATE_BUILDING_FROM_SD) &&
      decide (inp.hostState ≠ .HOST_STATE_BUILDING) then
    let s1 := { s with board_status := s.board_status ||| cfg.STATUS_HEAT_INACTIVE_SHUTDOWN }
    let s2 := { s1 with board_status := s1.board_status &&& (0xFF ^^^ cfg.STATUS_PREHEATING) }
    let s3 :=
      if (decide (s2.extruder_one_target > 0) || decide (s2.extruder_two_target > 0) ||
            decide (s2.platform_target > 0)) &&
          !(decide (s2.restart_timeout = ONE_SECOND) &&
            decide (inp.userInputCurrentElapsed < cfg.USER_INPUT_TIMEOUT)) then
        let t1 := emit (.errorMessage .HEATER_INACTIVITY_MSG) s2
        let t2 := startButtonWait t1
        emit (.setColor 0 0 255 true) t2
      else s2
    let s4 := { s3 with extruder_one_target := 0 }
    let s5 := { s4 with extruder_two_target := 0 }
    let s6 := { s5 with platform_target := 0 }
    let s7 := { s6 with user_input_timeout := s6.user_input_timeout.clear s6.micros }
    if s7.heat_hold_timeout.hasElapsed cfg.MICROS_WIDTH s7.micros then
      abortHeatHoldTimeout s7
    else s7
  else s

/-- The loop of lines 652-654: `steppers::enableAxis(i, false)` for every
`i < STEPPER_COUNT`. -/
def disableAllAxes (cfg : Config) (s : Motherboard) : Motherboard :=
  (List.range cfg.STEPPER_COUNT).foldl (fun st i => enableAxis i false st) s

/-- The switch of lines 612-637, cases other than `HEATER_FAIL_NOT_PLUGGED_IN`:
the failure message, if the kind has one. -/
def announceMessage (s : Motherboard) : Motherboard :=
  match s.heatFailMode with
  | .HEATER_FAIL_SOFTWARE_CUTOFF => emit (.errorMessage .HEATER_FAIL_SOFTWARE_CUTOFF_MSG) s
  | .HEATER_FAIL_NOT_HEATING => emit (.errorMessage .HEATER_FAIL_NOT_HEATING_MSG) s
  | .HEATER_FAIL_DROPPING_TEMP => emit (.errorMessage .HEATER_FAIL_DROPPING_TEMP_MSG) s
  | .HEATER_FAIL_TEMP_OUT_OF_RANGE =>
      emit (.errorMessage .HEATER_FAIL_READ_TEMP_OUT_OF_RANGE_MSG) s
  | _ => s

/-- Lines 625-636: the `HEATER_FAIL_NOT_PLUGGED_IN` case of the switch. -/
def announceNotPluggedIn (cfg : Config) (inp : SliceInput) (s : Motherboard) :
    Motherboard :=
  let s1 := errorResponse .HEATER_FAIL_NOT_PLUGGED_IN_MSG
    cfg.errorResponse_default_reset cfg.errorResponse_default_PopScreen s
  let s2 := if inp.has_failed.extruder_one then { s1 with extruder_one_target := 0 } else s1
  let s3 := if inp.has_failed.extruder_two then { s2 with extruder_two_target := 0 } else s2
  let s4 := if inp.has_failed.platform then { s3 with platform_target := 0 } else s3
  { s4 with heatShutdown := false }

/-- Lines 639-654: the full shutdown that follows the switch. -/
def announceShutdown (cfg : Config) (s : Motherboard) : Motherboard :=
  let s1 := { s with extruder_one_target := 0 }
  let s2 := { s1 with extruder_two_target := 0 }
  let s3 := { s2 with platform_target := 0 }
  let s4 := emit (.playTune .TUNE_ERROR) s3
  let s5 := emit .errorSequence s4
  let s6 := emit .hostHeatShutdown s5
  let s7 := emit .commandHeatShutdown s6
  let s8 := emit .steppersAbort s7
  disableAllAxes cfg s8

/-- Lines 605-655 of `runMotherboardSlice`: the response to `heatShutdown`.
The boolean tells whether the function returned at line 636. -/
def sliceAnnounce (cfg : Config) (inp : SliceInput) (s : Motherboard) :
    Motherboard × Bool :=
  if s.heatShutdown && !s.triggered && !inp.piezoIsPlaying then
    let s1 := { s with triggered := true }
    let s2 := interfaceBlink 10 10 s1
    if s2.heatFailMode = .HEATER_FAIL_NOT_PLUGGED_IN then
      (announceNotPluggedIn cfg inp s2, true)
    else
      (announceShutdown cfg (announceMessage s2), false)
  else (s, false)

/-- Lines 657-687 of `runMotherboardSlice`: the staggered extruder steps, for
both settings of `MODEL_REPLICATOR2`. -/
def sliceExtruders (cfg : Config) (inp : SliceInput) (interface_updated : Bool)
    (s : Motherboard) : Motherboard :=
  if cfg.MODEL_REPLICATOR2 then
    if s.therm_sensor_timeout.hasElapsed cfg.MICROS_WIDTH s.micros && !interface_updated then
      let s1 := emit .thermSensorUpdate s
      if inp.thermUpdateSuccess then
        let s2 := { s1 with therm_sensor_timeout :=
                      Timeout.start cfg.MICROS_WIDTH s1.micros cfg.THERMOCOUPLE_UPDATE_RATE }
        match inp.thermLastUpdated with
        | .CHANNEL_ONE => emit .heatingAlerts (emit .extruderOneSlice s2)
        | .CHANNEL_TWO => emit .extruderTwoSlice s2
        | .CHANNEL_OTHER => s2
      else s1
    else s
  else
    if s.extruder_manage_timeout.hasElapsed cfg.MICROS_WIDTH s.micros && !interface_updated then
      let s1 := emit .extruderOneSlice s
      let s2 := emit .heatingAlerts s1
      let s3 := { s2 with extruder_manage_timeout :=
                    Timeout.start cfg.MICROS_WIDTH s2.micros cfg.SAMPLE_INTERVAL_MICROS_THERMOCOUPLE }
      { s3 with extruder_update := true }
    else if s.extruder_update then
      let s1 := emit .extruderTwoSlice s
      { s1 with extruder_update := false }
    else s

/-- The procedure `Motherboard::runMotherboardSlice` (lines 520-689). -/
def runMotherboardSlice (cfg : Config) (inp : SliceInput) (s : Motherboard) :
    Motherboard :=
  let r1 := sliceInterface cfg inp s
  let s2 := slicePlatform cfg r1.1
  let s3 := sliceButtonWait inp s2
  let s4 := sliceOnboard cfg s3
  let s5 := sliceInactivity cfg inp s4
  let r6 := sliceAnnounce cfg inp s5
  if r6.2 then r6.1 else sliceExtruders cfg inp r1.2 r6.1

/-- Successive invocations of `runMotherboardSlice`, one per input. -/
def runSlices (cfg : Config) (inps : List SliceInput) (s : Motherboard) : Motherboard :=
  inps.foldl (fun st inp => runMotherboardSlice cfg inp st) s

/-! ## Reset, clock and status operations of `Motherboard.cc` -/

def MICROS_INTERVAL : Nat := 100

/-- The procedure `Motherboard::UpdateMicros` (lines 712-715): `micros` is a
`micros_t`, so the sum wraps at its width. -/
def UpdateMicros (cfg : Config) (s : Motherboard) : Motherboard :=
  { s with micros := (s.micros + MICROS_INTERVAL) % 2 ^ cfg.MICROS_WIDTH }

/-- The function `Motherboard::getCurrentMicros` (lines 301-307): the snapshot it
returns and the state it leaves. -/
def getCurrentMicros (s : Motherboard) : Nat × Motherboard :=
  (s.micros, s)

/-- The procedure `Motherboard::setBoardStatus` (lines 391-398), on the 8-bit
`board_status`: `~state` restricted to the byte is `0xFF ^ state`. -/
def setBoardStatus (state : Nat) (turn_on : Bool) (s : Motherboard) : Motherboard :=
  if turn_on then
    { s with board_status := s.board_status ||| state }
  else
    { s with board_status := s.board_status &&& (0xFF ^^^ state) }

/-- The procedure `Motherboard::resetUserInputTimeout` (lines 692-694). -/
def resetUserInputTimeout (cfg : Config) (s : Motherboard) : Motherboard :=
  { s with user_input_timeout :=
             Timeout.start cfg.MICROS_WIDTH s.micros cfg.USER_INPUT_TIMEOUT }

/-- The procedure `Motherboard::resetHeatHoldTimeout` (lines 697-699). -/
def resetHeatHoldTimeout (cfg : Config) (s : Motherboard) : Motherboard :=
  { s with heat_hold_timeout := Timeout.start cfg.MICROS_WIDTH s.micros s.restart_timeout }

/-- Two's-complement wrap of a value into the 32-bit `long` of avr-gcc, the type
in which `byte * ONE_MINUTE + ONE_SECOND` is evaluated (`ONE_MINUTE` does not
fit the 16-bit `int`, so the literal is a `long`). -/
def wrapLong (x : Int) : Int :=
  (x + 2 ^ 31) % 2 ^ 32 - 2 ^ 31

/-- The right-hand side of line 195 converted to `micros_t`:
`(getEeprom8(HEATER_TIMEOUT_ON_CANCEL) * ONE_MINUTE) + ONE_SECOND`. -/
def restartTimeoutValue (cfg : Config) (minutes : Nat) : Nat :=
  (wrapLong (wrapLong ((minutes : Int) * (ONE_MINUTE : Int)) + (ONE_SECOND : Int))
    % 2 ^ cfg.MICROS_WIDTH).toNat

/-- The procedure `Motherboard::state_reset` (lines 257-297).  The variables of
the heat-progress display (`currentTemp` to `progress_end_char`) are not part of
the record. -/
def state_reset (cfg : Config) (ri : ResetInput) (hard_reset : Bool) (s : Motherboard) :
    Motherboard :=
  let s1 := { s with board_status := 0 }
  let s2 := { s1 with board_status := s1.board_status ||| cfg.STATUS_PREHEATING }
  let s3 := if cfg.MODEL_REPLICATOR2 then emit (.setExtra false) s2 else s2
  let s4 := emit (.extruderTwoDisable ri.isSingleTool) s3
  let s5 := emit (.platformDisable (!ri.hasHBP)) s4
  let s6 := resetUserInputTimeout cfg s5
  let s7 := if !hard_reset then resetHeatHoldTimeout cfg s6 else s6
  let s8 := emit .setDefaultColor s7
  let s9 := { s8 with buttonWait := false }
  { s9 with popScreen := true }

/-- Lines 197-224 of `reset`: bring up the interface board. -/
def resetInterface (cfg : Config) (ri : ResetInput) (hard_reset : Bool) (s : Motherboard) :
    Motherboard :=
  if s.hasInterfaceBoard then
    let s1 := emit .interfaceBoardInit s
    let s2 := emit .interfaceLedsOn s1
    let s3 := emit (.queueScreen (decide (ri.first_boot_flag = 0))) s2
    let s4 := if hard_reset then emit (.delayMicros 3000000) s3 else s3
    let s5 := emit .interfaceInit s4
    { s5 with interface_update_timeout :=
                Timeout.start cfg.MICROS_WIDTH s5.micros ri.updateRate }
  else s

/-- The procedure `Motherboard::reset` (lines 173-253). -/
def reset (cfg : Config) (ri : ResetInput) (hard_reset : Bool) (s : Motherboard) :
    Motherboard :=
  let s1 := emit (.indicateError 0) s
  let s2 := emit (.setHoldZ (decide (ri.axis_inversion &&& (1 <<< 7) = 0))) s1
  let s3 := emit .hostUartInReset (emit .hostUartEnable s2)
  let s4 := { s3 with micros := 0 }
  let s5 := { s4 with restart_timeout := restartTimeoutValue cfg ri.heater_timeout_on_cancel }
  let s6 := resetInterface cfg ri hard_reset s5
  let s7 := interfaceBlink 0 0 s6
  let s8 :=
    if hard_reset then
      let t1 := emit .rgbInit s7
      let t2 := emit (.playTune .TUNE_STARTUP) t1
      let t3 := { t2 with heatShutdown := false }
      { t3 with heatFailMode := .HEATER_FAIL_NONE }
    else s7
  let s9 := state_reset cfg ri hard_reset s8
  if s9.hasInterfaceBoard && decide (ri.first_boot_flag ≠ 0) then
    emit .interfacePopScreen s9
  else s9

/-- The clock after `n` ticks of the timer-2 interrupt. -/
def ticks (cfg : Config) : Nat → Motherboard → Motherboard
  | 0, s => s
  | n + 1, s => UpdateMicros cfg (ticks cfg n s)

/-- One step of a run of the main loop: a tick of the clock interrupt or one
slice. -/
inductive TimedOp where
  | tick
  | slice (inp : SliceInput)

/-- Run one step of the main loop. -/
def runTimedOp (cfg : Config) (s : Motherboard) : TimedOp → Motherboard
  | .tick => UpdateMicros cfg s
  | .slice inp => runMotherboardSlice cfg inp s

/-- Run the steps of the main loop in order. -/
def runTimedOps (cfg : Config) (ops : List TimedOp) (s : Motherboard) : Motherboard :=
  ops.foldl (runTimedOp cfg) s

/-- One step of a session in which the only failure reported is not-plugged-in:
a slice, or a call `heaterFail(HEATER_FAIL_NOT_PLUGGED_IN)` made with the given
single-tool setting and `has_failed()` readings. -/
inductive SessionOp where
  | slice (inp : SliceInput)
  | notPluggedIn (isSingleTool : Bool) (has_failed : HeaterReadings)

/-- Run one step of a session. -/
def runSessionOp (cfg : Config) (s : Motherboard) : SessionOp → Motherboard
  | .slice inp => runMotherboardSlice cfg inp s
  | .notPluggedIn isSingleTool has_failed =>
      heaterFail isSingleTool has_failed .HEATER_FAIL_NOT_PLUGGED_IN s

/-- Run the steps of a session in order. -/
def runSession (cfg : Config) (ops : List SessionOp) (s : Motherboard) : Motherboard :=
  ops.foldl (runSessionOp cfg) s

/-- A slice during which no tone is playing. -/
def SessionOp.isQuietSlice : SessionOp → Bool
  | .slice inp => !inp.piezoIsPlaying
  | .notPluggedIn _ _ => false

/-- Lines 543-655 of `runMotherboardSlice` as one step: button wait, onboard
process, inactivity path and the response to `heatShutdown`. -/
def sliceCore (cfg : Config) (inp : SliceInput) (s : Motherboard) : Motherboard :=
  (sliceAnnounce cfg inp (sliceInactivity cfg inp (sliceOnboard cfg (sliceButtonWait inp s)))).1

/-! ## Concrete configuration and states used as test inputs -/

/-- The constants of a dual-extruder MightyBoard build. -/
def exampleConfig : Config :=
  { MICROS_WIDTH := 32
    STEPPER_COUNT := 5
    USER_INPUT_TIMEOUT := 1800000000
    SAMPLE_INTERVAL_MICROS_THERMISTOR := 50000
    SAMPLE_INTERVAL_MICROS_THERMOCOUPLE := 500000
    THERMOCOUPLE_UPDATE_RATE := 250000
    STATUS_PREHEATING := 0x01
    STATUS_ONBOARD_PROCESS := 0x08
    STATUS_HEAT_INACTIVE_SHUTDOWN := 0x40
    MODEL_REPLICATOR2 := false
    errorResponse_default_reset := false
    errorResponse_default_PopScreen := true }

/-- A board just after power-on: no failure, no wait, both extruders and the
platform heating, all timeouts disarmed, all axes enabled, nothing logged. -/
def exampleBoard : Motherboard :=
  { hasInterfaceBoard := true
    using_platform := true
    micros := 0
    restart_timeout := 61000000
    board_status := 0x01
    heatShutdown := false
    heatFailMode := .HEATER_FAIL_NONE
    buttonWait := false
    popScreen := true
    reset_request := false
    connectionsErrorTriggered := false
    extruder_update := false
    triggered := false
    interface_update_timeout := { deadline := 0, armed := false }
    platform_timeout := { deadline := 0, armed := false }
    user_input_timeout := { deadline := 0, armed := false }
    heat_hold_timeout := { deadline := 0, armed := false }
    extruder_manage_timeout := { deadline := 0, armed := false }
    therm_sensor_timeout := { deadline := 0, armed := false }
    extruder_one_target := 230
    extruder_two_target := 230
    platform_target := 110
    axis_enabled := fun _ => true
    log := [] }

/-- A slice in which nothing is pressed, no tone plays, the host is idle and no
heater reports a failure. -/
def exampleInput : SliceInput :=
  { updateRate := 500000
    buttonPushed := false
    hostState := .HOST_STATE_READY
    userInputCurrentElapsed := 0
    piezoIsPlaying := false
    has_failed := { extruder_one := false, extruder_two := false, platform := false }
    thermUpdateSuccess := false
    thermLastUpdated := .CHANNEL_OTHER }

/-! ## Classification of collaborator calls -/

/-- Calls issued by the interface polling, the platform management and the
extruder staggering blocks. -/
def Event.isSampling : Event → Bool
  | .interfaceDoInterrupt => true
  | .interfaceDoUpdate => true
  | .platformManageTemperature => true
  | .thermSensorUpdate => true
  | .extruderOneSlice => true
  | .heatingAlerts => true
  | .extruderTwoSlice => true
  | _ => false

/-- An `interfaceBoard.errorMessage` call, whatever the message. -/
def Event.isErrorMessage : Event → Bool
  | .errorMessage _ => true
  | _ => false

/-- An `interfaceBoard.errorMessage` call with one of the five heater-failure
messages. -/
def Event.isHeaterFailMessage : Event → Bool
  | .errorMessage .HEATER_INACTIVITY_MSG => false
  | .errorMessage _ => true
  | _ => false

/-- The message of the not-plugged-in acknowledgment. -/
def Event.isNotPluggedInMessage : Event → Bool
  | .errorMessage .HEATER_FAIL_NOT_PLUGGED_IN_MSG => true
  | _ => false

/-- The error tone, `Piezo::playTune(TUNE_ERROR)`. -/
def Event.isErrorTone : Event → Bool
  | .playTune .TUNE_ERROR => true
  | _ => false

/-- The actions of the full shutdown that stop motion and command processing:
`host::heatShutdown`, `command::heatShutdown`, `steppers::abort` and
`steppers::enableAxis(i, false)`. -/
def Event.isLatchingAction : Event → Bool
  | .hostHeatShutdown => true
  | .commandHeatShutdown => true
  | .steppersAbort => true
  | .enableAxis _ false => true
  | _ => false

/-! ## Auxiliary definitions for the statements -/

/-- Calls issued by the button-wait block when it serves an acknowledgment. -/
def Event.isAcknowledge : Event → Bool
  | .interfaceBlink 0 0 => true
  | .setDefaultColor => true
  | .doneWithMessage _ => true
  | .stopBuild => true
  | _ => false

/-- The heat-hold timeout after the onboard-process block. -/
def onboardHeatHold (cfg : Config) (s : Motherboard) : Timeout :=
  if s.heat_hold_timeout.hasElapsed cfg.MICROS_WIDTH s.micros &&
      decide (s.board_status &&& cfg.STATUS_ONBOARD_PROCESS ≠ 0) then
    (s.heat_hold_timeout.clear s.micros).abort
  else s.heat_hold_timeout

/-- The message the switch of lines 612-637 sends for a kind other than
not-plugged-in: none for `HEATER_FAIL_NONE`. -/
def announceEvents : HeaterFailMode → List Event
  | .HEATER_FAIL_SOFTWARE_CUTOFF => [.errorMessage .HEATER_FAIL_SOFTWARE_CUTOFF_MSG]
  | .HEATER_FAIL_NOT_HEATING => [.errorMessage .HEATER_FAIL_NOT_HEATING_MSG]
  | .HEATER_FAIL_DROPPING_TEMP => [.errorMessage .HEATER_FAIL_DROPPING_TEMP_MSG]
  | .HEATER_FAIL_TEMP_OUT_OF_RANGE => [.errorMessage .HEATER_FAIL_READ_TEMP_OUT_OF_RANGE_MSG]
  | _ => []

/-- The guard of the inactivity path (line 572), in terms of the state at the
start of the core step. -/
def inactivityGuard (cfg : Config) (inp : SliceInput) (s : Motherboard) : Bool :=
  ((onboardHeatHold cfg s).hasElapsed cfg.MICROS_WIDTH s.micros ||
      s.user_input_timeout.hasElapsed cfg.MICROS_WIDTH s.micros) &&
    !s.heatShutdown &&
    decide (inp.hostState ≠ .HOST_STATE_BUILDING_FROM_SD) &&
    decide (inp.hostState ≠ .HOST_STATE_BUILDING)

/-- The guard of the announcement (line 605), in terms of the state at the
start of the core step: `triggered` may have been cleared by the button-wait
block of the same slice. -/
def announceGuard (inp : SliceInput) (s : Motherboard) : Bool :=
  s.heatShutdown && !(s.triggered && !(s.buttonWait && inp.buttonPushed)) &&
    !inp.piezoIsPlaying

/-- The condition of lines 580-583 under which the inactivity path warns. -/
def inactivityWarns (cfg : Config) (inp : SliceInput) (s : Motherboard) : Bool :=
  (decide (s.extruder_one_target > 0) || decide (s.extruder_two_target > 0) ||
      decide (s.platform_target > 0)) &&
    !(decide (s.restart_timeout = ONE_SECOND) &&
      decide (inp.userInputCurrentElapsed < cfg.USER_INPUT_TIMEOUT))

/-- Calls a slice issues outside the response to `heatShutdown`: sampling,
serving an acknowledgment, and the inactivity warning. -/
def Event.isRoutine : Event → Bool
  | .errorMessage .HEATER_INACTIVITY_MSG => true
  | .interfaceBlink 25 15 => true
  | .waitForButton 255 => true
  | .setColor 0 0 255 true => true
  | e => Event.isSampling e || Event.isAcknowledge e

/-- The not-plugged-in suppression policy in the words of the specification
(section 4.3): the machine is configured single-tool and at least one of the two
extruder heaters has not reported not-plugged-in.  The platform heater has no
part in it. -/
def singleToolPolicySuppresses (isSingleTool : Bool) (has_failed : HeaterReadings) : Bool :=
  isSingleTool && (!has_failed.extruder_one || !has_failed.extruder_two)

/-- The message identifier the announcement sends for each kind, read off the
switch of lines 612-637 (the not-plugged-in case sends its message through
`errorResponse`); `HEATER_FAIL_NONE` has no case. -/
def failMessage : HeaterFailMode → Option Message
  | .HEATER_FAIL_SOFTWARE_CUTOFF => some .HEATER_FAIL_SOFTWARE_CUTOFF_MSG
  | .HEATER_FAIL_NOT_HEATING => some .HEATER_FAIL_NOT_HEATING_MSG
  | .HEATER_FAIL_DROPPING_TEMP => some .HEATER_FAIL_DROPPING_TEMP_MSG
  | .HEATER_FAIL_TEMP_OUT_OF_RANGE => some .HEATER_FAIL_READ_TEMP_OUT_OF_RANGE_MSG
  | .HEATER_FAIL_NOT_PLUGGED_IN => some .HEATER_FAIL_NOT_PLUGGED_IN_MSG
  | .HEATER_FAIL_NONE => none

/-- A reset input of a dual-extruder machine with a heated platform, after the
first boot, with the heater timeout on cancel at its given number of minutes. -/
def exampleReset (minutes : Nat) : ResetInput :=
  { axis_inversion := 0
    heater_timeout_on_cancel := minutes
    first_boot_flag := 1
    isSingleTool := false
    hasHBP := true
    updateRate := 500000 }

/-! ## The stepper interrupt -/

/-- Bit number of the compare-match-A interrupt enable in `TIMSK2` (from
`avr/io.h`); `initClocks` turns the same interrupt on with `TIMSK2 = 0x02`. -/
def OCIE2A : Nat := 1

/-- Bit number of the compare-match-A interrupt enable in `TIMSK5` (from
`avr/io.h`); `initClocks` turns the same interrupt on with `TIMSK5 = 0x02`. -/
def OCIE5A : Nat := 1

/-- A call `doStepperInterrupt` makes, in program order. -/
inductive IrqCall where
  | sei
  | steppersDoStepperInterrupt
  | cli
  deriving DecidableEq, Repr

/-- The hardware state `doStepperInterrupt` writes: the interrupt mask registers
of timers 2 and 5, the compare and counter registers of timer 5, the global
interrupt flag, and the calls made so far. -/
structure IrqState where
  TIMSK2 : Nat
  TIMSK5 : Nat
  OCR5A : Nat
  TCNT5 : Nat
  interrupts_enabled : Bool
  calls : List IrqCall
  deriving DecidableEq, Repr

/-- What one invocation of `doStepperInterrupt` reads: `command::isPaused()`, and
the values of `TCNT5` and `OCR5A` compared at line 332 (the counter runs in
hardware, and the compare register belongs to the steppers module as well). -/
structure IrqInput where
  isPaused : Bool
  TCNT5 : Nat
  OCR5A : Nat
  deriving DecidableEq, Repr

/-- The macro `DISABLE_TIMER_INTERRUPTS` (lines 76-77), on 8-bit registers. -/
def DISABLE_TIMER_INTERRUPTS (st : IrqState) : IrqState :=
  let st1 := { st with TIMSK2 := st.TIMSK2 &&& (0xFF ^^^ (1 <<< OCIE2A)) }
  { st1 with TIMSK5 := st1.TIMSK5 &&& (0xFF ^^^ (1 <<< OCIE5A)) }

/-- The macro `ENABLE_TIMER_INTERRUPTS` (lines 73-74). -/
def ENABLE_TIMER_INTERRUPTS (st : IrqState) : IrqState :=
  let st1 := { st with TIMSK2 := st.TIMSK2 ||| (1 <<< OCIE2A) }
  { st1 with TIMSK5 := st1.TIMSK5 ||| (1 <<< OCIE5A) }

/-- The procedure `Motherboard::doStepperInterrupt` (lines 310-342); the first
argument tells whether the build defines `ANTI_CLUNK_PROTECTION`. -/
def doStepperInterrupt (ANTI_CLUNK_PROTECTION : Bool) (inp : IrqInput) (st : IrqState) :
    IrqState :=
  if inp.isPaused then st
  else
    let s1 := DISABLE_TIMER_INTERRUPTS st
    let s2 := { s1 with interrupts_enabled := true, calls := s1.calls ++ [IrqCall.sei] }
    let s3 := { s2 with calls := s2.calls ++ [IrqCall.steppersDoStepperInterrupt] }
    let s4 := { s3 with interrupts_enabled := false, calls := s3.calls ++ [IrqCall.cli] }
    let s5 := ENABLE_TIMER_INTERRUPTS s4
    if ANTI_CLUNK_PROTECTION && decide (inp.TCNT5 ≥ inp.OCR5A) then
      let s6 := { s5 with OCR5A := 0x01 }
      { s6 with TCNT5 := 0 }
    else s5

/-- Timer registers as `initClocks` leaves them, interrupts masked as on entry
to an interrupt handler. -/
def exampleIrqState : IrqState :=
  { TIMSK2 := 0x02
    TIMSK5 := 0x02
    OCR5A := 0x2000
    TCNT5 := 0
    interrupts_enabled := false
    calls := [] }

/-! ## Order of the extruder steps in a log -/

/-- Whether an Extruder_One step is still unanswered after the calls of `l`,
given whether one was before: an Extruder_One step leaves one, an Extruder_Two
step uses it up, every other call leaves the answer as it was. -/
def pendingAfter : Bool → List Event → Bool
  | pending, [] => pending
  | _, .extruderOneSlice :: l => pendingAfter true l
  | _, .extruderTwoSlice :: l => pendingAfter false l
  | pending, _ :: l => pendingAfter pending l

/-- The ordering claimed of the extruder steps, in the spec's words: every
Extruder_Two step of `l` comes after an Extruder_One step that has run since
the Extruder_Two step before it (`pending` tells whether such a step has run
before `l` starts). -/
def staggeredFrom : Bool → List Event → Bool
  | _, [] => true
  | _, .extruderOneSlice :: l => staggeredFrom true l
  | pending, .extruderTwoSlice :: l => pending && staggeredFrom false l
  | pending, _ :: l => staggeredFrom pending l

/-! ## A run that reaches a latching failure during an acknowledgment wait -/

/-- The example board with the user-input timeout armed and elapsed. -/
def exampleIdleBoard : Motherboard :=
  { exampleBoard with user_input_timeout := { deadline := 0, armed := true } }

/-- The board after one slice on `exampleIdleBoard` (the inactivity warning arms
an acknowledgment wait) followed by `heaterFail(HEATER_FAIL_SOFTWARE_CUTOFF)`
from a heater. -/
def exampleFailureDuringWait : Motherboard :=
  heaterFail false { extruder_one := false, extruder_two := false, platform := false }
    .HEATER_FAIL_SOFTWARE_CUTOFF
    (runMotherboardSlice exampleConfig exampleInput exampleIdleBoard)

/-! ## The extruder steps of a run -/

/-- One of the two extruder steps, `Extruder_One.runExtruderSlice()` or
`Extruder_Two.runExtruderSlice()`. -/
def Event.isExtruderStep : Event → Bool
  | .extruderOneSlice => true
  | .extruderTwoSlice => true
  | _ => false

/-- The extruder steps among the calls of a log, in the order they were made. -/
def extruderSteps (l : List Event) : List Event :=
  l.filter Event.isExtruderStep

/-- Whether the slice answers `heatShutdown` with the not-plugged-in response
and so returns at line 636, before the extruder block. -/
def returnsEarly (inp : SliceInput) (s : Motherboard) : Bool :=
  announceGuard inp s && decide (s.heatFailMode = .HEATER_FAIL_NOT_PLUGGED_IN)

/-- The Extruder_One step is due: its sample timeout has elapsed (lines 676 and
658-665; with `MODEL_REPLICATOR2` the thermocouple timeout has elapsed, the
sensor update succeeds and the channel last updated is `CHANNEL_ONE`). -/
def extruderOneDue (cfg : Config) (inp : SliceInput) (s : Motherboard) : Bool :=
  if cfg.MODEL_REPLICATOR2 then
    s.therm_sensor_timeout.hasElapsed cfg.MICROS_WIDTH s.micros && inp.thermUpdateSuccess &&
      decide (inp.thermLastUpdated = .CHANNEL_ONE)
  else s.extruder_manage_timeout.hasElapsed cfg.MICROS_WIDTH s.micros

/-- The Extruder_Two step is due: the Extruder_One step is not, and an
Extruder_One step has run since the last Extruder_Two step (line 683; with
`MODEL_REPLICATOR2` the thermocouple timeout has elapsed, the sensor update
succeeds and the channel last updated is `CHANNEL_TWO`). -/
def extruderTwoDue (cfg : Config) (inp : SliceInput) (s : Motherboard) : Bool :=
  if cfg.MODEL_REPLICATOR2 then
    s.therm_sensor_timeout.hasElapsed cfg.MICROS_WIDTH s.micros && inp.thermUpdateSuccess &&
      decide (inp.thermLastUpdated = .CHANNEL_TWO)
  else !s.extruder_manage_timeout.hasElapsed cfg.MICROS_WIDTH s.micros && s.extruder_update

/-- The steps of `n` slices in strict alternation, the first one Extruder_Two's
if `two` and Extruder_One's otherwise. -/
def alternatingSteps : Bool → Nat → List Event
  | _, 0 => []
  | two, n + 1 =>
      (if two then Event.extruderTwoSlice else Event.extruderOneSlice) ::
        alternatingSteps (!two) n

/-- The number of slices of a run. -/
def sliceCount : List TimedOp → Nat
  | [] => 0
  | .tick :: ops => sliceCount ops
  | .slice _ :: ops => sliceCount ops + 1

/-- Steady state of a run: in every slice the interface does not refresh, the
slice does not return early, and the step that is due is the other one than in
the slice before (`two` tells whose step is due in the first slice). -/
def steadyRun (cfg : Config) : Bool → List TimedOp → Motherboard → Bool
  | _, [], _ => true
  | two, .tick :: ops, s => steadyRun cfg two ops (UpdateMicros cfg s)
  | two, .slice inp :: ops, s =>
      !(sliceInterface cfg inp s).2 && !returnsEarly inp s &&
        (if two then extruderTwoDue cfg inp s else extruderOneDue cfg inp s) &&
        steadyRun cfg (!two) ops (runMotherboardSlice cfg inp s)

/-- The example board without interface board (so that the interface never
refreshes) and with the extruder sample timeout armed and elapsed. -/
def exampleSamplingBoard : Motherboard :=
  { exampleBoard with hasInterfaceBoard := false,
                      extruder_manage_timeout := { deadline := 0, armed := true } }

/-- The example configuration built with `MODEL_REPLICATOR2`. -/
def exampleReplicator2Config : Config :=
  { exampleConfig with MODEL_REPLICATOR2 := true }

/-- The example board without interface board and with the thermocouple timeout
armed and elapsed. -/
def exampleThermocoupleBoard : Motherboard :=
  { exampleBoard with hasInterfaceBoard := false,
                      therm_sensor_timeout := { deadline := 0, armed := true } }

/-- A slice in which the thermocouple reader has just updated channel one. -/
def exampleChannelOneInput : SliceInput :=
  { exampleInput with thermUpdateSuccess := true, thermLastUpdated := .CHANNEL_ONE }

/-- The example configuration with a sample interval of one clock tick, so that
the extruder sample timeout elapses again after a single tick. -/
def exampleFastSamplingConfig : Config :=
  { exampleConfig with SAMPLE_INTERVAL_MICROS_THERMOCOUPLE := 100 }

/-- A slice in which the thermocouple reader has just updated channel two. -/
def exampleChannelTwoInput : SliceInput :=
  { exampleInput with thermUpdateSuccess := true, thermLastUpdated := .CHANNEL_TWO }

/-! ## Structure of one slice -/

theorem sliceInterface_eq (cfg : Config) (inp : SliceInput) (s : Motherboard) :
    ∃ evs t, (sliceInterface cfg inp s).1 =
        { s with log := s.log ++ evs, interface_update_timeout := t } ∧
      ∀ e ∈ evs, Event.isSampling e = true := by
  simp only [sliceInterface, emit]
  split_ifs
  · exact ⟨[.interfaceDoInterrupt, .interfaceDoUpdate],
      Timeout.start cfg.MICROS_WIDTH s.micros inp.updateRate, by simp,
      by simp [Event.isSampling]⟩
  · exact ⟨[.interfaceDoInterrupt], s.interface_update_timeout, rfl,
      by simp [Event.isSampling]⟩
  · exact ⟨[], s.interface_update_timeout, by cases s; simp, by simp⟩

theorem slicePlatform_eq (cfg : Config) (s : Motherboard) :
    ∃ evs t, slicePlatform cfg s = { s with log := s.log ++ evs, platform_timeout := t } ∧
      ∀ e ∈ evs, Event.isSampling e = true := by
  simp only [slicePlatform, emit]
  split_ifs
  · exact ⟨[.platformManageTemperature],
      Timeout.start cfg.MICROS_WIDTH s.micros cfg.SAMPLE_INTERVAL_MICROS_THERMISTOR, by simp,
      by simp [Event.isSampling]⟩
  · exact ⟨[], s.platform_timeout, by cases s; simp, by simp⟩

theorem sliceExtruders_eq (cfg : Config) (inp : SliceInput) (b : Bool) (s : Motherboard) :
    ∃ evs t1 t2 u, sliceExtruders cfg inp b s =
        { s with log := s.log ++ evs, extruder_manage_timeout := t1,
                 therm_sensor_timeout := t2, extruder_update := u } ∧
      ∀ e ∈ evs, Event.isSampling e = true := by
  simp only [sliceExtruders, emit]
  split_ifs
  · cases inp.thermLastUpdated
    · exact ⟨[.thermSensorUpdate, .extruderOneSlice, .heatingAlerts], s.extruder_manage_timeout,
        Timeout.start cfg.MICROS_WIDTH s.micros cfg.THERMOCOUPLE_UPDATE_RATE,
        s.extruder_update, by simp, by simp [Event.isSampling]⟩
    · exact ⟨[.thermSensorUpdate, .extruderTwoSlice], s.extruder_manage_timeout,
        Timeout.start cfg.MICROS_WIDTH s.micros cfg.THERMOCOUPLE_UPDATE_RATE,
        s.extruder_update, by simp, by simp [Event.isSampling]⟩
    · exact ⟨[.thermSensorUpdate], s.extruder_manage_timeout,
        Timeout.start cfg.MICROS_WIDTH s.micros cfg.THERMOCOUPLE_UPDATE_RATE,
        s.extruder_update, by simp, by simp [Event.isSampling]⟩
  · exact ⟨[.thermSensorUpdate], s.extruder_manage_timeout, s.therm_sensor_timeout,
      s.extruder_update, rfl, by simp [Event.isSampling]⟩
  · exact ⟨[], s.extruder_manage_timeout, s.therm_sensor_timeout, s.extruder_update,
      by cases s; simp, by simp⟩
  · exact ⟨[.extruderOneSlice, .heatingAlerts],
      Timeout.start cfg.MICROS_WIDTH s.micros cfg.SAMPLE_INTERVAL_MICROS_THERMOCOUPLE,
      s.therm_sensor_timeout, true, by simp, by simp [Event.isSampling]⟩
  · exact ⟨[.extruderTwoSlice], s.extruder_manage_timeout, s.therm_sensor_timeout, false,
      rfl, by simp [Event.isSampling]⟩
  · exact ⟨[], s.extruder_manage_timeout, s.therm_sensor_timeout, s.extruder_update,
      by cases s; simp, by simp⟩

/-- The end of a slice: after the core step the extruder block, unless the
function returned early, touches only its own variables. -/
theorem sliceTail_eq (cfg : Config) (inp : SliceInput) (b : Bool) (s : Motherboard) :
    ∃ evs t1 t2 u,
      (if (sliceAnnounce cfg inp (sliceInactivity cfg inp (sliceOnboard cfg
            (sliceButtonWait inp s)))).2 = true
        then (sliceAnnounce cfg inp (sliceInactivity cfg inp (sliceOnboard cfg
            (sliceButtonWait inp s)))).1
        else sliceExtruders cfg inp b (sliceAnnounce cfg inp (sliceInactivity cfg inp
            (sliceOnboard cfg (sliceButtonWait inp s)))).1) =
        { sliceCore cfg inp s with
          log := (sliceCore cfg inp s).log ++ evs, extruder_manage_timeout := t1,
          therm_sensor_timeout := t2, extruder_update := u } ∧
      ∀ e ∈ evs, Event.isSampling e = true := by
  split_ifs with hr
  · exact ⟨[], (sliceCore cfg inp s).extruder_manage_timeout,
      (sliceCore cfg inp s).therm_sensor_timeout, (sliceCore cfg inp s).extruder_update,
      by simp [sliceCore], by simp⟩
  · exact sliceExtruders_eq cfg inp b _

/-- One slice is the core step run after the interface and platform blocks,
which only restart their own timeouts and issue sampling calls, and followed by
the extruder block, which again only touches its own variables. -/
theorem runMotherboardSlice_eq (cfg : Config) (inp : SliceInput) (s : Motherboard) :
    ∃ evs1 t1 t2 evs2 t3 t4 u,
      runMotherboardSlice cfg inp s =
        { sliceCore cfg inp
            { s with log := s.log ++ evs1, interface_update_timeout := t1,
                     platform_timeout := t2 } with
          log := (sliceCore cfg inp
            { s with log := s.log ++ evs1, interface_update_timeout := t1,
                     platform_timeout := t2 }).log ++ evs2,
          extruder_manage_timeout := t3, therm_sensor_timeout := t4, extruder_update := u } ∧
      (∀ e ∈ evs1, Event.isSampling e = true) ∧ (∀ e ∈ evs2, Event.isSampling e = true) := by
  obtain ⟨e1, t1, h1, he1⟩ := sliceInterface_eq cfg inp s
  obtain ⟨e2, t2, h2, he2⟩ := slicePlatform_eq cfg (sliceInterface cfg inp s).1
  have hpre : slicePlatform cfg (sliceInterface cfg inp s).1 =
      { s with log := s.log ++ (e1 ++ e2), interface_update_timeout := t1,
               platform_timeout := t2 } := by
    rw [h2, h1]; simp
  have hev : ∀ e ∈ e1 ++ e2, Event.isSampling e = true := by
    intro e he
    rcases List.mem_append.1 he with h | h
    · exact he1 e h
    · exact he2 e h
  obtain ⟨e3, t3, t4, u, h3, he3⟩ := sliceTail_eq cfg inp (sliceInterface cfg inp s).2
    { s with log := s.log ++ (e1 ++ e2), interface_update_timeout := t1, platform_timeout := t2 }
  refine ⟨e1 ++ e2, t1, t2, e3, t3, t4, u, ?_, hev, he3⟩
  rw [← h3]
  simp only [runMotherboardSlice, hpre]

/-! ## Helper facts -/

theorem count_of_sampling (evs : List Event) (h : ∀ e ∈ evs, Event.isSampling e = true)
    (a : Event) (ha : Event.isSampling a = false) : evs.count a = 0 := by
  apply List.count_eq_zero_of_not_mem
  intro hmem
  rw [h a hmem] at ha
  exact Bool.noConfusion ha

theorem countP_of_sampling (evs : List Event) (h : ∀ e ∈ evs, Event.isSampling e = true)
    (p : Event → Bool) (hp : ∀ e, Event.isSampling e = true → p e = false) :
    evs.countP p = 0 := by
  rw [List.countP_eq_zero]
  intro e he
  simp [hp e (h e he)]

/-- The loop over the axes, run for `n` axes. -/
theorem foldl_enableAxis (n : Nat) (s : Motherboard) :
    (List.range n).foldl (fun st i => enableAxis i false st) s =
      { s with
        axis_enabled := fun j => if j < n then false else s.axis_enabled j,
        log := s.log ++ (List.range n).map (fun i => Event.enableAxis i false) } := by
  induction n with
  | zero => cases s; simp
  | succ k ih =>
    rw [List.range_succ, List.foldl_append, ih]
    simp only [List.foldl_cons, List.foldl_nil, enableAxis, emit, List.map_append,
      List.map_cons, List.map_nil, List.append_assoc]
    congr 1
    funext j
    by_cases h1 : j = k
    · subst h1; simp
    · by_cases h2 : j < k
      · simp [h1, h2, Nat.lt_succ_of_lt h2]
      · have h3 : ¬ j < k + 1 := by omega
        simp [h1, h2, h3]

theorem disableAllAxes_eq (cfg : Config) (s : Motherboard) :
    disableAllAxes cfg s =
      { s with
        axis_enabled := fun j => if j < cfg.STEPPER_COUNT then false else s.axis_enabled j,
        log := s.log ++ (List.range cfg.STEPPER_COUNT).map (fun i => Event.enableAxis i false) } :=
  foldl_enableAxis cfg.STEPPER_COUNT s

theorem count_enableAxis_map (n : Nat) (a : Event) (ha : ∀ i, a ≠ Event.enableAxis i false) :
    ((List.range n).map (fun i => Event.enableAxis i false)).count a = 0 := by
  apply List.count_eq_zero_of_not_mem
  intro hmem
  obtain ⟨i, _, hi⟩ := List.mem_map.1 hmem
  exact ha i hi.symm

theorem countP_enableAxis_map (n : Nat) (p : Event → Bool)
    (hp : ∀ i, p (Event.enableAxis i false) = false) :
    ((List.range n).map (fun i => Event.enableAxis i false)).countP p = 0 := by
  rw [List.countP_eq_zero]
  intro e he
  obtain ⟨i, _, hi⟩ := List.mem_map.1 he
  rw [← hi, hp i]
  simp

theorem sliceButtonWait_eq (inp : SliceInput) (s : Motherboard) :
    ∃ evs ps, sliceButtonWait inp s =
        { s with log := s.log ++ evs,
                 buttonWait := s.buttonWait && !inp.buttonPushed,
                 popScreen := ps,
                 triggered := s.triggered && !(s.buttonWait && inp.buttonPushed) } ∧
      (∀ e ∈ evs, Event.isAcknowledge e = true) ∧
      ((s.buttonWait && inp.buttonPushed) = false → evs = []) := by
  simp only [sliceButtonWait, interfaceBlink, emit]
  by_cases h1 : s.buttonWait = true
  · by_cases h2 : inp.buttonPushed = true
    · by_cases h3 : s.reset_request = true
      · exact ⟨[.interfaceBlink 0 0, .setDefaultColor, .doneWithMessage s.popScreen, .stopBuild],
          true, by simp [h1, h2, h3], by simp [Event.isAcknowledge], by simp [h1, h2]⟩
      · exact ⟨[.interfaceBlink 0 0, .setDefaultColor, .doneWithMessage s.popScreen],
          true, by simp [h1, h2, h3], by simp [Event.isAcknowledge], by simp [h1, h2]⟩
    · exact ⟨[], s.popScreen, by cases s; simp_all, by simp, by simp⟩
  · exact ⟨[], s.popScreen, by cases s; simp_all, by simp, by simp⟩

theorem sliceOnboard_eq (cfg : Config) (s : Motherboard) :
    sliceOnboard cfg s = { s with heat_hold_timeout := onboardHeatHold cfg s } := by
  simp only [sliceOnboard, onboardHeatHold, abortHeatHoldTimeout]
  split_ifs
  · rfl
  · rfl

/-- The button-wait block followed by the onboard-process block. -/
theorem slicePrelude_eq (cfg : Config) (inp : SliceInput) (s : Motherboard) :
    ∃ evs ps, sliceOnboard cfg (sliceButtonWait inp s) =
        { s with log := s.log ++ evs,
                 buttonWait := s.buttonWait && !inp.buttonPushed,
                 popScreen := ps,
                 triggered := s.triggered && !(s.buttonWait && inp.buttonPushed),
                 heat_hold_timeout := onboardHeatHold cfg s } ∧
      (∀ e ∈ evs, Event.isAcknowledge e = true) ∧
      ((s.buttonWait && inp.buttonPushed) = false → evs = []) := by
  obtain ⟨evs, ps, h, h1, h2⟩ := sliceButtonWait_eq inp s
  refine ⟨evs, ps, ?_, h1, h2⟩
  rw [sliceOnboard_eq, h]
  rfl

theorem count_of_acknowledge (evs : List Event) (h : ∀ e ∈ evs, Event.isAcknowledge e = true)
    (a : Event) (ha : Event.isAcknowledge a = false) : evs.count a = 0 := by
  apply List.count_eq_zero_of_not_mem
  intro hmem
  rw [h a hmem] at ha
  exact Bool.noConfusion ha

theorem countP_of_acknowledge (evs : List Event)
    (h : ∀ e ∈ evs, Event.isAcknowledge e = true)
    (p : Event → Bool) (hp : ∀ e, Event.isAcknowledge e = true → p e = false) :
    evs.countP p = 0 := by
  rw [List.countP_eq_zero]
  intro e he
  simp [hp e (h e he)]

theorem sliceInactivity_of_heatShutdown (cfg : Config) (inp : SliceInput) (s : Motherboard)
    (hs : s.heatShutdown = true) : sliceInactivity cfg inp s = s := by
  simp [sliceInactivity, hs]

theorem sliceAnnounce_of_guard_false (cfg : Config) (inp : SliceInput) (s : Motherboard)
    (h : (s.heatShutdown && !s.triggered && !inp.piezoIsPlaying) = false) :
    sliceAnnounce cfg inp s = (s, false) := by
  simp only [sliceAnnounce, h]
  rfl

theorem announceMessage_eq (s : Motherboard) :
    announceMessage s = { s with log := s.log ++ announceEvents s.heatFailMode } := by
  cases s with
  | mk a1 a2 a3 a4 a5 a6 mode a8 a9 a10 a11 a12 a13 a14 a15 a16 a17 a18 a19 a20 a21 a22 a23 a24 =>
    cases mode <;> simp [announceMessage, announceEvents, emit]

/-- The announcement of a failure kind other than not-plugged-in. -/
theorem sliceAnnounce_shutdown (cfg : Config) (inp : SliceInput) (s : Motherboard)
    (hs : s.heatShutdown = true) (ht : s.triggered = false)
    (hp : inp.piezoIsPlaying = false)
    (hm : s.heatFailMode ≠ .HEATER_FAIL_NOT_PLUGGED_IN) :
    sliceAnnounce cfg inp s =
      ({ s with
          triggered := true,
          extruder_one_target := 0, extruder_two_target := 0, platform_target := 0,
          axis_enabled := fun j => if j < cfg.STEPPER_COUNT then false else s.axis_enabled j,
          log := s.log ++ [Event.interfaceBlink 10 10] ++ announceEvents s.heatFailMode ++
            [Event.playTune .TUNE_ERROR, .errorSequence, .hostHeatShutdown,
              .commandHeatShutdown, .steppersAbort] ++
            (List.range cfg.STEPPER_COUNT).map (fun i => Event.enableAxis i false) },
        false) := by
  have hg : (s.heatShutdown && !s.triggered && !inp.piezoIsPlaying) = true := by
    simp [hs, ht, hp]
  have hite : sliceAnnounce cfg inp s =
      (announceShutdown cfg (announceMessage (interfaceBlink 10 10 { s with triggered := true })),
        false) := by
    simp only [sliceAnnounce, hg]
    exact if_neg hm
  rw [hite]
  simp only [interfaceBlink, emit, announceShutdown, disableAllAxes_eq, announceMessage_eq]
  simp

/-- The announcement of the not-plugged-in kind. -/
theorem sliceAnnounce_notPluggedIn (cfg : Config) (inp : SliceInput) (s : Motherboard)
    (hs : s.heatShutdown = true) (ht : s.triggered = false)
    (hp : inp.piezoIsPlaying = false)
    (hm : s.heatFailMode = .HEATER_FAIL_NOT_PLUGGED_IN) :
    sliceAnnounce cfg inp s =
      ({ s with
          triggered := true,
          popScreen := cfg.errorResponse_default_PopScreen,
          reset_request := cfg.errorResponse_default_reset,
          buttonWait := true,
          heatShutdown := false,
          extruder_one_target := if inp.has_failed.extruder_one then 0 else s.extruder_one_target,
          extruder_two_target := if inp.has_failed.extruder_two then 0 else s.extruder_two_target,
          platform_target := if inp.has_failed.platform then 0 else s.platform_target,
          log := s.log ++ [Event.interfaceBlink 10 10,
            .errorMessage .HEATER_FAIL_NOT_PLUGGED_IN_MSG, .interfaceBlink 25 15,
            .waitForButton 255, .playTune .TUNE_ERROR] },
        true) := by
  have hg : (s.heatShutdown && !s.triggered && !inp.piezoIsPlaying) = true := by
    simp [hs, ht, hp]
  have hite : sliceAnnounce cfg inp s =
      (announceNotPluggedIn cfg inp (interfaceBlink 10 10 { s with triggered := true }), true) := by
    simp only [sliceAnnounce, hg]
    exact if_pos hm
  rw [hite]
  cases h1 : inp.has_failed.extruder_one <;> cases h2 : inp.has_failed.extruder_two <;>
    cases h3 : inp.has_failed.platform <;>
    simp [announceNotPluggedIn, errorResponse, startButtonWait, interfaceBlink, emit, h1, h2, h3]

theorem announceEvents_count (m : HeaterFailMode) (a : Event)
    (ha : Event.isErrorMessage a = false) : (announceEvents m).count a = 0 := by
  cases m <;> cases a <;> simp_all [announceEvents, Event.isErrorMessage]

theorem announceEvents_countP_isErrorTone (m : HeaterFailMode) :
    (announceEvents m).countP Event.isErrorTone = 0 := by
  cases m <;> simp [announceEvents, Event.isErrorTone]

theorem isErrorTone_of_isSampling (e : Event) (h : Event.isSampling e = true) :
    Event.isErrorTone e = false := by
  cases e <;> simp_all [Event.isSampling, Event.isErrorTone]

theorem isErrorTone_of_isAcknowledge (e : Event) (h : Event.isAcknowledge e = true) :
    Event.isErrorTone e = false := by
  cases e <;> simp_all [Event.isAcknowledge, Event.isErrorTone]

/-- The core step when the announcement runs for a kind other than
not-plugged-in: the full shutdown. -/
theorem sliceCore_shutdown (cfg : Config) (inp : SliceInput) (s : Motherboard)
    (hs : s.heatShutdown = true)
    (ht : (s.triggered && !(s.buttonWait && inp.buttonPushed)) = false)
    (hp : inp.piezoIsPlaying = false)
    (hm : s.heatFailMode ≠ .HEATER_FAIL_NOT_PLUGGED_IN) :
    ∃ evs ps, sliceCore cfg inp s =
        { s with
          triggered := true,
          buttonWait := s.buttonWait && !inp.buttonPushed,
          popScreen := ps,
          heat_hold_timeout := onboardHeatHold cfg s,
          extruder_one_target := 0, extruder_two_target := 0, platform_target := 0,
          axis_enabled := fun j => if j < cfg.STEPPER_COUNT then false else s.axis_enabled j,
          log := s.log ++ evs ++ [Event.interfaceBlink 10 10] ++
            announceEvents s.heatFailMode ++
            [Event.playTune .TUNE_ERROR, .errorSequence, .hostHeatShutdown,
              .commandHeatShutdown, .steppersAbort] ++
            (List.range cfg.STEPPER_COUNT).map (fun i => Event.enableAxis i false) } ∧
      (∀ e ∈ evs, Event.isAcknowledge e = true) := by
  obtain ⟨evs, ps, hB, hack, _⟩ := slicePrelude_eq cfg inp s
  refine ⟨evs, ps, ?_, hack⟩
  unfold sliceCore
  generalize sliceOnboard cfg (sliceButtonWait inp s) = B at hB
  have h1 : B.heatShutdown = true := by rw [hB]; exact hs
  have h2 : B.triggered = false := by rw [hB]; exact ht
  have h3 : B.heatFailMode ≠ .HEATER_FAIL_NOT_PLUGGED_IN := by rw [hB]; exact hm
  rw [sliceInactivity_of_heatShutdown cfg inp B h1, sliceAnnounce_shutdown cfg inp B h1 h2 hp h3]
  subst hB
  rfl

theorem onboardHeatHold_hasElapsed (cfg : Config) (s : Motherboard) :
    (onboardHeatHold cfg s).hasElapsed cfg.MICROS_WIDTH s.micros =
      (s.heat_hold_timeout.hasElapsed cfg.MICROS_WIDTH s.micros &&
        decide (s.board_status &&& cfg.STATUS_ONBOARD_PROCESS = 0)) := by
  unfold onboardHeatHold
  by_cases h1 : s.heat_hold_timeout.hasElapsed cfg.MICROS_WIDTH s.micros = true
  · by_cases h2 : s.board_status &&& cfg.STATUS_ONBOARD_PROCESS = 0
    · simp [h1, h2]
    · have hc : (s.heat_hold_timeout.hasElapsed cfg.MICROS_WIDTH s.micros &&
          decide (s.board_status &&& cfg.STATUS_ONBOARD_PROCESS ≠ 0)) = true := by
        simp [h1, h2]
      rw [if_pos hc, h1]
      simp [Timeout.hasElapsed, Timeout.abort, Timeout.clear, h2]
  · simp [h1]

/-- The core step when neither the inactivity path nor the announcement runs. -/
theorem sliceCore_skip (cfg : Config) (inp : SliceInput) (s : Motherboard)
    (hi : inactivityGuard cfg inp s = false) (ha : announceGuard inp s = false) :
    ∃ evs ps, sliceCore cfg inp s =
        { s with log := s.log ++ evs,
                 buttonWait := s.buttonWait && !inp.buttonPushed,
                 popScreen := ps,
                 triggered := s.triggered && !(s.buttonWait && inp.buttonPushed),
                 heat_hold_timeout := onboardHeatHold cfg s } ∧
      (∀ e ∈ evs, Event.isAcknowledge e = true) ∧
      ((s.buttonWait && inp.buttonPushed) = false → evs = []) := by
  obtain ⟨evs, ps, hB, hack, hnil⟩ := slicePrelude_eq cfg inp s
  refine ⟨evs, ps, ?_, hack, hnil⟩
  unfold sliceCore
  generalize sliceOnboard cfg (sliceButtonWait inp s) = B at hB
  have h1 : sliceInactivity cfg inp B = B := by
    subst hB
    unfold inactivityGuard at hi
    simp only [sliceInactivity, hi]
    rfl
  have h2 : (B.heatShutdown && !B.triggered && !inp.piezoIsPlaying) = false := by
    subst hB
    exact ha
  rw [h1, sliceAnnounce_of_guard_false cfg inp B h2]
  exact hB

/-- The core step when the inactivity path runs. -/
theorem sliceCore_inactivity (cfg : Config) (inp : SliceInput) (s : Motherboard)
    (hi : inactivityGuard cfg inp s = true) :
    ∃ evs ps, sliceCore cfg inp s =
        { s with
          board_status := (s.board_status ||| cfg.STATUS_HEAT_INACTIVE_SHUTDOWN) &&&
            (0xFF ^^^ cfg.STATUS_PREHEATING),
          buttonWait := (s.buttonWait && !inp.buttonPushed) || inactivityWarns cfg inp s,
          popScreen := ps,
          triggered := s.triggered && !(s.buttonWait && inp.buttonPushed),
          user_input_timeout := s.user_input_timeout.clear s.micros,
          heat_hold_timeout :=
            if (onboardHeatHold cfg s).hasElapsed cfg.MICROS_WIDTH s.micros
            then ((onboardHeatHold cfg s).clear s.micros).abort else onboardHeatHold cfg s,
          extruder_one_target := 0, extruder_two_target := 0, platform_target := 0,
          log := s.log ++ evs ++
            (if inactivityWarns cfg inp s
             then [Event.errorMessage .HEATER_INACTIVITY_MSG, .interfaceBlink 25 15,
                    .waitForButton 255, .setColor 0 0 255 true]
             else []) } ∧
      (∀ e ∈ evs, Event.isAcknowledge e = true) := by
  obtain ⟨evs, ps, hB, hack, _⟩ := slicePrelude_eq cfg inp s
  refine ⟨evs, ps, ?_, hack⟩
  have hsd : s.heatShutdown = false := by
    unfold inactivityGuard at hi
    cases h : s.heatShutdown
    · rfl
    · simp [h] at hi
  unfold sliceCore
  generalize sliceOnboard cfg (sliceButtonWait inp s) = B at hB
  have h1 : sliceInactivity cfg inp B =
      { B with
          board_status := (B.board_status ||| cfg.STATUS_HEAT_INACTIVE_SHUTDOWN) &&&
            (0xFF ^^^ cfg.STATUS_PREHEATING),
          buttonWait := B.buttonWait || inactivityWarns cfg inp B,
          user_input_timeout := B.user_input_timeout.clear B.micros,
          heat_hold_timeout :=
            if B.heat_hold_timeout.hasElapsed cfg.MICROS_WIDTH B.micros
            then (B.heat_hold_timeout.clear B.micros).abort else B.heat_hold_timeout,
          extruder_one_target := 0, extruder_two_target := 0, platform_target := 0,
          log := B.log ++
            (if inactivityWarns cfg inp B
             then [Event.errorMessage .HEATER_INACTIVITY_MSG, .interfaceBlink 25 15,
                    .waitForButton 255, .setColor 0 0 255 true]
             else []) } := by
    have hg : ((B.heat_hold_timeout.hasElapsed cfg.MICROS_WIDTH B.micros ||
          B.user_input_timeout.hasElapsed cfg.MICROS_WIDTH B.micros) &&
        !B.heatShutdown &&
        decide (inp.hostState ≠ .HOST_STATE_BUILDING_FROM_SD) &&
        decide (inp.hostState ≠ .HOST_STATE_BUILDING)) = true := by
      subst hB
      exact hi
    clear hB hi
    simp only [sliceInactivity, hg, if_true]
    cases hw : inactivityWarns cfg inp B
    · unfold inactivityWarns at hw
      simp only [hw]
      by_cases he : B.heat_hold_timeout.hasElapsed cfg.MICROS_WIDTH B.micros = true
      · simp [he, abortHeatHoldTimeout]
      · simp [he]
    · unfold inactivityWarns at hw
      simp only [hw]
      by_cases he : B.heat_hold_timeout.hasElapsed cfg.MICROS_WIDTH B.micros = true
      · simp [he, abortHeatHoldTimeout, startButtonWait, interfaceBlink, emit]
      · simp [he, startButtonWait, interfaceBlink, emit]
  rw [h1]
  have h2 : sliceAnnounce cfg inp
      { B with
          board_status := (B.board_status ||| cfg.STATUS_HEAT_INACTIVE_SHUTDOWN) &&&
            (0xFF ^^^ cfg.STATUS_PREHEATING),
          buttonWait := B.buttonWait || inactivityWarns cfg inp B,
          user_input_timeout := B.user_input_timeout.clear B.micros,
          heat_hold_timeout :=
            if B.heat_hold_timeout.hasElapsed cfg.MICROS_WIDTH B.micros
            then (B.heat_hold_timeout.clear B.micros).abort else B.heat_hold_timeout,
          extruder_one_target := 0, extruder_two_target := 0, platform_target := 0,
          log := B.log ++
            (if inactivityWarns cfg inp B
             then [Event.errorMessage .HEATER_INACTIVITY_MSG, .interfaceBlink 25 15,
                    .waitForButton 255, .setColor 0 0 255 true]
             else []) } = (_, false) :=
    sliceAnnounce_of_guard_false cfg inp _ (by subst hB; simp [hsd])
  rw [h2]
  subst hB
  rfl

/-- The core step when the announcement runs for the not-plugged-in kind: the
dismissible response. -/
theorem sliceCore_notPluggedIn (cfg : Config) (inp : SliceInput) (s : Motherboard)
    (hs : s.heatShutdown = true)
    (ht : (s.triggered && !(s.buttonWait && inp.buttonPushed)) = false)
    (hp : inp.piezoIsPlaying = false)
    (hm : s.heatFailMode = .HEATER_FAIL_NOT_PLUGGED_IN) :
    ∃ evs, sliceCore cfg inp s =
        { s with
          triggered := true,
          buttonWait := true,
          popScreen := cfg.errorResponse_default_PopScreen,
          reset_request := cfg.errorResponse_default_reset,
          heatShutdown := false,
          heat_hold_timeout := onboardHeatHold cfg s,
          extruder_one_target := if inp.has_failed.extruder_one then 0 else s.extruder_one_target,
          extruder_two_target := if inp.has_failed.extruder_two then 0 else s.extruder_two_target,
          platform_target := if inp.has_failed.platform then 0 else s.platform_target,
          log := s.log ++ evs ++ [Event.interfaceBlink 10 10,
            .errorMessage .HEATER_FAIL_NOT_PLUGGED_IN_MSG, .interfaceBlink 25 15,
            .waitForButton 255, .playTune .TUNE_ERROR] } ∧
      (∀ e ∈ evs, Event.isAcknowledge e = true) := by
  obtain ⟨evs, ps, hB, hack, _⟩ := slicePrelude_eq cfg inp s
  refine ⟨evs, ?_, hack⟩
  unfold sliceCore
  generalize sliceOnboard cfg (sliceButtonWait inp s) = B at hB
  have h1 : B.heatShutdown = true := by rw [hB]; exact hs
  have h2 : B.triggered = false := by rw [hB]; exact ht
  have h3 : B.heatFailMode = .HEATER_FAIL_NOT_PLUGGED_IN := by rw [hB]; exact hm
  rw [sliceInactivity_of_heatShutdown cfg inp B h1,
    sliceAnnounce_notPluggedIn cfg inp B h1 h2 hp h3]
  subst hB
  rfl

/-! ## The four cases of one slice -/

/-- A slice in which neither the inactivity path nor the announcement runs. -/
theorem runMotherboardSlice_skip (cfg : Config) (inp : SliceInput) (s : Motherboard)
    (hi : inactivityGuard cfg inp s = false) (ha : announceGuard inp s = false) :
    ∃ e1 evs e2 ps t1 t2 t3 t4 u, runMotherboardSlice cfg inp s =
        { s with
          interface_update_timeout := t1, platform_timeout := t2,
          extruder_manage_timeout := t3, therm_sensor_timeout := t4, extruder_update := u,
          buttonWait := s.buttonWait && !inp.buttonPushed,
          popScreen := ps,
          triggered := s.triggered && !(s.buttonWait && inp.buttonPushed),
          heat_hold_timeout := onboardHeatHold cfg s,
          log := s.log ++ e1 ++ evs ++ e2 } ∧
      (∀ e ∈ e1, Event.isSampling e = true) ∧
      (∀ e ∈ evs, Event.isAcknowledge e = true) ∧
      ((s.buttonWait && inp.buttonPushed) = false → evs = []) ∧
      (∀ e ∈ e2, Event.isSampling e = true) := by
  obtain ⟨e1, t1, t2, e2, t3, t4, u, h, he1, he2⟩ := runMotherboardSlice_eq cfg inp s
  obtain ⟨evs, ps, hc, hack, hnil⟩ := sliceCore_skip cfg inp
    { s with log := s.log ++ e1, interface_update_timeout := t1, platform_timeout := t2 }
    hi ha
  refine ⟨e1, evs, e2, ps, t1, t2, t3, t4, u, ?_, he1, hack, hnil, he2⟩
  rw [h, hc]
  rfl

/-- A slice in which the inactivity path runs. -/
theorem runMotherboardSlice_inactivity (cfg : Config) (inp : SliceInput) (s : Motherboard)
    (hi : inactivityGuard cfg inp s = true) :
    ∃ e1 evs e2 ps t1 t2 t3 t4 u, runMotherboardSlice cfg inp s =
        { s with
          interface_update_timeout := t1, platform_timeout := t2,
          extruder_manage_timeout := t3, therm_sensor_timeout := t4, extruder_update := u,
          board_status := (s.board_status ||| cfg.STATUS_HEAT_INACTIVE_SHUTDOWN) &&&
            (0xFF ^^^ cfg.STATUS_PREHEATING),
          buttonWait := (s.buttonWait && !inp.buttonPushed) || inactivityWarns cfg inp s,
          popScreen := ps,
          triggered := s.triggered && !(s.buttonWait && inp.buttonPushed),
          user_input_timeout := s.user_input_timeout.clear s.micros,
          heat_hold_timeout :=
            if (onboardHeatHold cfg s).hasElapsed cfg.MICROS_WIDTH s.micros
            then ((onboardHeatHold cfg s).clear s.micros).abort else onboardHeatHold cfg s,
          extruder_one_target := 0, extruder_two_target := 0, platform_target := 0,
          log := s.log ++ e1 ++ evs ++
            (if inactivityWarns cfg inp s
             then [Event.errorMessage .HEATER_INACTIVITY_MSG, .interfaceBlink 25 15,
                    .waitForButton 255, .setColor 0 0 255 true]
             else []) ++ e2 } ∧
      (∀ e ∈ e1, Event.isSampling e = true) ∧
      (∀ e ∈ evs, Event.isAcknowledge e = true) ∧
      (∀ e ∈ e2, Event.isSampling e = true) := by
  obtain ⟨e1, t1, t2, e2, t3, t4, u, h, he1, he2⟩ := runMotherboardSlice_eq cfg inp s
  obtain ⟨evs, ps, hc, hack⟩ := sliceCore_inactivity cfg inp
    { s with log := s.log ++ e1, interface_update_timeout := t1, platform_timeout := t2 }
    hi
  refine ⟨e1, evs, e2, ps, t1, t2, t3, t4, u, ?_, he1, hack, he2⟩
  rw [h, hc]
  rfl

/-- A slice in which the announcement runs for a kind other than
not-plugged-in. -/
theorem runMotherboardSlice_shutdown (cfg : Config) (inp : SliceInput) (s : Motherboard)
    (hs : s.heatShutdown = true)
    (ht : (s.triggered && !(s.buttonWait && inp.buttonPushed)) = false)
    (hp : inp.piezoIsPlaying = false)
    (hm : s.heatFailMode ≠ .HEATER_FAIL_NOT_PLUGGED_IN) :
    ∃ e1 evs e2 ps t1 t2 t3 t4 u, runMotherboardSlice cfg inp s =
        { s with
          interface_update_timeout := t1, platform_timeout := t2,
          extruder_manage_timeout := t3, therm_sensor_timeout := t4, extruder_update := u,
          triggered := true,
          buttonWait := s.buttonWait && !inp.buttonPushed,
          popScreen := ps,
          heat_hold_timeout := onboardHeatHold cfg s,
          extruder_one_target := 0, extruder_two_target := 0, platform_target := 0,
          axis_enabled := fun j => if j < cfg.STEPPER_COUNT then false else s.axis_enabled j,
          log := s.log ++ e1 ++ evs ++ [Event.interfaceBlink 10 10] ++
            announceEvents s.heatFailMode ++
            [Event.playTune .TUNE_ERROR, .errorSequence, .hostHeatShutdown,
              .commandHeatShutdown, .steppersAbort] ++
            (List.range cfg.STEPPER_COUNT).map (fun i => Event.enableAxis i false) ++ e2 } ∧
      (∀ e ∈ e1, Event.isSampling e = true) ∧
      (∀ e ∈ evs, Event.isAcknowledge e = true) ∧
      (∀ e ∈ e2, Event.isSampling e = true) := by
  obtain ⟨e1, t1, t2, e2, t3, t4, u, h, he1, he2⟩ := runMotherboardSlice_eq cfg inp s
  obtain ⟨evs, ps, hc, hack⟩ := sliceCore_shutdown cfg inp
    { s with log := s.log ++ e1, interface_update_timeout := t1, platform_timeout := t2 }
    hs ht hp hm
  refine ⟨e1, evs, e2, ps, t1, t2, t3, t4, u, ?_, he1, hack, he2⟩
  rw [h, hc]
  rfl

/-- A slice in which the announcement runs for the not-plugged-in kind; the
function returns before the extruder block. -/
theorem runMotherboardSlice_notPluggedIn (cfg : Config) (inp : SliceInput) (s : Motherboard)
    (hs : s.heatShutdown = true)
    (ht : (s.triggered && !(s.buttonWait && inp.buttonPushed)) = false)
    (hp : inp.piezoIsPlaying = false)
    (hm : s.heatFailMode = .HEATER_FAIL_NOT_PLUGGED_IN) :
    ∃ e1 evs e2 t1 t2 t3 t4 u, runMotherboardSlice cfg inp s =
        { s with
          interface_update_timeout := t1, platform_timeout := t2,
          extruder_manage_timeout := t3, therm_sensor_timeout := t4, extruder_update := u,
          triggered := true,
          buttonWait := true,
          popScreen := cfg.errorResponse_default_PopScreen,
          reset_request := cfg.errorResponse_default_reset,
          heatShutdown := false,
          heat_hold_timeout := onboardHeatHold cfg s,
          extruder_one_target := if inp.has_failed.extruder_one then 0 else s.extruder_one_target,
          extruder_two_target := if inp.has_failed.extruder_two then 0 else s.extruder_two_target,
          platform_target := if inp.has_failed.platform then 0 else s.platform_target,
          log := s.log ++ e1 ++ evs ++ [Event.interfaceBlink 10 10,
            .errorMessage .HEATER_FAIL_NOT_PLUGGED_IN_MSG, .interfaceBlink 25 15,
            .waitForButton 255, .playTune .TUNE_ERROR] ++ e2 } ∧
      (∀ e ∈ e1, Event.isSampling e = true) ∧
      (∀ e ∈ evs, Event.isAcknowledge e = true) ∧
      (∀ e ∈ e2, Event.isSampling e = true) := by
  obtain ⟨e1, t1, t2, e2, t3, t4, u, h, he1, he2⟩ := runMotherboardSlice_eq cfg inp s
  obtain ⟨evs, hc, hack⟩ := sliceCore_notPluggedIn cfg inp
    { s with log := s.log ++ e1, interface_update_timeout := t1, platform_timeout := t2 }
    hs ht hp hm
  refine ⟨e1, evs, e2, t1, t2, t3, t4, u, ?_, he1, hack, he2⟩
  rw [h, hc]
  rfl

/-- Claim C1: when `heatShutdown` is set, `triggered` is clear, no tone is playing
and `heatFailMode` is one of the four latching kinds, one invocation of
`runMotherboardSlice` ends with the three heater targets at zero, every stepper
axis below `STEPPER_COUNT` disabled, motion aborted (`steppers::abort` called
once), host and command processing shut down (each called once), the error
tone played exactly once, and `triggered` set. -/
theorem runMotherboardSlice_latching_announcement (cfg : Config) (inp : SliceInput)
    (s : Motherboard)
    (hs : s.heatShutdown = true) (ht : s.triggered = false)
    (hp : inp.piezoIsPlaying = false) (hm : s.heatFailMode.isLatching = true) :
    (runMotherboardSlice cfg inp s).extruder_one_target = 0 ∧
    (runMotherboardSlice cfg inp s).extruder_two_target = 0 ∧
    (runMotherboardSlice cfg inp s).platform_target = 0 ∧
    (∀ i, i < cfg.STEPPER_COUNT → (runMotherboardSlice cfg inp s).axis_enabled i = false) ∧
    (runMotherboardSlice cfg inp s).log.count .steppersAbort =
      s.log.count .steppersAbort + 1 ∧
    (runMotherboardSlice cfg inp s).log.count .hostHeatShutdown =
      s.log.count .hostHeatShutdown + 1 ∧
    (runMotherboardSlice cfg inp s).log.count .commandHeatShutdown =
      s.log.count .commandHeatShutdown + 1 ∧
    (runMotherboardSlice cfg inp s).log.countP Event.isErrorTone =
      s.log.countP Event.isErrorTone + 1 ∧
    (runMotherboardSlice cfg inp s).triggered = true := by
  have hne : s.heatFailMode ≠ .HEATER_FAIL_NOT_PLUGGED_IN := by
    intro h; rw [h] at hm; exact Bool.noConfusion hm
  obtain ⟨e1, t1, t2, e2, t3, t4, u, h, he1, he2⟩ := runMotherboardSlice_eq cfg inp s
  obtain ⟨evs, ps, hc, hack⟩ := sliceCore_shutdown cfg inp
    { s with log := s.log ++ e1, interface_update_timeout := t1, platform_timeout := t2 }
    hs (by simp [ht]) hp hne
  rw [h, hc]
  clear h hc
  have hP1 := countP_of_sampling e1 he1 Event.isErrorTone isErrorTone_of_isSampling
  have hP2 := countP_of_sampling e2 he2 Event.isErrorTone isErrorTone_of_isSampling
  have hP3 := countP_of_acknowledge evs hack Event.isErrorTone isErrorTone_of_isAcknowledge
  refine ⟨rfl, rfl, rfl, ?_, ?_, ?_, ?_, ?_, rfl⟩
  · intro i hi
    simp [hi]
  · simp [List.count_append, count_of_sampling e1 he1, count_of_sampling e2 he2,
      count_of_acknowledge evs hack, announceEvents_count, count_enableAxis_map,
      Event.isSampling, Event.isAcknowledge, Event.isErrorMessage]
  · simp [List.count_append, count_of_sampling e1 he1, count_of_sampling e2 he2,
      count_of_acknowledge evs hack, announceEvents_count, count_enableAxis_map,
      Event.isSampling, Event.isAcknowledge, Event.isErrorMessage]
  · simp [List.count_append, count_of_sampling e1 he1, count_of_sampling e2 he2,
      count_of_acknowledge evs hack, announceEvents_count, count_enableAxis_map,
      Event.isSampling, Event.isAcknowledge, Event.isErrorMessage]
  · simp [List.countP_append, hP1, hP2, hP3, announceEvents_countP_isErrorTone,
      countP_enableAxis_map, Event.isErrorTone]

/-- Instance of claim C1: a pending not-heating failure on the example board. -/
theorem runMotherboardSlice_latching_announcement_witness :
    ({ exampleBoard with heatShutdown := true,
                         heatFailMode := .HEATER_FAIL_NOT_HEATING }).heatShutdown = true ∧
    (runMotherboardSlice exampleConfig exampleInput
      { exampleBoard with heatShutdown := true,
                          heatFailMode := .HEATER_FAIL_NOT_HEATING }).extruder_one_target = 0 ∧
    (runMotherboardSlice exampleConfig exampleInput
      { exampleBoard with heatShutdown := true,
                          heatFailMode := .HEATER_FAIL_NOT_HEATING }).triggered = true :=
  ⟨rfl,
   (runMotherboardSlice_latching_announcement exampleConfig exampleInput
      { exampleBoard with heatShutdown := true, heatFailMode := .HEATER_FAIL_NOT_HEATING }
      rfl rfl rfl rfl).1,
   (runMotherboardSlice_latching_announcement exampleConfig exampleInput
      { exampleBoard with heatShutdown := true, heatFailMode := .HEATER_FAIL_NOT_HEATING }
      rfl rfl rfl rfl).2.2.2.2.2.2.2.2⟩

theorem isHeaterFailMessage_of_isSampling (e : Event) (h : Event.isSampling e = true) :
    Event.isHeaterFailMessage e = false := by
  cases e <;> simp_all [Event.isSampling, Event.isHeaterFailMessage]

theorem isHeaterFailMessage_of_isAcknowledge (e : Event) (h : Event.isAcknowledge e = true) :
    Event.isHeaterFailMessage e = false := by
  cases e <;> simp_all [Event.isAcknowledge, Event.isHeaterFailMessage]

/-- A slice run while the announcement has been made and no acknowledgment is
served keeps the failure latched and announces nothing. -/
theorem runMotherboardSlice_latched_quiet (cfg : Config) (inp : SliceInput) (s : Motherboard)
    (hs : s.heatShutdown = true) (ht : s.triggered = true)
    (hb : s.buttonWait = false ∨ inp.buttonPushed = false) :
    (runMotherboardSlice cfg inp s).heatShutdown = true ∧
    (runMotherboardSlice cfg inp s).triggered = true ∧
    (runMotherboardSlice cfg inp s).buttonWait = s.buttonWait ∧
    (runMotherboardSlice cfg inp s).log.countP Event.isErrorTone =
      s.log.countP Event.isErrorTone ∧
    (runMotherboardSlice cfg inp s).log.countP Event.isHeaterFailMessage =
      s.log.countP Event.isHeaterFailMessage := by
  have hnp : (s.buttonWait && inp.buttonPushed) = false := by
    rcases hb with h | h <;> simp [h]
  obtain ⟨e1, evs, e2, ps, t1, t2, t3, t4, u, h, he1, _, hnil, he2⟩ :=
    runMotherboardSlice_skip cfg inp s (by simp [inactivityGuard, hs])
      (by simp [announceGuard, ht, hnp])
  rw [h, hnil hnp]
  clear h
  have hT1 := countP_of_sampling e1 he1 Event.isErrorTone isErrorTone_of_isSampling
  have hT2 := countP_of_sampling e2 he2 Event.isErrorTone isErrorTone_of_isSampling
  have hM1 := countP_of_sampling e1 he1 Event.isHeaterFailMessage
    isHeaterFailMessage_of_isSampling
  have hM2 := countP_of_sampling e2 he2 Event.isHeaterFailMessage
    isHeaterFailMessage_of_isSampling
  refine ⟨hs, ?_, ?_, ?_, ?_⟩
  · simp [ht, hnp]
  · rcases hb with h | h <;> simp [h]
  · simp [List.countP_append, hT1, hT2]
  · simp [List.countP_append, hM1, hM2]

theorem runSlices_latched_quiet (cfg : Config) (inps : List SliceInput) :
    ∀ s : Motherboard, s.heatShutdown = true → s.triggered = true →
      (s.buttonWait = false ∨ ∀ inp ∈ inps, inp.buttonPushed = false) →
      (runSlices cfg inps s).log.countP Event.isErrorTone = s.log.countP Event.isErrorTone ∧
      (runSlices cfg inps s).log.countP Event.isHeaterFailMessage =
        s.log.countP Event.isHeaterFailMessage := by
  induction inps with
  | nil => intro s _ _ _; exact ⟨rfl, rfl⟩
  | cons inp rest ih =>
    intro s hs ht hb
    have hb1 : s.buttonWait = false ∨ inp.buttonPushed = false := by
      rcases hb with h | h
      · exact Or.inl h
      · exact Or.inr (h inp (List.mem_cons_self inp rest))
    obtain ⟨h1, h2, h3, h4, h5⟩ := runMotherboardSlice_latched_quiet cfg inp s hs ht hb1
    have hb2 : (runMotherboardSlice cfg inp s).buttonWait = false ∨
        ∀ i ∈ rest, i.buttonPushed = false := by
      rcases hb with h | h
      · exact Or.inl (h3.trans h)
      · exact Or.inr (fun i hi => h i (List.mem_cons_of_mem inp hi))
    obtain ⟨h6, h7⟩ := ih (runMotherboardSlice cfg inp s) h1 h2 hb2
    exact ⟨h6.trans h4, h7.trans h5⟩

/-- The state right after the announcement of a latching failure. -/
theorem runMotherboardSlice_latching_state (cfg : Config) (inp : SliceInput) (s : Motherboard)
    (hs : s.heatShutdown = true) (ht : s.triggered = false)
    (hp : inp.piezoIsPlaying = false) (hm : s.heatFailMode.isLatching = true) :
    (runMotherboardSlice cfg inp s).heatShutdown = true ∧
    (runMotherboardSlice cfg inp s).triggered = true ∧
    (runMotherboardSlice cfg inp s).heatFailMode = s.heatFailMode ∧
    (runMotherboardSlice cfg inp s).buttonWait = (s.buttonWait && !inp.buttonPushed) := by
  have hne : s.heatFailMode ≠ .HEATER_FAIL_NOT_PLUGGED_IN := by
    intro h; rw [h] at hm; exact Bool.noConfusion hm
  obtain ⟨e1, evs, e2, ps, t1, t2, t3, t4, u, h, _, _, _⟩ :=
    runMotherboardSlice_shutdown cfg inp s hs (by simp [ht]) hp hne
  rw [h]
  exact ⟨hs, rfl, rfl, rfl⟩

/-- Claim C2 (the code departs from it): a latching failure (software cutoff)
is reported while the acknowledgment wait of an inactivity warning is pending.
The next slice announces it once (one error tone, one heater-failure message,
one `steppers::abort`) and sets `triggered`; the slice in which the button is
then pushed clears `triggered` at line 557 and the whole response runs a second
time: the tone, the message and the shutdown calls are all issued again. -/
theorem latching_announcement_repeats_after_button_push :
    exampleFailureDuringWait.heatShutdown = true ∧
    exampleFailureDuringWait.heatFailMode.isLatching = true ∧
    exampleFailureDuringWait.buttonWait = true ∧
    exampleFailureDuringWait.log.countP Event.isErrorTone = 0 ∧
    exampleFailureDuringWait.log.countP Event.isHeaterFailMessage = 0 ∧
    (runMotherboardSlice exampleConfig exampleInput exampleFailureDuringWait).triggered = true ∧
    (runMotherboardSlice exampleConfig exampleInput exampleFailureDuringWait).log.countP
        Event.isErrorTone = 1 ∧
    (runMotherboardSlice exampleConfig exampleInput exampleFailureDuringWait).log.countP
        Event.isHeaterFailMessage = 1 ∧
    (runMotherboardSlice exampleConfig exampleInput exampleFailureDuringWait).log.count
        .steppersAbort = 1 ∧
    (runSlices exampleConfig [{ exampleInput with buttonPushed := true }]
      (runMotherboardSlice exampleConfig exampleInput exampleFailureDuringWait)).log.countP
        Event.isErrorTone = 2 ∧
    (runSlices exampleConfig [{ exampleInput with buttonPushed := true }]
      (runMotherboardSlice exampleConfig exampleInput exampleFailureDuringWait)).log.countP
        Event.isHeaterFailMessage = 2 ∧
    (runSlices exampleConfig [{ exampleInput with buttonPushed := true }]
      (runMotherboardSlice exampleConfig exampleInput exampleFailureDuringWait)).log.count
        .steppersAbort = 2 := by
  decide

/-- The one-shot holds as long as no acknowledgment is served: after the
announcement of a latching heater failure, if no acknowledgment wait is pending
(`buttonWait` clear) or the button is not pushed in any further slice, then for
every sequence of further `runMotherboardSlice` invocations, whatever their
other inputs, the error tone is not played again and no heater-failure message
is sent again. -/
theorem no_reannouncement_without_acknowledgment (cfg : Config) (inp0 : SliceInput)
    (inps : List SliceInput) (s : Motherboard)
    (hs : s.heatShutdown = true) (ht : s.triggered = false)
    (hp : inp0.piezoIsPlaying = false) (hm : s.heatFailMode.isLatching = true)
    (hb : (runMotherboardSlice cfg inp0 s).buttonWait = false ∨
      ∀ inp ∈ inps, inp.buttonPushed = false) :
    (runSlices cfg inps (runMotherboardSlice cfg inp0 s)).log.countP Event.isErrorTone =
      (runMotherboardSlice cfg inp0 s).log.countP Event.isErrorTone ∧
    (runSlices cfg inps (runMotherboardSlice cfg inp0 s)).log.countP
        Event.isHeaterFailMessage =
      (runMotherboardSlice cfg inp0 s).log.countP Event.isHeaterFailMessage := by
  obtain ⟨h1, h2, _, _⟩ := runMotherboardSlice_latching_state cfg inp0 s hs ht hp hm
  exact runSlices_latched_quiet cfg inps (runMotherboardSlice cfg inp0 s) h1 h2 hb

/-- Instance: no wait is pending after the announcement, and two further slices,
one with the button pushed, add no error tone. -/
theorem no_reannouncement_without_acknowledgment_witness :
    (runMotherboardSlice exampleConfig exampleInput
      { exampleBoard with heatShutdown := true,
                          heatFailMode := .HEATER_FAIL_NOT_HEATING }).buttonWait = false ∧
    (runSlices exampleConfig
        [{ exampleInput with buttonPushed := true }, exampleInput]
        (runMotherboardSlice exampleConfig exampleInput
          { exampleBoard with heatShutdown := true,
                              heatFailMode := .HEATER_FAIL_NOT_HEATING })).log.countP
        Event.isErrorTone =
      (runMotherboardSlice exampleConfig exampleInput
        { exampleBoard with heatShutdown := true,
                            heatFailMode := .HEATER_FAIL_NOT_HEATING }).log.countP
        Event.isErrorTone :=
  ⟨by decide,
   (no_reannouncement_without_acknowledgment exampleConfig exampleInput
      [{ exampleInput with buttonPushed := true }, exampleInput]
      { exampleBoard with heatShutdown := true, heatFailMode := .HEATER_FAIL_NOT_HEATING }
      rfl rfl rfl rfl (Or.inl (by decide))).1⟩

/-! ## Calls that are neither an announcement nor a shutdown action -/

theorem countP_of_routine (evs : List Event) (p : Event → Bool)
    (h : ∀ e ∈ evs, Event.isRoutine e = true)
    (hp : ∀ e, Event.isRoutine e = true → p e = false) : evs.countP p = 0 := by
  rw [List.countP_eq_zero]
  intro e he
  simp [hp e (h e he)]

theorem isRoutine_of_isSampling (e : Event) (h : Event.isSampling e = true) :
    Event.isRoutine e = true := by
  cases e <;> simp_all [Event.isSampling, Event.isRoutine]

theorem isRoutine_of_isAcknowledge (e : Event) (h : Event.isAcknowledge e = true) :
    Event.isRoutine e = true := by
  unfold Event.isRoutine
  split <;> simp_all

theorem isErrorTone_of_isRoutine (e : Event) (h : Event.isRoutine e = true) :
    Event.isErrorTone e = false := by
  cases e <;> simp_all [Event.isRoutine, Event.isSampling, Event.isAcknowledge,
    Event.isErrorTone]

theorem isHeaterFailMessage_of_isRoutine (e : Event) (h : Event.isRoutine e = true) :
    Event.isHeaterFailMessage e = false := by
  cases e with
  | errorMessage m =>
    cases m <;> simp_all [Event.isRoutine, Event.isSampling, Event.isAcknowledge,
      Event.isHeaterFailMessage]
  | _ => simp_all [Event.isHeaterFailMessage]

/-- While `heatShutdown` is clear a slice leaves it clear, leaves the
not-plugged-in latch alone and issues routine calls only. -/
theorem runMotherboardSlice_normal (cfg : Config) (inp : SliceInput) (s : Motherboard)
    (hs : s.heatShutdown = false) :
    (runMotherboardSlice cfg inp s).heatShutdown = false ∧
    (runMotherboardSlice cfg inp s).connectionsErrorTriggered = s.connectionsErrorTriggered ∧
    ∃ evs, (runMotherboardSlice cfg inp s).log = s.log ++ evs ∧
      ∀ e ∈ evs, Event.isRoutine e = true := by
  have ha : announceGuard inp s = false := by simp [announceGuard, hs]
  cases hi : inactivityGuard cfg inp s
  · obtain ⟨e1, evs, e2, ps, t1, t2, t3, t4, u, h, he1, hack, _, he2⟩ :=
      runMotherboardSlice_skip cfg inp s hi ha
    rw [h]
    refine ⟨hs, rfl, e1 ++ evs ++ e2, by simp, ?_⟩
    intro e he
    simp only [List.mem_append] at he
    rcases he with (h1 | h1) | h1
    · exact isRoutine_of_isSampling e (he1 e h1)
    · exact isRoutine_of_isAcknowledge e (hack e h1)
    · exact isRoutine_of_isSampling e (he2 e h1)
  · obtain ⟨e1, evs, e2, ps, t1, t2, t3, t4, u, h, he1, hack, he2⟩ :=
      runMotherboardSlice_inactivity cfg inp s hi
    rw [h]
    refine ⟨hs, rfl, e1 ++ evs ++ (if inactivityWarns cfg inp s
             then [Event.errorMessage .HEATER_INACTIVITY_MSG, .interfaceBlink 25 15,
                    .waitForButton 255, .setColor 0 0 255 true]
             else []) ++ e2, by simp, ?_⟩
    intro e he
    simp only [List.mem_append] at he
    rcases he with ((h1 | h1) | h1) | h1
    · exact isRoutine_of_isSampling e (he1 e h1)
    · exact isRoutine_of_isAcknowledge e (hack e h1)
    · split at h1
      · simp only [List.mem_cons, List.mem_singleton, List.not_mem_nil, or_false] at h1
        rcases h1 with h1 | h1 | h1 | h1 <;> · subst h1; rfl
      · simp at h1
    · exact isRoutine_of_isSampling e (he2 e h1)

theorem runSlices_normal (cfg : Config) (inps : List SliceInput) :
    ∀ s : Motherboard, s.heatShutdown = false →
      (runSlices cfg inps s).heatShutdown = false ∧
      (runSlices cfg inps s).connectionsErrorTriggered = s.connectionsErrorTriggered ∧
      ∃ evs, (runSlices cfg inps s).log = s.log ++ evs ∧
        ∀ e ∈ evs, Event.isRoutine e = true := by
  induction inps with
  | nil => intro s hs; exact ⟨hs, rfl, [], by simp [runSlices], by simp⟩
  | cons inp rest ih =>
    intro s hs
    obtain ⟨h1, h2, ev1, h3, h4⟩ := runMotherboardSlice_normal cfg inp s hs
    obtain ⟨h5, h6, ev2, h7, h8⟩ := ih (runMotherboardSlice cfg inp s) h1
    refine ⟨h5, h6.trans h2, ev1 ++ ev2, ?_, ?_⟩
    · show (runSlices cfg rest (runMotherboardSlice cfg inp s)).log = _
      rw [h7, h3, List.append_assoc]
    · intro e he
      rcases List.mem_append.1 he with h | h
      · exact h4 e h
      · exact h8 e h

/-- Claim C3 (the code departs from it): a latching failure (not-heating) is
pending; a not-plugged-in report that `heaterFail` does not even flag (the
one-shot latch `connectionsErrorTriggered` is already set) still overwrites
`heatFailMode`, and the next slice answers with the dismissible response: it
clears `heatShutdown`, performs no shutdown action and leaves the axes enabled. -/
theorem latched_failure_released_by_not_plugged_in_report :
    ({ exampleBoard with heatShutdown := true, heatFailMode := .HEATER_FAIL_NOT_HEATING,
                         connectionsErrorTriggered := true }).heatFailMode.isLatching = true ∧
    (heaterFail false { extruder_one := false, extruder_two := true, platform := false }
      .HEATER_FAIL_NOT_PLUGGED_IN
      { exampleBoard with heatShutdown := true, heatFailMode := .HEATER_FAIL_NOT_HEATING,
                          connectionsErrorTriggered := true }).heatFailMode =
      .HEATER_FAIL_NOT_PLUGGED_IN ∧
    (runMotherboardSlice exampleConfig exampleInput
      (heaterFail false { extruder_one := false, extruder_two := true, platform := false }
        .HEATER_FAIL_NOT_PLUGGED_IN
        { exampleBoard with heatShutdown := true, heatFailMode := .HEATER_FAIL_NOT_HEATING,
                            connectionsErrorTriggered := true })).heatShutdown = false ∧
    (runMotherboardSlice exampleConfig exampleInput
      (heaterFail false { extruder_one := false, extruder_two := true, platform := false }
        .HEATER_FAIL_NOT_PLUGGED_IN
        { exampleBoard with heatShutdown := true, heatFailMode := .HEATER_FAIL_NOT_HEATING,
                            connectionsErrorTriggered := true })).log.countP
        Event.isLatchingAction = 0 ∧
    (runMotherboardSlice exampleConfig exampleInput
      (heaterFail false { extruder_one := false, extruder_two := true, platform := false }
        .HEATER_FAIL_NOT_PLUGGED_IN
        { exampleBoard with heatShutdown := true, heatFailMode := .HEATER_FAIL_NOT_HEATING,
                            connectionsErrorTriggered := true })).axis_enabled 0 = true ∧
    (runMotherboardSlice exampleConfig exampleInput
      (heaterFail false { extruder_one := false, extruder_two := true, platform := false }
        .HEATER_FAIL_NOT_PLUGGED_IN
        { exampleBoard with heatShutdown := true, heatFailMode := .HEATER_FAIL_NOT_HEATING,
                            connectionsErrorTriggered := true })).extruder_one_target = 230 := by
  decide

/-- Claim C4, as stated, fails: in single-tool configuration with only the
platform heater failed, the single-tool policy suppresses the not-plugged-in
report (neither extruder heater has reported) and the latch
`connectionsErrorTriggered` is clear, yet `heaterFail` sets `heatShutdown`:
the guard of lines 354-355 suppresses only while the platform heater has not
failed. -/
theorem single_tool_policy_lifted_by_failed_platform :
    singleToolPolicySuppresses true
      { extruder_one := false, extruder_two := false, platform := true } = true ∧
    exampleBoard.connectionsErrorTriggered = false ∧
    exampleBoard.heatShutdown = false ∧
    (heaterFail true { extruder_one := false, extruder_two := false, platform := true }
      .HEATER_FAIL_NOT_PLUGGED_IN exampleBoard).heatFailMode = .HEATER_FAIL_NOT_PLUGGED_IN ∧
    (heaterFail true { extruder_one := false, extruder_two := false, platform := true }
      .HEATER_FAIL_NOT_PLUGGED_IN exampleBoard).heatShutdown = true := by
  decide

/-- Claim C4, amended: for every prior state and configuration `heaterFail(m)`
records `heatFailMode = m`; for every `m` other than not-plugged-in it sets
`heatShutdown`; for not-plugged-in it sets `heatShutdown` exactly when the call
is neither suppressed - the single-tool policy suppresses it only while the
platform heater has not failed - nor blocked by `connectionsErrorTriggered`,
and otherwise leaves `heatShutdown` as it was. -/
theorem heaterFail_records_mode_and_flags_shutdown (isSingleTool : Bool)
    (has_failed : HeaterReadings) (m : HeaterFailMode) (s : Motherboard) :
    (heaterFail isSingleTool has_failed m s).heatFailMode = m ∧
    (heaterFail isSingleTool has_failed m s).heatShutdown =
      (if m = .HEATER_FAIL_NOT_PLUGGED_IN then
        (if (singleToolPolicySuppresses isSingleTool has_failed = true ∧
              has_failed.platform = false) ∨
            s.connectionsErrorTriggered = true then s.heatShutdown else true)
      else true) := by
  unfold heaterFail singleToolPolicySuppresses
  by_cases hm : m = .HEATER_FAIL_NOT_PLUGGED_IN
  · subst hm
    cases has_failed.platform <;> cases isSingleTool <;> cases has_failed.extruder_one <;>
      cases has_failed.extruder_two <;> cases hc : s.connectionsErrorTriggered <;>
      simp [hc]
  · simp [hm]

/-- Claim C5, as stated, fails: in single-tool configuration with exactly one
extruder heater failed, a failed platform heater lifts the suppression -
`heaterFail(HEATER_FAIL_NOT_PLUGGED_IN)` sets both `heatShutdown` and
`connectionsErrorTriggered`, and the next slice announces. -/
theorem single_tool_not_suppressed_when_platform_failed :
    exampleBoard.heatShutdown = false ∧
    exampleBoard.connectionsErrorTriggered = false ∧
    (heaterFail true { extruder_one := false, extruder_two := true, platform := true }
      .HEATER_FAIL_NOT_PLUGGED_IN exampleBoard).heatShutdown = true ∧
    (heaterFail true { extruder_one := false, extruder_two := true, platform := true }
      .HEATER_FAIL_NOT_PLUGGED_IN exampleBoard).connectionsErrorTriggered = true ∧
    (runMotherboardSlice exampleConfig exampleInput
      (heaterFail true { extruder_one := false, extruder_two := true, platform := true }
        .HEATER_FAIL_NOT_PLUGGED_IN exampleBoard)).log.countP
        Event.isHeaterFailMessage = 1 := by
  decide

/-- Claim C5, amended: in single-tool configuration, when exactly one of the two
extruder heaters reports `has_failed()` and the platform heater does not,
`heaterFail(HEATER_FAIL_NOT_PLUGGED_IN)` leaves `heatShutdown` and
`connectionsErrorTriggered` as they were; so from a state with `heatShutdown`
clear, after any number of later slices `heatShutdown` is still clear and no
error tone and no heater-failure message has been issued. -/
theorem heaterFail_single_tool_suppressed (cfg : Config) (has_failed : HeaterReadings)
    (s : Motherboard) (inps : List SliceInput)
    (hone : has_failed.extruder_one ≠ has_failed.extruder_two)
    (hplat : has_failed.platform = false) :
    (heaterFail true has_failed .HEATER_FAIL_NOT_PLUGGED_IN s).heatShutdown = s.heatShutdown ∧
    (heaterFail true has_failed .HEATER_FAIL_NOT_PLUGGED_IN s).connectionsErrorTriggered =
      s.connectionsErrorTriggered ∧
    (s.heatShutdown = false →
      (runSlices cfg inps
        (heaterFail true has_failed .HEATER_FAIL_NOT_PLUGGED_IN s)).heatShutdown = false ∧
      (runSlices cfg inps
        (heaterFail true has_failed .HEATER_FAIL_NOT_PLUGGED_IN s)).log.countP
          Event.isErrorTone = s.log.countP Event.isErrorTone ∧
      (runSlices cfg inps
        (heaterFail true has_failed .HEATER_FAIL_NOT_PLUGGED_IN s)).log.countP
          Event.isHeaterFailMessage = s.log.countP Event.isHeaterFailMessage) := by
  have hsup : (!has_failed.platform && true &&
      !(has_failed.extruder_one && has_failed.extruder_two)) = true := by
    cases h1 : has_failed.extruder_one <;> cases h2 : has_failed.extruder_two <;>
      simp_all
  have heq : heaterFail true has_failed .HEATER_FAIL_NOT_PLUGGED_IN s =
      { s with heatFailMode := .HEATER_FAIL_NOT_PLUGGED_IN } := by
    simp only [heaterFail, hsup]
    rfl
  rw [heq]
  refine ⟨rfl, rfl, ?_⟩
  intro hs
  obtain ⟨h1, _, evs, h3, h4⟩ := runSlices_normal cfg inps
    { s with heatFailMode := .HEATER_FAIL_NOT_PLUGGED_IN } hs
  refine ⟨h1, ?_, ?_⟩
  · rw [h3, List.countP_append, countP_of_routine evs _ h4 isErrorTone_of_isRoutine]
    rfl
  · rw [h3, List.countP_append, countP_of_routine evs _ h4 isHeaterFailMessage_of_isRoutine]
    rfl

/-- Instance of claim C5 (amended): single tool, only Extruder_Two failed, platform
heater healthy. -/
theorem heaterFail_single_tool_suppressed_witness :
    (false ≠ true) ∧
    (heaterFail true { extruder_one := false, extruder_two := true, platform := false }
      .HEATER_FAIL_NOT_PLUGGED_IN exampleBoard).heatShutdown = exampleBoard.heatShutdown ∧
    (heaterFail true { extruder_one := false, extruder_two := true, platform := false }
      .HEATER_FAIL_NOT_PLUGGED_IN exampleBoard).connectionsErrorTriggered =
      exampleBoard.connectionsErrorTriggered ∧
    exampleBoard.heatShutdown = false ∧
    (runSlices exampleConfig [exampleInput]
      (heaterFail true { extruder_one := false, extruder_two := true, platform := false }
        .HEATER_FAIL_NOT_PLUGGED_IN exampleBoard)).heatShutdown = false :=
  ⟨by decide,
   (heaterFail_single_tool_suppressed exampleConfig
      { extruder_one := false, extruder_two := true, platform := false } exampleBoard
      [exampleInput] (by decide) rfl).1,
   (heaterFail_single_tool_suppressed exampleConfig
      { extruder_one := false, extruder_two := true, platform := false } exampleBoard
      [exampleInput] (by decide) rfl).2.1,
   rfl,
   ((heaterFail_single_tool_suppressed exampleConfig
      { extruder_one := false, extruder_two := true, platform := false } exampleBoard
      [exampleInput] (by decide) rfl).2.2 rfl).1⟩

theorem isNotPluggedInMessage_of_isRoutine (e : Event) (h : Event.isRoutine e = true) :
    Event.isNotPluggedInMessage e = false := by
  cases e with
  | errorMessage m =>
    cases m <;> simp_all [Event.isRoutine, Event.isSampling, Event.isAcknowledge,
      Event.isNotPluggedInMessage]
  | _ => simp_all [Event.isNotPluggedInMessage]

theorem heaterFail_notPluggedIn_blocked (isSingleTool : Bool) (has_failed : HeaterReadings)
    (s : Motherboard) (hc : s.connectionsErrorTriggered = true) :
    heaterFail isSingleTool has_failed .HEATER_FAIL_NOT_PLUGGED_IN s =
      { s with heatFailMode := .HEATER_FAIL_NOT_PLUGGED_IN } := by
  simp only [heaterFail, hc]
  split_ifs <;> rfl

theorem heaterFail_notPluggedIn_fresh (isSingleTool : Bool) (has_failed : HeaterReadings)
    (s : Motherboard) (hc : s.connectionsErrorTriggered = false)
    (h1 : has_failed.extruder_one = true) (h2 : has_failed.extruder_two = true) :
    heaterFail isSingleTool has_failed .HEATER_FAIL_NOT_PLUGGED_IN s =
      { s with heatFailMode := .HEATER_FAIL_NOT_PLUGGED_IN,
               connectionsErrorTriggered := true, heatShutdown := true } := by
  simp [heaterFail, hc, h1, h2]

/-- After the not-plugged-in acknowledgment has been raised (`heatShutdown`
clear again, latch set) no step of the session raises another. -/
theorem runSession_notPluggedIn_done (cfg : Config) (ops : List SessionOp) :
    ∀ s : Motherboard, s.heatShutdown = false → s.connectionsErrorTriggered = true →
      (runSession cfg ops s).log.countP Event.isNotPluggedInMessage =
        s.log.countP Event.isNotPluggedInMessage := by
  induction ops with
  | nil => intro s _ _; rfl
  | cons op rest ih =>
    intro s hs hc
    show (runSession cfg rest (runSessionOp cfg s op)).log.countP _ = _
    cases op with
    | slice inp =>
      simp only [runSessionOp]
      obtain ⟨h1, h2, evs, h3, h4⟩ := runMotherboardSlice_normal cfg inp s hs
      rw [ih (runMotherboardSlice cfg inp s) h1 (h2.trans hc)]
      rw [h3, List.countP_append,
        countP_of_routine evs _ h4 isNotPluggedInMessage_of_isRoutine]
      rfl
    | notPluggedIn single hf =>
      simp only [runSessionOp]
      rw [heaterFail_notPluggedIn_blocked single hf s hc]
      exact ih _ hs hc

/-- While the not-plugged-in report is pending, the first slice without a tone
raises the acknowledgment, and it is the only one of the session. -/
theorem runSession_notPluggedIn_pending (cfg : Config) (ops : List SessionOp) :
    ∀ s : Motherboard, s.heatShutdown = true → s.triggered = false →
      s.heatFailMode = .HEATER_FAIL_NOT_PLUGGED_IN → s.connectionsErrorTriggered = true →
      (runSession cfg ops s).log.countP Event.isNotPluggedInMessage =
        s.log.countP Event.isNotPluggedInMessage +
          (if ops.any SessionOp.isQuietSlice then 1 else 0) := by
  induction ops with
  | nil => intro s _ _ _ _; rfl
  | cons op rest ih =>
    intro s hs ht hm hc
    show (runSession cfg rest (runSessionOp cfg s op)).log.countP _ = _
    cases op with
    | notPluggedIn single hf =>
      simp only [runSessionOp, List.any_cons, SessionOp.isQuietSlice, Bool.false_or]
      rw [heaterFail_notPluggedIn_blocked single hf s hc]
      exact ih _ hs ht rfl hc
    | slice inp =>
      simp only [runSessionOp, List.any_cons, SessionOp.isQuietSlice]
      rcases Bool.eq_false_or_eq_true inp.piezoIsPlaying with hp | hp
      · simp only [hp, Bool.not_true, Bool.false_or]
        obtain ⟨e1, evs, e2, ps, t1, t2, t3, t4, u, h, he1, hack, _, he2⟩ :=
          runMotherboardSlice_skip cfg inp s (by simp [inactivityGuard, hs])
            (by simp [announceGuard, hp])
        have hn := ih (runMotherboardSlice cfg inp s) (by rw [h]; exact hs)
          (by rw [h]; simp [ht]) (by rw [h]; exact hm) (by rw [h]; exact hc)
        rw [hn, h]
        have hP1 := countP_of_routine e1 Event.isNotPluggedInMessage
          (fun e he => isRoutine_of_isSampling e (he1 e he)) isNotPluggedInMessage_of_isRoutine
        have hP2 := countP_of_routine e2 Event.isNotPluggedInMessage
          (fun e he => isRoutine_of_isSampling e (he2 e he)) isNotPluggedInMessage_of_isRoutine
        have hP3 := countP_of_routine evs Event.isNotPluggedInMessage
          (fun e he => isRoutine_of_isAcknowledge e (hack e he))
          isNotPluggedInMessage_of_isRoutine
        simp [List.countP_append, hP1, hP2, hP3]
      · simp only [hp, Bool.not_false, Bool.true_or, if_true]
        obtain ⟨e1, evs, e2, t1, t2, t3, t4, u, h, he1, hack, he2⟩ :=
          runMotherboardSlice_notPluggedIn cfg inp s hs (by simp [ht]) hp hm
        have hd := runSession_notPluggedIn_done cfg rest (runMotherboardSlice cfg inp s)
          (by rw [h]) (by rw [h]; exact hc)
        rw [hd, h]
        have hP1 := countP_of_routine e1 Event.isNotPluggedInMessage
          (fun e he => isRoutine_of_isSampling e (he1 e he)) isNotPluggedInMessage_of_isRoutine
        have hP2 := countP_of_routine e2 Event.isNotPluggedInMessage
          (fun e he => isRoutine_of_isSampling e (he2 e he)) isNotPluggedInMessage_of_isRoutine
        have hP3 := countP_of_routine evs Event.isNotPluggedInMessage
          (fun e he => isRoutine_of_isAcknowledge e (hack e he))
          isNotPluggedInMessage_of_isRoutine
        simp [List.countP_append, hP1, hP2, hP3, Event.isNotPluggedInMessage]

/-- Claim C6: from a fresh session (`connectionsErrorTriggered` and `triggered`
clear; `heatShutdown` need not even be clear) with both extruder heaters
reporting `has_failed()`,
a call `heaterFail(HEATER_FAIL_NOT_PLUGGED_IN)` followed by any sequence of
slices (button pushed or not, any other input) and further
`heaterFail(HEATER_FAIL_NOT_PLUGGED_IN)` calls (any readings) sends the
not-plugged-in message exactly once if some slice of the sequence runs with no
tone playing, and never more than once. -/
theorem notPluggedIn_acknowledged_exactly_once (cfg : Config) (isSingleTool : Bool)
    (has_failed : HeaterReadings) (ops : List SessionOp) (s : Motherboard)
    (hc : s.connectionsErrorTriggered = false) (ht : s.triggered = false)
    (h1 : has_failed.extruder_one = true) (h2 : has_failed.extruder_two = true) :
    (runSession cfg ops
      (heaterFail isSingleTool has_failed .HEATER_FAIL_NOT_PLUGGED_IN s)).log.countP
        Event.isNotPluggedInMessage =
      s.log.countP Event.isNotPluggedInMessage +
        (if ops.any SessionOp.isQuietSlice then 1 else 0) := by
  rw [heaterFail_notPluggedIn_fresh isSingleTool has_failed s hc h1 h2]
  exact runSession_notPluggedIn_pending cfg ops _ rfl ht rfl rfl

/-- Instance of claim C6: six further steps, among them a button push and two more
not-plugged-in reports; the message is sent once. -/
theorem notPluggedIn_acknowledged_exactly_once_witness :
    exampleBoard.connectionsErrorTriggered = false ∧
    (runSession exampleConfig
      [.slice { exampleInput with piezoIsPlaying := true },
       .notPluggedIn true { extruder_one := true, extruder_two := true, platform := false },
       .slice exampleInput,
       .slice { exampleInput with buttonPushed := true },
       .notPluggedIn false { extruder_one := true, extruder_two := true, platform := true },
       .slice exampleInput]
      (heaterFail true { extruder_one := true, extruder_two := true, platform := false }
        .HEATER_FAIL_NOT_PLUGGED_IN exampleBoard)).log.countP
        Event.isNotPluggedInMessage = 1 :=
  ⟨rfl,
   notPluggedIn_acknowledged_exactly_once exampleConfig true
     { extruder_one := true, extruder_two := true, platform := false }
     [.slice { exampleInput with piezoIsPlaying := true },
      .notPluggedIn true { extruder_one := true, extruder_two := true, platform := false },
      .slice exampleInput,
      .slice { exampleInput with buttonPushed := true },
      .notPluggedIn false { extruder_one := true, extruder_two := true, platform := true },
      .slice exampleInput]
     exampleBoard rfl rfl rfl rfl⟩

theorem isErrorMessage_of_isSampling (e : Event) (h : Event.isSampling e = true) :
    Event.isErrorMessage e = false := by
  cases e <;> simp_all [Event.isSampling, Event.isErrorMessage]

theorem isErrorMessage_of_isAcknowledge (e : Event) (h : Event.isAcknowledge e = true) :
    Event.isErrorMessage e = false := by
  cases e <;> simp_all [Event.isAcknowledge, Event.isErrorMessage]

theorem isLatchingAction_of_isRoutine (e : Event) (h : Event.isRoutine e = true) :
    Event.isLatchingAction e = false := by
  cases e <;> simp_all [Event.isRoutine, Event.isSampling, Event.isAcknowledge,
    Event.isLatchingAction]

/-- Claim C7: when the announcement step runs (guard of line 605 true when it is
reached) with `heatFailMode = HEATER_FAIL_NOT_PLUGGED_IN`, the slice raises the
dismissible acknowledgment through `errorResponse` (message, button wait and
error tone once each, `buttonWait` set, `popScreen` and `reset_request` at the
defaults), zeroes the target of exactly the heaters whose `has_failed()` is
true and leaves the other targets unchanged, clears `heatShutdown`, and
performs no latching action: no `steppers::abort`, no axis disabled (enable bits
unchanged), no host or command heat-shutdown. -/
theorem runMotherboardSlice_notPluggedIn_announcement (cfg : Config) (inp : SliceInput)
    (s : Motherboard)
    (hs : s.heatShutdown = true)
    (ht : (s.triggered && !(s.buttonWait && inp.buttonPushed)) = false)
    (hp : inp.piezoIsPlaying = false)
    (hm : s.heatFailMode = .HEATER_FAIL_NOT_PLUGGED_IN) :
    (runMotherboardSlice cfg inp s).log.count (.errorMessage .HEATER_FAIL_NOT_PLUGGED_IN_MSG) =
      s.log.count (.errorMessage .HEATER_FAIL_NOT_PLUGGED_IN_MSG) + 1 ∧
    (runMotherboardSlice cfg inp s).log.countP Event.isErrorMessage =
      s.log.countP Event.isErrorMessage + 1 ∧
    (runMotherboardSlice cfg inp s).log.count (.waitForButton 255) =
      s.log.count (.waitForButton 255) + 1 ∧
    (runMotherboardSlice cfg inp s).log.countP Event.isErrorTone =
      s.log.countP Event.isErrorTone + 1 ∧
    (runMotherboardSlice cfg inp s).buttonWait = true ∧
    (runMotherboardSlice cfg inp s).popScreen = cfg.errorResponse_default_PopScreen ∧
    (runMotherboardSlice cfg inp s).reset_request = cfg.errorResponse_default_reset ∧
    (runMotherboardSlice cfg inp s).extruder_one_target =
      (if inp.has_failed.extruder_one then 0 else s.extruder_one_target) ∧
    (runMotherboardSlice cfg inp s).extruder_two_target =
      (if inp.has_failed.extruder_two then 0 else s.extruder_two_target) ∧
    (runMotherboardSlice cfg inp s).platform_target =
      (if inp.has_failed.platform then 0 else s.platform_target) ∧
    (runMotherboardSlice cfg inp s).heatShutdown = false ∧
    (runMotherboardSlice cfg inp s).log.countP Event.isLatchingAction =
      s.log.countP Event.isLatchingAction ∧
    (runMotherboardSlice cfg inp s).axis_enabled = s.axis_enabled := by
  obtain ⟨e1, evs, e2, t1, t2, t3, t4, u, h, he1, hack, he2⟩ :=
    runMotherboardSlice_notPluggedIn cfg inp s hs ht hp hm
  rw [h]
  clear h
  have hr1 : ∀ e ∈ e1, Event.isRoutine e = true :=
    fun e he => isRoutine_of_isSampling e (he1 e he)
  have hr2 : ∀ e ∈ e2, Event.isRoutine e = true :=
    fun e he => isRoutine_of_isSampling e (he2 e he)
  have hr3 : ∀ e ∈ evs, Event.isRoutine e = true :=
    fun e he => isRoutine_of_isAcknowledge e (hack e he)
  refine ⟨?_, ?_, ?_, ?_, rfl, rfl, rfl, rfl, rfl, rfl, rfl, ?_, rfl⟩
  · simp [List.count_append, count_of_sampling e1 he1, count_of_sampling e2 he2,
      count_of_acknowledge evs hack, Event.isSampling, Event.isAcknowledge]
  · simp [List.countP_append, countP_of_sampling e1 he1 _ isErrorMessage_of_isSampling,
      countP_of_sampling e2 he2 _ isErrorMessage_of_isSampling,
      countP_of_acknowledge evs hack _ isErrorMessage_of_isAcknowledge, Event.isErrorMessage]
  · simp [List.count_append, count_of_sampling e1 he1, count_of_sampling e2 he2,
      count_of_acknowledge evs hack, Event.isSampling, Event.isAcknowledge]
  · simp [List.countP_append, countP_of_routine e1 _ hr1 isErrorTone_of_isRoutine,
      countP_of_routine e2 _ hr2 isErrorTone_of_isRoutine,
      countP_of_routine evs _ hr3 isErrorTone_of_isRoutine, Event.isErrorTone]
  · simp [List.countP_append, countP_of_routine e1 _ hr1 isLatchingAction_of_isRoutine,
      countP_of_routine e2 _ hr2 isLatchingAction_of_isRoutine,
      countP_of_routine evs _ hr3 isLatchingAction_of_isRoutine, Event.isLatchingAction]

/-- Instance of claim C7: only Extruder_Two has failed; its target is zeroed, the
target of Extruder_One stays at 230. -/
theorem runMotherboardSlice_notPluggedIn_announcement_witness :
    ({ exampleBoard with heatShutdown := true,
                         heatFailMode := .HEATER_FAIL_NOT_PLUGGED_IN }).heatShutdown = true ∧
    (runMotherboardSlice exampleConfig
      { exampleInput with
        has_failed := { extruder_one := false, extruder_two := true, platform := false } }
      { exampleBoard with heatShutdown := true,
                          heatFailMode := .HEATER_FAIL_NOT_PLUGGED_IN }).extruder_two_target = 0 ∧
    (runMotherboardSlice exampleConfig
      { exampleInput with
        has_failed := { extruder_one := false, extruder_two := true, platform := false } }
      { exampleBoard with heatShutdown := true,
                          heatFailMode := .HEATER_FAIL_NOT_PLUGGED_IN }).extruder_one_target = 230 ∧
    (runMotherboardSlice exampleConfig
      { exampleInput with
        has_failed := { extruder_one := false, extruder_two := true, platform := false } }
      { exampleBoard with heatShutdown := true,
                          heatFailMode := .HEATER_FAIL_NOT_PLUGGED_IN }).heatShutdown = false :=
  ⟨rfl,
   (runMotherboardSlice_notPluggedIn_announcement exampleConfig
      { exampleInput with
        has_failed := { extruder_one := false, extruder_two := true, platform := false } }
      { exampleBoard with heatShutdown := true, heatFailMode := .HEATER_FAIL_NOT_PLUGGED_IN }
      rfl rfl rfl rfl).2.2.2.2.2.2.2.2.1,
   (runMotherboardSlice_notPluggedIn_announcement exampleConfig
      { exampleInput with
        has_failed := { extruder_one := false, extruder_two := true, platform := false } }
      { exampleBoard with heatShutdown := true, heatFailMode := .HEATER_FAIL_NOT_PLUGGED_IN }
      rfl rfl rfl rfl).2.2.2.2.2.2.2.1,
   (runMotherboardSlice_notPluggedIn_announcement exampleConfig
      { exampleInput with
        has_failed := { extruder_one := false, extruder_two := true, platform := false } }
      { exampleBoard with heatShutdown := true, heatFailMode := .HEATER_FAIL_NOT_PLUGGED_IN }
      rfl rfl rfl rfl).2.2.2.2.2.2.2.2.2.2.1⟩

/-- Claim C8, as stated, fails: the heat-hold timeout has elapsed, no failure is
active, the host is idle, targets are nonzero and the slice is outside the grace
window, but `STATUS_ONBOARD_PROCESS` is set and the user-input timeout has not
elapsed - the slice aborts the heat-hold timeout instead, leaves the targets
alone and sends no message. -/
theorem inactivity_not_run_during_onboard_process :
    Timeout.hasElapsed exampleConfig.MICROS_WIDTH ({ deadline := 0, armed := true } : Timeout)
      exampleBoard.micros = true ∧
    exampleBoard.heatShutdown = false ∧
    exampleInput.hostState = .HOST_STATE_READY ∧
    exampleBoard.extruder_one_target = 230 ∧
    exampleBoard.restart_timeout ≠ ONE_SECOND ∧
    (runMotherboardSlice exampleConfig exampleInput
      { exampleBoard with board_status := 0x09,
                          heat_hold_timeout := { deadline := 0, armed := true } }).extruder_one_target
      = 230 ∧
    (runMotherboardSlice exampleConfig exampleInput
      { exampleBoard with board_status := 0x09,
                          heat_hold_timeout := { deadline := 0, armed := true } }).platform_target
      = 110 ∧
    (runMotherboardSlice exampleConfig exampleInput
      { exampleBoard with board_status := 0x09,
                          heat_hold_timeout := { deadline := 0, armed := true } }).log.countP
        Event.isErrorMessage = 0 ∧
    (runMotherboardSlice exampleConfig exampleInput
      { exampleBoard with board_status := 0x09,
                          heat_hold_timeout := { deadline := 0, armed := true } }).buttonWait
      = false := by
  decide

/-- Claim C8, amended: when the user-input timeout has elapsed, or the heat-hold
timeout has elapsed while `STATUS_ONBOARD_PROCESS` is clear, and `heatShutdown`
is false, the host is idle, at least one of the three heater targets is nonzero
and the slice is not within the post-restart grace window, one invocation of
`runMotherboardSlice` sets all three targets to zero and raises exactly one
acknowledgment: one message, which is `HEATER_INACTIVITY_MSG`, and one button
wait. -/
theorem runMotherboardSlice_inactivity_shutdown (cfg : Config) (inp : SliceInput)
    (s : Motherboard)
    (hto : s.user_input_timeout.hasElapsed cfg.MICROS_WIDTH s.micros = true ∨
      (s.heat_hold_timeout.hasElapsed cfg.MICROS_WIDTH s.micros = true ∧
        s.board_status &&& cfg.STATUS_ONBOARD_PROCESS = 0))
    (hs : s.heatShutdown = false)
    (hidle : inp.hostState = .HOST_STATE_READY)
    (htg : s.extruder_one_target ≠ 0 ∨ s.extruder_two_target ≠ 0 ∨ s.platform_target ≠ 0)
    (hgrace : ¬ (s.restart_timeout = ONE_SECOND ∧
      inp.userInputCurrentElapsed < cfg.USER_INPUT_TIMEOUT)) :
    (runMotherboardSlice cfg inp s).extruder_one_target = 0 ∧
    (runMotherboardSlice cfg inp s).extruder_two_target = 0 ∧
    (runMotherboardSlice cfg inp s).platform_target = 0 ∧
    (runMotherboardSlice cfg inp s).log.count (.errorMessage .HEATER_INACTIVITY_MSG) =
      s.log.count (.errorMessage .HEATER_INACTIVITY_MSG) + 1 ∧
    (runMotherboardSlice cfg inp s).log.countP Event.isErrorMessage =
      s.log.countP Event.isErrorMessage + 1 ∧
    (runMotherboardSlice cfg inp s).log.count (.waitForButton 255) =
      s.log.count (.waitForButton 255) + 1 ∧
    (runMotherboardSlice cfg inp s).buttonWait = true := by
  have hi : inactivityGuard cfg inp s = true := by
    unfold inactivityGuard
    rw [onboardHeatHold_hasElapsed]
    rcases hto with h | ⟨h1, h2⟩
    · simp [h, hs, hidle]
    · simp [h1, h2, hs, hidle]
  have hw : inactivityWarns cfg inp s = true := by
    unfold inactivityWarns
    have h1 : (decide (s.extruder_one_target > 0) || decide (s.extruder_two_target > 0) ||
        decide (s.platform_target > 0)) = true := by
      rcases htg with h | h | h
      · simp [Nat.pos_of_ne_zero h]
      · simp [Nat.pos_of_ne_zero h]
      · simp [Nat.pos_of_ne_zero h]
    have h2 : (decide (s.restart_timeout = ONE_SECOND) &&
        decide (inp.userInputCurrentElapsed < cfg.USER_INPUT_TIMEOUT)) = false := by
      cases hd : (decide (s.restart_timeout = ONE_SECOND) &&
        decide (inp.userInputCurrentElapsed < cfg.USER_INPUT_TIMEOUT))
      · rfl
      · exfalso
        apply hgrace
        simpa using hd
    rw [h1, h2]
    rfl
  obtain ⟨e1, evs, e2, ps, t1, t2, t3, t4, u, h, he1, hack, he2⟩ :=
    runMotherboardSlice_inactivity cfg inp s hi
  rw [h, hw]
  clear h
  refine ⟨rfl, rfl, rfl, ?_, ?_, ?_, ?_⟩
  · simp [List.count_append, count_of_sampling e1 he1, count_of_sampling e2 he2,
      count_of_acknowledge evs hack, Event.isSampling, Event.isAcknowledge]
  · simp [List.countP_append, countP_of_sampling e1 he1 _ isErrorMessage_of_isSampling,
      countP_of_sampling e2 he2 _ isErrorMessage_of_isSampling,
      countP_of_acknowledge evs hack _ isErrorMessage_of_isAcknowledge, Event.isErrorMessage]
  · simp [List.count_append, count_of_sampling e1 he1, count_of_sampling e2 he2,
      count_of_acknowledge evs hack, Event.isSampling, Event.isAcknowledge]
  · simp

/-- Instance of claim C8 (amended): the user-input timeout has elapsed on the
example board. -/
theorem runMotherboardSlice_inactivity_shutdown_witness :
    Timeout.hasElapsed exampleConfig.MICROS_WIDTH ({ deadline := 0, armed := true } : Timeout)
      exampleBoard.micros = true ∧
    (runMotherboardSlice exampleConfig exampleInput
      { exampleBoard with user_input_timeout := { deadline := 0, armed := true } }).platform_target
      = 0 ∧
    (runMotherboardSlice exampleConfig exampleInput
      { exampleBoard with user_input_timeout := { deadline := 0, armed := true } }).buttonWait
      = true :=
  ⟨by decide,
   (runMotherboardSlice_inactivity_shutdown exampleConfig exampleInput
      { exampleBoard with user_input_timeout := { deadline := 0, armed := true } }
      (Or.inl (by decide)) rfl rfl (Or.inl (by decide)) (by decide)).2.2.1,
   (runMotherboardSlice_inactivity_shutdown exampleConfig exampleInput
      { exampleBoard with user_input_timeout := { deadline := 0, armed := true } }
      (Or.inl (by decide)) rfl rfl (Or.inl (by decide)) (by decide)).2.2.2.2.2.2⟩

/-- Claim C9: while the host state is `HOST_STATE_BUILDING` or
`HOST_STATE_BUILDING_FROM_SD` and `heatShutdown` is false, whatever timeouts
have elapsed, one invocation of `runMotherboardSlice` changes no heater target,
leaves `board_status` unchanged (so `STATUS_HEAT_INACTIVE_SHUTDOWN` is not set
and `STATUS_PREHEATING` not cleared), sends no message, arms no button wait and
does not newly set `buttonWait`. -/
theorem runMotherboardSlice_no_inactivity_while_building (cfg : Config) (inp : SliceInput)
    (s : Motherboard)
    (hb : inp.hostState = .HOST_STATE_BUILDING ∨ inp.hostState = .HOST_STATE_BUILDING_FROM_SD)
    (hs : s.heatShutdown = false) :
    (runMotherboardSlice cfg inp s).extruder_one_target = s.extruder_one_target ∧
    (runMotherboardSlice cfg inp s).extruder_two_target = s.extruder_two_target ∧
    (runMotherboardSlice cfg inp s).platform_target = s.platform_target ∧
    (runMotherboardSlice cfg inp s).board_status = s.board_status ∧
    (runMotherboardSlice cfg inp s).log.countP Event.isErrorMessage =
      s.log.countP Event.isErrorMessage ∧
    (runMotherboardSlice cfg inp s).log.count (.waitForButton 255) =
      s.log.count (.waitForButton 255) ∧
    ((runMotherboardSlice cfg inp s).buttonWait = true → s.buttonWait = true) := by
  have hi : inactivityGuard cfg inp s = false := by
    unfold inactivityGuard
    rcases hb with h | h <;> simp [h]
  have ha : announceGuard inp s = false := by simp [announceGuard, hs]
  obtain ⟨e1, evs, e2, ps, t1, t2, t3, t4, u, h, he1, hack, _, he2⟩ :=
    runMotherboardSlice_skip cfg inp s hi ha
  rw [h]
  clear h
  refine ⟨rfl, rfl, rfl, rfl, ?_, ?_, ?_⟩
  · simp [List.countP_append, countP_of_sampling e1 he1 _ isErrorMessage_of_isSampling,
      countP_of_sampling e2 he2 _ isErrorMessage_of_isSampling,
      countP_of_acknowledge evs hack _ isErrorMessage_of_isAcknowledge]
  · simp [List.count_append, count_of_sampling e1 he1, count_of_sampling e2 he2,
      count_of_acknowledge evs hack, Event.isSampling, Event.isAcknowledge]
  · intro hbw
    cases hw : s.buttonWait
    · simp [hw] at hbw
    · rfl

/-- Instance of claim C9: both timeouts elapsed while the host is building. -/
theorem runMotherboardSlice_no_inactivity_while_building_witness :
    ({ exampleInput with hostState := .HOST_STATE_BUILDING }).hostState =
      .HOST_STATE_BUILDING ∧
    (runMotherboardSlice exampleConfig { exampleInput with hostState := .HOST_STATE_BUILDING }
      { exampleBoard with user_input_timeout := { deadline := 0, armed := true },
                          heat_hold_timeout := { deadline := 0, armed := true } }).platform_target
      = 110 ∧
    (runMotherboardSlice exampleConfig { exampleInput with hostState := .HOST_STATE_BUILDING }
      { exampleBoard with user_input_timeout := { deadline := 0, armed := true },
                          heat_hold_timeout := { deadline := 0, armed := true } }).board_status
      = 1 :=
  ⟨rfl,
   (runMotherboardSlice_no_inactivity_while_building exampleConfig
      { exampleInput with hostState := .HOST_STATE_BUILDING }
      { exampleBoard with user_input_timeout := { deadline := 0, armed := true },
                          heat_hold_timeout := { deadline := 0, armed := true } }
      (Or.inl rfl) rfl).2.2.1,
   (runMotherboardSlice_no_inactivity_while_building exampleConfig
      { exampleInput with hostState := .HOST_STATE_BUILDING }
      { exampleBoard with user_input_timeout := { deadline := 0, armed := true },
                          heat_hold_timeout := { deadline := 0, armed := true } }
      (Or.inl rfl) rfl).2.2.2.1⟩

/-- Claim C10, as stated, fails: the heat-hold timeout has elapsed with
`STATUS_ONBOARD_PROCESS` set, but the user-input timeout has elapsed as well
and the host is idle - the inactivity path runs in the same slice, zeroes the
targets and raises the acknowledgment. -/
theorem onboard_process_does_not_stop_user_input_timeout :
    Timeout.hasElapsed exampleConfig.MICROS_WIDTH ({ deadline := 0, armed := true } : Timeout)
      exampleBoard.micros = true ∧
    (0x09 &&& exampleConfig.STATUS_ONBOARD_PROCESS ≠ 0) ∧
    exampleBoard.extruder_one_target = 230 ∧
    exampleBoard.buttonWait = false ∧
    (runMotherboardSlice exampleConfig exampleInput
      { exampleBoard with board_status := 0x09,
                          heat_hold_timeout := { deadline := 0, armed := true },
                          user_input_timeout := { deadline := 0, armed := true }
                          }).extruder_one_target = 0 ∧
    (runMotherboardSlice exampleConfig exampleInput
      { exampleBoard with board_status := 0x09,
                          heat_hold_timeout := { deadline := 0, armed := true },
                          user_input_timeout := { deadline := 0, armed := true }
                          }).log.countP Event.isErrorMessage = 1 ∧
    (runMotherboardSlice exampleConfig exampleInput
      { exampleBoard with board_status := 0x09,
                          heat_hold_timeout := { deadline := 0, armed := true },
                          user_input_timeout := { deadline := 0, armed := true }
                          }).buttonWait = true := by
  decide

/-- Claim C10, amended: when `heat_hold_timeout` has elapsed with
`STATUS_ONBOARD_PROCESS` set, and in that slice neither the user-input timeout
makes the inactivity path run (it has not elapsed, or `heatShutdown` is set, or
the host is building) nor a heater-failure announcement is due (`heatShutdown`
clear, or a tone playing, or `triggered` set with no acknowledgment served),
one invocation of `runMotherboardSlice` clears and aborts `heat_hold_timeout`
(it no longer reports elapsed at any clock value), sends no message, arms no
button wait, does not newly set `buttonWait`, and leaves the three heater
targets unchanged. -/
theorem runMotherboardSlice_onboard_aborts_heat_hold (cfg : Config) (inp : SliceInput)
    (s : Motherboard)
    (hh : s.heat_hold_timeout.hasElapsed cfg.MICROS_WIDTH s.micros = true)
    (hob : s.board_status &&& cfg.STATUS_ONBOARD_PROCESS ≠ 0)
    (hui : s.user_input_timeout.hasElapsed cfg.MICROS_WIDTH s.micros = false ∨
      s.heatShutdown = true ∨ inp.hostState = .HOST_STATE_BUILDING ∨
      inp.hostState = .HOST_STATE_BUILDING_FROM_SD)
    (han : s.heatShutdown = false ∨ inp.piezoIsPlaying = true ∨
      (s.triggered = true ∧ (s.buttonWait = false ∨ inp.buttonPushed = false))) :
    (runMotherboardSlice cfg inp s).heat_hold_timeout =
      (s.heat_hold_timeout.clear s.micros).abort ∧
    (∀ now, (runMotherboardSlice cfg inp s).heat_hold_timeout.hasElapsed cfg.MICROS_WIDTH now
      = false) ∧
    (runMotherboardSlice cfg inp s).log.countP Event.isErrorMessage =
      s.log.countP Event.isErrorMessage ∧
    (runMotherboardSlice cfg inp s).log.count (.waitForButton 255) =
      s.log.count (.waitForButton 255) ∧
    ((runMotherboardSlice cfg inp s).buttonWait = true → s.buttonWait = true) ∧
    (runMotherboardSlice cfg inp s).extruder_one_target = s.extruder_one_target ∧
    (runMotherboardSlice cfg inp s).extruder_two_target = s.extruder_two_target ∧
    (runMotherboardSlice cfg inp s).platform_target = s.platform_target := by
  have hoh : onboardHeatHold cfg s = (s.heat_hold_timeout.clear s.micros).abort := by
    unfold onboardHeatHold
    rw [if_pos (by simp [hh, hob])]
  have hi : inactivityGuard cfg inp s = false := by
    unfold inactivityGuard
    rw [onboardHeatHold_hasElapsed]
    rcases hui with h | h | h | h
    · simp [h, hh, hob]
    · simp [h]
    · simp [h]
    · simp [h]
  have ha : announceGuard inp s = false := by
    unfold announceGuard
    rcases han with h | h | ⟨h1, h2 | h2⟩
    · simp [h]
    · simp [h]
    · simp [h1, h2]
    · simp [h1, h2]
  obtain ⟨e1, evs, e2, ps, t1, t2, t3, t4, u, h, he1, hack, _, he2⟩ :=
    runMotherboardSlice_skip cfg inp s hi ha
  rw [h, hoh]
  clear h
  refine ⟨rfl, ?_, ?_, ?_, ?_, rfl, rfl, rfl⟩
  · intro now
    simp [Timeout.hasElapsed, Timeout.abort, Timeout.clear]
  · simp [List.countP_append, countP_of_sampling e1 he1 _ isErrorMessage_of_isSampling,
      countP_of_sampling e2 he2 _ isErrorMessage_of_isSampling,
      countP_of_acknowledge evs hack _ isErrorMessage_of_isAcknowledge]
  · simp [List.count_append, count_of_sampling e1 he1, count_of_sampling e2 he2,
      count_of_acknowledge evs hack, Event.isSampling, Event.isAcknowledge]
  · intro hbw
    cases hw : s.buttonWait
    · simp [hw] at hbw
    · rfl

/-- Instance of claim C10 (amended): heat-hold timeout elapsed during an onboard
process, user-input timeout not armed, no failure. -/
theorem runMotherboardSlice_onboard_aborts_heat_hold_witness :
    Timeout.hasElapsed exampleConfig.MICROS_WIDTH ({ deadline := 0, armed := true } : Timeout)
      exampleBoard.micros = true ∧
    (0x09 &&& exampleConfig.STATUS_ONBOARD_PROCESS ≠ 0) ∧
    (runMotherboardSlice exampleConfig exampleInput
      { exampleBoard with board_status := 0x09,
                          heat_hold_timeout := { deadline := 0, armed := true }
                          }).heat_hold_timeout = { deadline := 0, armed := false } ∧
    (runMotherboardSlice exampleConfig exampleInput
      { exampleBoard with board_status := 0x09,
                          heat_hold_timeout := { deadline := 0, armed := true }
                          }).extruder_one_target = 230 :=
  ⟨by decide, by decide,
   (runMotherboardSlice_onboard_aborts_heat_hold exampleConfig exampleInput
      { exampleBoard with board_status := 0x09,
                          heat_hold_timeout := { deadline := 0, armed := true } }
      (by decide) (by decide) (Or.inl (by decide)) (Or.inl rfl)).1,
   (runMotherboardSlice_onboard_aborts_heat_hold exampleConfig exampleInput
      { exampleBoard with board_status := 0x09,
                          heat_hold_timeout := { deadline := 0, armed := true } }
      (by decide) (by decide) (Or.inl (by decide)) (Or.inl rfl)).2.2.2.2.2.1⟩

/-! ## The message of each failure kind -/

theorem announceEvents_of_failMessage (m : HeaterFailMode) (msg : Message)
    (hm : m ≠ .HEATER_FAIL_NOT_PLUGGED_IN) (h : failMessage m = some msg) :
    announceEvents m = [Event.errorMessage msg] := by
  cases m <;> simp_all [failMessage, announceEvents]

/-- Claim C11, as stated, fails: `heaterFail(HEATER_FAIL_NONE)` sets
`heatShutdown`, and the announcement that follows performs the shutdown (error
tone, axes disabled) but falls through the switch without sending any message. -/
theorem announcement_of_HEATER_FAIL_NONE_sends_no_message :
    (heaterFail false { extruder_one := false, extruder_two := false, platform := false }
      .HEATER_FAIL_NONE exampleBoard).heatShutdown = true ∧
    (runMotherboardSlice exampleConfig exampleInput
      (heaterFail false { extruder_one := false, extruder_two := false, platform := false }
        .HEATER_FAIL_NONE exampleBoard)).triggered = true ∧
    (runMotherboardSlice exampleConfig exampleInput
      (heaterFail false { extruder_one := false, extruder_two := false, platform := false }
        .HEATER_FAIL_NONE exampleBoard)).log.countP Event.isErrorTone = 1 ∧
    (runMotherboardSlice exampleConfig exampleInput
      (heaterFail false { extruder_one := false, extruder_two := false, platform := false }
        .HEATER_FAIL_NONE exampleBoard)).log.countP Event.isErrorMessage = 0 := by
  decide

/-- Claim C11, amended: every failure kind other than `HEATER_FAIL_NONE` has a
message identifier (`failMessage`, a function of the kind alone), and whenever
the announcement runs with such a kind recorded in `heatFailMode`, the slice
sends exactly one message to the interface, the one of that kind. -/
theorem announcement_sends_the_message_of_the_kind (cfg : Config) (inp : SliceInput)
    (s : Motherboard) (msg : Message)
    (hs : s.heatShutdown = true)
    (ht : (s.triggered && !(s.buttonWait && inp.buttonPushed)) = false)
    (hp : inp.piezoIsPlaying = false)
    (hmsg : failMessage s.heatFailMode = some msg) :
    (∀ m : HeaterFailMode, m ≠ .HEATER_FAIL_NONE → ∃ k, failMessage m = some k) ∧
    (runMotherboardSlice cfg inp s).log.countP Event.isErrorMessage =
      s.log.countP Event.isErrorMessage + 1 ∧
    (runMotherboardSlice cfg inp s).log.count (.errorMessage msg) =
      s.log.count (.errorMessage msg) + 1 := by
  refine ⟨?_, ?_⟩
  · intro m hm
    cases m <;> simp_all [failMessage]
  by_cases hnp : s.heatFailMode = .HEATER_FAIL_NOT_PLUGGED_IN
  · obtain ⟨e1, evs, e2, t1, t2, t3, t4, u, h, he1, hack, he2⟩ :=
      runMotherboardSlice_notPluggedIn cfg inp s hs ht hp hnp
    have hk : msg = .HEATER_FAIL_NOT_PLUGGED_IN_MSG := by
      rw [hnp] at hmsg
      simpa [failMessage] using hmsg.symm
    rw [h, hk]
    clear h
    constructor
    · simp [List.countP_append, countP_of_sampling e1 he1 _ isErrorMessage_of_isSampling,
        countP_of_sampling e2 he2 _ isErrorMessage_of_isSampling,
        countP_of_acknowledge evs hack _ isErrorMessage_of_isAcknowledge,
        Event.isErrorMessage]
    · simp [List.count_append, count_of_sampling e1 he1, count_of_sampling e2 he2,
        count_of_acknowledge evs hack, Event.isSampling, Event.isAcknowledge]
  · obtain ⟨e1, evs, e2, ps, t1, t2, t3, t4, u, h, he1, hack, he2⟩ :=
      runMotherboardSlice_shutdown cfg inp s hs ht hp hnp
    rw [h, announceEvents_of_failMessage s.heatFailMode msg hnp hmsg]
    clear h
    constructor
    · simp [List.countP_append, countP_of_sampling e1 he1 _ isErrorMessage_of_isSampling,
        countP_of_sampling e2 he2 _ isErrorMessage_of_isSampling,
        countP_of_acknowledge evs hack _ isErrorMessage_of_isAcknowledge,
        countP_enableAxis_map, Event.isErrorMessage]
    · simp [List.count_append, count_of_sampling e1 he1, count_of_sampling e2 he2,
        count_of_acknowledge evs hack, count_enableAxis_map, Event.isSampling,
        Event.isAcknowledge]

/-- Instance of claim C11 (amended): a pending dropping-temperature failure. -/
theorem announcement_sends_the_message_of_the_kind_witness :
    failMessage HeaterFailMode.HEATER_FAIL_DROPPING_TEMP =
      some Message.HEATER_FAIL_DROPPING_TEMP_MSG ∧
    (runMotherboardSlice exampleConfig exampleInput
      { exampleBoard with heatShutdown := true,
                          heatFailMode := .HEATER_FAIL_DROPPING_TEMP }).log.countP
        Event.isErrorMessage =
      ({ exampleBoard with heatShutdown := true,
                           heatFailMode := .HEATER_FAIL_DROPPING_TEMP }).log.countP
        Event.isErrorMessage + 1 :=
  ⟨rfl,
   (announcement_sends_the_message_of_the_kind exampleConfig exampleInput
      { exampleBoard with heatShutdown := true, heatFailMode := .HEATER_FAIL_DROPPING_TEMP }
      .HEATER_FAIL_DROPPING_TEMP_MSG rfl rfl rfl rfl).2.1⟩

/-! ## The acknowledgment gate -/

/-- Claim C12 (the code departs from it): an acknowledgment requested through
`errorResponse(msg, true, true)` is served (one `host::stopBuild`), which leaves
`reset_request` set; two ticks later the user-input timeout elapses and the
inactivity warning arms a wait through `startButtonWait`, naming no reset flag;
when that wait is acknowledged `host::stopBuild` is signalled a second time. -/
theorem inactivity_acknowledgment_reuses_stale_reset_request :
    (runTimedOps exampleConfig [.slice { exampleInput with buttonPushed := true }]
      (errorResponse .HEATER_FAIL_NOT_PLUGGED_IN_MSG true true
        { exampleBoard with user_input_timeout := { deadline := 200, armed := true } })
      ).log.count .stopBuild = 1 ∧
    (runTimedOps exampleConfig [.slice { exampleInput with buttonPushed := true }]
      (errorResponse .HEATER_FAIL_NOT_PLUGGED_IN_MSG true true
        { exampleBoard with user_input_timeout := { deadline := 200, armed := true } })
      ).buttonWait = false ∧
    (runTimedOps exampleConfig [.slice { exampleInput with buttonPushed := true }]
      (errorResponse .HEATER_FAIL_NOT_PLUGGED_IN_MSG true true
        { exampleBoard with user_input_timeout := { deadline := 200, armed := true } })
      ).reset_request = true ∧
    (runTimedOps exampleConfig
      [.slice { exampleInput with buttonPushed := true }, .tick, .tick, .slice exampleInput]
      (errorResponse .HEATER_FAIL_NOT_PLUGGED_IN_MSG true true
        { exampleBoard with user_input_timeout := { deadline := 200, armed := true } })
      ).log.count (.errorMessage .HEATER_INACTIVITY_MSG) = 1 ∧
    (runTimedOps exampleConfig
      [.slice { exampleInput with buttonPushed := true }, .tick, .tick, .slice exampleInput]
      (errorResponse .HEATER_FAIL_NOT_PLUGGED_IN_MSG true true
        { exampleBoard with user_input_timeout := { deadline := 200, armed := true } })
      ).buttonWait = true ∧
    (runTimedOps exampleConfig
      [.slice { exampleInput with buttonPushed := true }, .tick, .tick, .slice exampleInput]
      (errorResponse .HEATER_FAIL_NOT_PLUGGED_IN_MSG true true
        { exampleBoard with user_input_timeout := { deadline := 200, armed := true } })
      ).log.count .stopBuild = 1 ∧
    (runTimedOps exampleConfig
      [.slice { exampleInput with buttonPushed := true }, .tick, .tick, .slice exampleInput,
        .slice { exampleInput with buttonPushed := true }]
      (errorResponse .HEATER_FAIL_NOT_PLUGGED_IN_MSG true true
        { exampleBoard with user_input_timeout := { deadline := 200, armed := true } })
      ).log.count .stopBuild = 2 := by
  decide

/-! ## Reset -/

theorem state_reset_heatShutdown (cfg : Config) (ri : ResetInput) (hard_reset : Bool)
    (s : Motherboard) :
    (state_reset cfg ri hard_reset s).heatShutdown = s.heatShutdown ∧
    (state_reset cfg ri hard_reset s).heatFailMode = s.heatFailMode ∧
    (state_reset cfg ri hard_reset s).micros = s.micros ∧
    (state_reset cfg ri hard_reset s).restart_timeout = s.restart_timeout := by
  simp only [state_reset, resetUserInputTimeout, resetHeatHoldTimeout, emit]
  cases cfg.MODEL_REPLICATOR2 <;> cases hard_reset <;> simp

theorem resetInterface_heatShutdown (cfg : Config) (ri : ResetInput) (hard_reset : Bool)
    (s : Motherboard) :
    (resetInterface cfg ri hard_reset s).heatShutdown = s.heatShutdown ∧
    (resetInterface cfg ri hard_reset s).heatFailMode = s.heatFailMode ∧
    (resetInterface cfg ri hard_reset s).micros = s.micros ∧
    (resetInterface cfg ri hard_reset s).restart_timeout = s.restart_timeout := by
  simp only [resetInterface, emit]
  cases s.hasInterfaceBoard <;> cases hard_reset <;> simp

/-- The fields `reset` leaves that the claims about it read. -/
theorem reset_fields (cfg : Config) (ri : ResetInput) (hard_reset : Bool) (s : Motherboard) :
    (reset cfg ri hard_reset s).heatShutdown = (if hard_reset then false else s.heatShutdown) ∧
    (reset cfg ri hard_reset s).heatFailMode =
      (if hard_reset then .HEATER_FAIL_NONE else s.heatFailMode) ∧
    (reset cfg ri hard_reset s).micros = 0 ∧
    (reset cfg ri hard_reset s).restart_timeout =
      restartTimeoutValue cfg ri.heater_timeout_on_cancel := by
  unfold reset
  simp only []
  split_ifs <;>
    simp [emit, interfaceBlink, (state_reset_heatShutdown cfg ri _ _).1,
      (state_reset_heatShutdown cfg ri _ _).2.1, (state_reset_heatShutdown cfg ri _ _).2.2.1,
      (state_reset_heatShutdown cfg ri _ _).2.2.2,
      (resetInterface_heatShutdown cfg ri _ _).1, (resetInterface_heatShutdown cfg ri _ _).2.1,
      (resetInterface_heatShutdown cfg ri _ _).2.2.1,
      (resetInterface_heatShutdown cfg ri _ _).2.2.2]

/-- Claim C14: for every state, `reset(false)` leaves `heatShutdown` and
`heatFailMode` unchanged, and `reset(true)` sets `heatShutdown = false` and
`heatFailMode = HEATER_FAIL_NONE`. -/
theorem reset_keeps_failure_unless_hard (cfg : Config) (ri : ResetInput) (s : Motherboard) :
    (reset cfg ri false s).heatShutdown = s.heatShutdown ∧
    (reset cfg ri false s).heatFailMode = s.heatFailMode ∧
    (reset cfg ri true s).heatShutdown = false ∧
    (reset cfg ri true s).heatFailMode = .HEATER_FAIL_NONE := by
  have h1 := reset_fields cfg ri false s
  have h2 := reset_fields cfg ri true s
  exact ⟨by simpa using h1.1, by simpa using h1.2.1, by simpa using h2.1, by simpa using h2.2.1⟩

/-! ## The restart timeout and the clock -/

theorem restartTimeoutValue_72 (cfg : Config) :
    restartTimeoutValue cfg 72 = 26032704 % 2 ^ cfg.MICROS_WIDTH := by
  have h : wrapLong (wrapLong ((72 : Nat) * (ONE_MINUTE : Int)) + (ONE_SECOND : Int)) =
      ((26032704 : Nat) : Int) := by decide
  unfold restartTimeoutValue
  rw [h]
  have h2 : (((26032704 : Nat) : Int) % 2 ^ cfg.MICROS_WIDTH) =
      (((26032704 % 2 ^ cfg.MICROS_WIDTH : Nat)) : Int) := by
    push_cast
    rfl
  rw [h2, Int.toNat_ofNat]

/-- Claim C15 (the code departs from it): with the stored byte 72 (minutes),
`reset` does not set `restart_timeout` to 72 * 60,000,000 + 1,000,000 =
4,321,000,000: the sum is formed in 32-bit arithmetic and wraps, so whatever the
width of `micros_t` the stored value is at most 26,032,704 (about 26 seconds),
and exactly that for a 32-bit `micros_t`. -/
theorem reset_restart_timeout_wraps_at_72_minutes (cfg : Config) (ri : ResetInput)
    (hard_reset : Bool) (s : Motherboard) :
    72 * ONE_MINUTE + ONE_SECOND = 4321000000 ∧
    (reset cfg { ri with heater_timeout_on_cancel := 72 } hard_reset s).restart_timeout
      ≤ 26032704 ∧
    (reset exampleConfig (exampleReset 72) false exampleBoard).restart_timeout = 26032704 ∧
    (reset exampleConfig (exampleReset 71) false exampleBoard).restart_timeout =
      71 * ONE_MINUTE + ONE_SECOND := by
  refine ⟨by decide, ?_, ?_, ?_⟩
  · rw [(reset_fields cfg _ hard_reset s).2.2.2, restartTimeoutValue_72]
    exact Nat.mod_le _ _
  · rw [(reset_fields exampleConfig _ false exampleBoard).2.2.2]
    decide
  · rw [(reset_fields exampleConfig _ false exampleBoard).2.2.2]
    decide

theorem ticks_micros (cfg : Config) (n : Nat) (s : Motherboard) (h0 : s.micros = 0) :
    (ticks cfg n s).micros = (MICROS_INTERVAL * n) % 2 ^ cfg.MICROS_WIDTH := by
  induction n with
  | zero =>
    simp only [ticks, h0, Nat.mul_zero]
    exact (Nat.zero_mod _).symm
  | succ k ih =>
    simp only [ticks, UpdateMicros]
    rw [ih, Nat.mul_succ, Nat.mod_add_mod]

/-- Claim C18: each `UpdateMicros()` adds the constant `MICROS_INTERVAL = 100` to
`micros` (modulo the counter width `w`), so after `reset()` followed by `n`
ticks `getCurrentMicros()` returns (100 * n) modulo 2^w; and
`getCurrentMicros()` leaves the state, `micros` included, as it was. -/
theorem clock_advances_uniformly (cfg : Config) (ri : ResetInput) (hard_reset : Bool)
    (s : Motherboard) (n : Nat) :
    (UpdateMicros cfg s).micros = (s.micros + 100) % 2 ^ cfg.MICROS_WIDTH ∧
    (getCurrentMicros (ticks cfg n (reset cfg ri hard_reset s))).1 =
      (100 * n) % 2 ^ cfg.MICROS_WIDTH ∧
    (getCurrentMicros s).2 = s := by
  refine ⟨rfl, ?_, rfl⟩
  exact ticks_micros cfg n _ (reset_fields cfg ri hard_reset s).2.2.1

/-! ## Which case a slice is in -/

/-- Every slice is in one of the cases of the four whole-slice theorems. -/
theorem slice_guard_cases (cfg : Config) (inp : SliceInput) (s : Motherboard) :
    (inactivityGuard cfg inp s = false ∧ announceGuard inp s = false) ∨
    inactivityGuard cfg inp s = true ∨
    (s.heatShutdown = true ∧
      (s.triggered && !(s.buttonWait && inp.buttonPushed)) = false ∧
      inp.piezoIsPlaying = false) := by
  cases hi : inactivityGuard cfg inp s
  · cases ha : announceGuard inp s
    · exact Or.inl ⟨rfl, rfl⟩
    · refine Or.inr (Or.inr ?_)
      unfold announceGuard at ha
      cases h1 : s.heatShutdown <;> cases h2 : s.triggered <;> cases h3 : s.buttonWait <;>
        cases h4 : inp.buttonPushed <;> cases h5 : inp.piezoIsPlaying <;>
        simp_all
  · exact Or.inr (Or.inl rfl)

theorem onboardHeatHold_of_disarmed (cfg : Config) (s : Motherboard)
    (h : s.heat_hold_timeout.armed = false) :
    onboardHeatHold cfg s = s.heat_hold_timeout := by
  unfold onboardHeatHold
  have he : s.heat_hold_timeout.hasElapsed cfg.MICROS_WIDTH s.micros = false := by
    simp [Timeout.hasElapsed, h]
  simp [he]

/-- A slice never arms the heat-hold timeout: disarmed before, it is the same
timeout after. -/
theorem runMotherboardSlice_heat_hold_disarmed (cfg : Config) (inp : SliceInput)
    (s : Motherboard) (h : s.heat_hold_timeout.armed = false) :
    (runMotherboardSlice cfg inp s).heat_hold_timeout = s.heat_hold_timeout := by
  have ho := onboardHeatHold_of_disarmed cfg s h
  have he : s.heat_hold_timeout.hasElapsed cfg.MICROS_WIDTH s.micros = false := by
    simp [Timeout.hasElapsed, h]
  rcases slice_guard_cases cfg inp s with ⟨hi, ha⟩ | hi | ⟨hs, ht, hp⟩
  · obtain ⟨e1, evs, e2, ps, t1, t2, t3, t4, u, hr, _⟩ :=
      runMotherboardSlice_skip cfg inp s hi ha
    rw [hr]
    exact ho
  · obtain ⟨e1, evs, e2, ps, t1, t2, t3, t4, u, hr, _⟩ :=
      runMotherboardSlice_inactivity cfg inp s hi
    rw [hr]
    show (if (onboardHeatHold cfg s).hasElapsed cfg.MICROS_WIDTH s.micros = true
      then ((onboardHeatHold cfg s).clear s.micros).abort else onboardHeatHold cfg s) = _
    rw [ho, he]
    rfl
  · by_cases hm : s.heatFailMode = .HEATER_FAIL_NOT_PLUGGED_IN
    · obtain ⟨e1, evs, e2, t1, t2, t3, t4, u, hr, _⟩ :=
        runMotherboardSlice_notPluggedIn cfg inp s hs ht hp hm
      rw [hr]
      exact ho
    · obtain ⟨e1, evs, e2, ps, t1, t2, t3, t4, u, hr, _⟩ :=
        runMotherboardSlice_shutdown cfg inp s hs ht hp hm
      rw [hr]
      exact ho

theorem runTimedOps_heat_hold_disarmed (cfg : Config) (ops : List TimedOp) :
    ∀ s : Motherboard, s.heat_hold_timeout.armed = false →
      (runTimedOps cfg ops s).heat_hold_timeout = s.heat_hold_timeout := by
  induction ops with
  | nil => intro s _; rfl
  | cons op rest ih =>
    intro s h
    show (runTimedOps cfg rest (runTimedOp cfg s op)).heat_hold_timeout = _
    cases op with
    | tick =>
      have h1 : (runTimedOp cfg s .tick).heat_hold_timeout = s.heat_hold_timeout := rfl
      rw [ih _ (by rw [h1]; exact h), h1]
    | slice inp =>
      have h1 : (runTimedOp cfg s (.slice inp)).heat_hold_timeout = s.heat_hold_timeout :=
        runMotherboardSlice_heat_hold_disarmed cfg inp s h
      rw [ih _ (by rw [h1]; exact h), h1]

/-- Claim C16: after `abortHeatHoldTimeout()` the heat-hold timeout reports not
elapsed at every clock value, and it still does after any sequence of clock
ticks (wraparound included) and slices, read at the clock of that moment or at
any other; only `resetHeatHoldTimeout()`, which calls `start()`, arms it
again. -/
theorem aborted_heat_hold_never_elapses (cfg : Config) (s : Motherboard)
    (ops : List TimedOp) (now : Nat) :
    (abortHeatHoldTimeout s).heat_hold_timeout.hasElapsed cfg.MICROS_WIDTH now = false ∧
    (runTimedOps cfg ops (abortHeatHoldTimeout s)).heat_hold_timeout.hasElapsed
      cfg.MICROS_WIDTH now = false ∧
    (runTimedOps cfg ops (abortHeatHoldTimeout s)).heat_hold_timeout.hasElapsed
      cfg.MICROS_WIDTH (runTimedOps cfg ops (abortHeatHoldTimeout s)).micros = false ∧
    (resetHeatHoldTimeout cfg (runTimedOps cfg ops (abortHeatHoldTimeout s))
      ).heat_hold_timeout.armed = true := by
  have ha : (abortHeatHoldTimeout s).heat_hold_timeout.armed = false := rfl
  have hk := runTimedOps_heat_hold_disarmed cfg ops (abortHeatHoldTimeout s) ha
  have hz : ∀ t, (abortHeatHoldTimeout s).heat_hold_timeout.hasElapsed cfg.MICROS_WIDTH t
      = false := by
    intro t
    simp [Timeout.hasElapsed, abortHeatHoldTimeout, Timeout.abort, Timeout.clear]
  refine ⟨hz now, ?_, ?_, rfl⟩
  · rw [hk]; exact hz now
  · rw [hk]; exact hz _

/-! ## Board status flags -/

theorem testBit_of_lt_256 (b i : Nat) (hb : b < 256) (hi : 8 ≤ i) : b.testBit i = false := by
  apply Nat.testBit_lt_two_pow
  calc b < 2 ^ 8 := hb
    _ ≤ 2 ^ i := Nat.pow_le_pow_right (by decide) hi

theorem testBit_255 (i : Nat) : (255 : Nat).testBit i = decide (i < 8) := by
  have h : (255 : Nat) = 2 ^ 8 - 1 := by decide
  rw [h, Nat.testBit_two_pow_sub_one]

/-- Bit `i` of `b & ~m` as the 8-bit model computes it. -/
theorem testBit_clear (b m i : Nat) (hb : b < 256) :
    (b &&& (0xFF ^^^ m)).testBit i = (b.testBit i && !m.testBit i) := by
  rw [Nat.testBit_and, Nat.testBit_xor, testBit_255]
  by_cases hi : i < 8
  · simp [hi]
  · have h8 : 8 ≤ i := by omega
    simp [hi, testBit_of_lt_256 b i hb h8]

theorem lor_lt_256 (b m : Nat) (hb : b < 256) (hm : m < 256) : b ||| m < 256 := by
  have h : b ||| m < 2 ^ 8 := Nat.or_lt_two_pow hb hm
  exact h

theorem clear_lt_256 (b m : Nat) (hb : b < 256) : b &&& (0xFF ^^^ m) < 256 :=
  Nat.lt_of_le_of_lt Nat.and_le_left hb

/-- Claim C17: on the 8-bit status byte `b` and an 8-bit flag mask `m`,
`setBoardStatus(m, true)` yields `b | m` and `setBoardStatus(m, false)` yields
`b & ~m`, bit by bit (so every bit outside `m` is unchanged) and without leaving
the byte; each call is idempotent; and `setBoardStatus(m, false)` after
`setBoardStatus(m, true)` leaves every bit of `m` clear. -/
theorem setBoardStatus_membership (m : Nat) (s : Motherboard)
    (hb : s.board_status < 256) (hm : m < 256) :
    (∀ i, (setBoardStatus m true s).board_status.testBit i =
      (s.board_status.testBit i || m.testBit i)) ∧
    (∀ i, (setBoardStatus m false s).board_status.testBit i =
      (s.board_status.testBit i && !m.testBit i)) ∧
    (∀ i, m.testBit i = false →
      (setBoardStatus m true s).board_status.testBit i = s.board_status.testBit i ∧
      (setBoardStatus m false s).board_status.testBit i = s.board_status.testBit i) ∧
    (setBoardStatus m true s).board_status < 256 ∧
    (setBoardStatus m false s).board_status < 256 ∧
    setBoardStatus m true (setBoardStatus m true s) = setBoardStatus m true s ∧
    setBoardStatus m false (setBoardStatus m false s) = setBoardStatus m false s ∧
    (∀ i, m.testBit i = true →
      (setBoardStatus m false (setBoardStatus m true s)).board_status.testBit i = false) := by
  have hon : ∀ i, (setBoardStatus m true s).board_status.testBit i =
      (s.board_status.testBit i || m.testBit i) := by
    intro i
    simp [setBoardStatus]
  have hoff : ∀ i, (setBoardStatus m false s).board_status.testBit i =
      (s.board_status.testBit i && !m.testBit i) := by
    intro i
    simp only [setBoardStatus]
    exact testBit_clear s.board_status m i hb
  have hon_lt : (setBoardStatus m true s).board_status < 256 := by
    simp only [setBoardStatus]
    exact lor_lt_256 _ _ hb hm
  have hoff_lt : (setBoardStatus m false s).board_status < 256 := by
    simp only [setBoardStatus]
    exact clear_lt_256 _ _ hb
  refine ⟨hon, hoff, ?_, hon_lt, hoff_lt, ?_, ?_, ?_⟩
  · intro i hi
    rw [hon i, hoff i, hi]
    simp
  · have h : (s.board_status ||| m) ||| m = s.board_status ||| m := by
      apply Nat.eq_of_testBit_eq
      intro i
      simp only [Nat.testBit_or]
      cases s.board_status.testBit i <;> cases m.testBit i <;> rfl
    simp only [setBoardStatus, if_true, h]
  · have h : (s.board_status &&& (0xFF ^^^ m)) &&& (0xFF ^^^ m) =
        s.board_status &&& (0xFF ^^^ m) := by
      apply Nat.eq_of_testBit_eq
      intro i
      simp only [Nat.testBit_and]
      cases s.board_status.testBit i <;> cases (0xFF ^^^ m).testBit i <;> rfl
    simp [setBoardStatus, h]
  · intro i hi
    have h1 : (setBoardStatus m false (setBoardStatus m true s)).board_status =
        (s.board_status ||| m) &&& (0xFF ^^^ m) := by
      simp [setBoardStatus]
    rw [h1, testBit_clear _ m i (lor_lt_256 _ _ hb hm), hi]
    simp

/-- Instance of claim C17: setting and clearing `STATUS_ONBOARD_PROCESS` (0x08) on
the status byte 0x41. -/
theorem setBoardStatus_membership_witness :
    ({ exampleBoard with board_status := 0x41 }).board_status < 256 ∧
    (setBoardStatus 0x08 true { exampleBoard with board_status := 0x41 }).board_status
      < 256 ∧
    setBoardStatus 0x08 true
        (setBoardStatus 0x08 true { exampleBoard with board_status := 0x41 }) =
      setBoardStatus 0x08 true { exampleBoard with board_status := 0x41 } :=
  ⟨by decide,
   (setBoardStatus_membership 0x08 { exampleBoard with board_status := 0x41 }
      (by decide) (by decide)).2.2.2.1,
   (setBoardStatus_membership 0x08 { exampleBoard with board_status := 0x41 }
      (by decide) (by decide)).2.2.2.2.2.1⟩

/-! ## Deferral of the announcement -/

/-- A slice run while a failure is pending and a tone is playing. -/
theorem runMotherboardSlice_deferred (cfg : Config) (inp : SliceInput) (s : Motherboard)
    (hs : s.heatShutdown = true) (ht : s.triggered = false)
    (hp : inp.piezoIsPlaying = true) :
    (runMotherboardSlice cfg inp s).heatShutdown = true ∧
    (runMotherboardSlice cfg inp s).triggered = false ∧
    (runMotherboardSlice cfg inp s).heatFailMode = s.heatFailMode ∧
    (runMotherboardSlice cfg inp s).extruder_one_target = s.extruder_one_target ∧
    (runMotherboardSlice cfg inp s).extruder_two_target = s.extruder_two_target ∧
    (runMotherboardSlice cfg inp s).platform_target = s.platform_target ∧
    (runMotherboardSlice cfg inp s).axis_enabled = s.axis_enabled ∧
    ∃ evs, (runMotherboardSlice cfg inp s).log = s.log ++ evs ∧
      ∀ e ∈ evs, Event.isRoutine e = true := by
  obtain ⟨e1, evs, e2, ps, t1, t2, t3, t4, u, h, he1, hack, _, he2⟩ :=
    runMotherboardSlice_skip cfg inp s (by simp [inactivityGuard, hs])
      (by simp [announceGuard, hp])
  rw [h]
  refine ⟨hs, by simp [ht], rfl, rfl, rfl, rfl, rfl, e1 ++ evs ++ e2, by simp, ?_⟩
  intro e he
  simp only [List.mem_append] at he
  rcases he with (h1 | h1) | h1
  · exact isRoutine_of_isSampling e (he1 e h1)
  · exact isRoutine_of_isAcknowledge e (hack e h1)
  · exact isRoutine_of_isSampling e (he2 e h1)

theorem runSlices_deferred (cfg : Config) (inps : List SliceInput) :
    ∀ s : Motherboard, s.heatShutdown = true → s.triggered = false →
      (∀ inp ∈ inps, inp.piezoIsPlaying = true) →
      (runSlices cfg inps s).heatShutdown = true ∧
      (runSlices cfg inps s).triggered = false ∧
      (runSlices cfg inps s).log.countP Event.isErrorTone = s.log.countP Event.isErrorTone := by
  induction inps with
  | nil => intro s hs ht _; exact ⟨hs, ht, rfl⟩
  | cons inp rest ih =>
    intro s hs ht hp
    obtain ⟨h1, h2, _, _, _, _, _, evs, h3, h4⟩ :=
      runMotherboardSlice_deferred cfg inp s hs ht (hp inp (List.mem_cons_self inp rest))
    obtain ⟨h5, h6, h7⟩ := ih (runMotherboardSlice cfg inp s) h1 h2
      (fun i hi => hp i (List.mem_cons_of_mem inp hi))
    refine ⟨h5, h6, ?_⟩
    show (runSlices cfg rest (runMotherboardSlice cfg inp s)).log.countP _ = _
    rw [h7, h3, List.countP_append, countP_of_routine evs _ h4 isErrorTone_of_isRoutine]
    rfl

/-- A slice run while a failure is pending and no tone is playing announces it:
the error tone is played once and `triggered` is set. -/
theorem runMotherboardSlice_announces (cfg : Config) (inp : SliceInput) (s : Motherboard)
    (hs : s.heatShutdown = true) (ht : s.triggered = false)
    (hp : inp.piezoIsPlaying = false) :
    (runMotherboardSlice cfg inp s).triggered = true ∧
    (runMotherboardSlice cfg inp s).log.countP Event.isErrorTone =
      s.log.countP Event.isErrorTone + 1 := by
  by_cases hm : s.heatFailMode = .HEATER_FAIL_NOT_PLUGGED_IN
  · obtain ⟨e1, evs, e2, t1, t2, t3, t4, u, h, he1, hack, he2⟩ :=
      runMotherboardSlice_notPluggedIn cfg inp s hs (by simp [ht]) hp hm
    rw [h]
    refine ⟨rfl, ?_⟩
    simp [List.countP_append, countP_of_sampling e1 he1 _ isErrorTone_of_isSampling,
      countP_of_sampling e2 he2 _ isErrorTone_of_isSampling,
      countP_of_acknowledge evs hack _ isErrorTone_of_isAcknowledge, Event.isErrorTone]
  · obtain ⟨e1, evs, e2, ps, t1, t2, t3, t4, u, h, he1, hack, he2⟩ :=
      runMotherboardSlice_shutdown cfg inp s hs (by simp [ht]) hp hm
    rw [h]
    refine ⟨rfl, ?_⟩
    simp [List.countP_append, countP_of_sampling e1 he1 _ isErrorTone_of_isSampling,
      countP_of_sampling e2 he2 _ isErrorTone_of_isSampling,
      countP_of_acknowledge evs hack _ isErrorTone_of_isAcknowledge,
      announceEvents_countP_isErrorTone, countP_enableAxis_map, Event.isErrorTone]

/-- Claim C19: with `heatShutdown` set and `triggered` clear, a slice during which
`Piezo::isPlaying()` is true sends no heater-failure message, plays no error
tone, issues no shutdown action, changes no heater target and no axis enable
bit, and leaves `heatShutdown` set, `triggered` clear and `heatFailMode` as it
was; and after any number of such slices the first slice with no tone playing
performs the announcement (error tone once, `triggered` set). -/
theorem announcement_deferred_while_tone_plays (cfg : Config) (inp : SliceInput)
    (later : List SliceInput) (quiet : SliceInput) (s : Motherboard)
    (hs : s.heatShutdown = true) (ht : s.triggered = false)
    (hp : inp.piezoIsPlaying = true)
    (hlater : ∀ i ∈ later, i.piezoIsPlaying = true)
    (hquiet : quiet.piezoIsPlaying = false) :
    (runMotherboardSlice cfg inp s).log.countP Event.isHeaterFailMessage =
      s.log.countP Event.isHeaterFailMessage ∧
    (runMotherboardSlice cfg inp s).log.countP Event.isErrorTone =
      s.log.countP Event.isErrorTone ∧
    (runMotherboardSlice cfg inp s).log.countP Event.isLatchingAction =
      s.log.countP Event.isLatchingAction ∧
    (runMotherboardSlice cfg inp s).extruder_one_target = s.extruder_one_target ∧
    (runMotherboardSlice cfg inp s).extruder_two_target = s.extruder_two_target ∧
    (runMotherboardSlice cfg inp s).platform_target = s.platform_target ∧
    (runMotherboardSlice cfg inp s).axis_enabled = s.axis_enabled ∧
    (runMotherboardSlice cfg inp s).heatShutdown = true ∧
    (runMotherboardSlice cfg inp s).triggered = false ∧
    (runMotherboardSlice cfg inp s).heatFailMode = s.heatFailMode ∧
    (runMotherboardSlice cfg quiet
      (runSlices cfg later (runMotherboardSlice cfg inp s))).triggered = true ∧
    (runMotherboardSlice cfg quiet
      (runSlices cfg later (runMotherboardSlice cfg inp s))).log.countP Event.isErrorTone =
      s.log.countP Event.isErrorTone + 1 := by
  obtain ⟨h1, h2, h3, h4, h5, h6, h7, evs, h8, h9⟩ :=
    runMotherboardSlice_deferred cfg inp s hs ht hp
  have hT : (runMotherboardSlice cfg inp s).log.countP Event.isErrorTone =
      s.log.countP Event.isErrorTone := by
    rw [h8, List.countP_append, countP_of_routine evs _ h9 isErrorTone_of_isRoutine]
    rfl
  obtain ⟨k1, k2, k3⟩ := runSlices_deferred cfg later (runMotherboardSlice cfg inp s) h1 h2 hlater
  obtain ⟨a1, a2⟩ := runMotherboardSlice_announces cfg quiet
    (runSlices cfg later (runMotherboardSlice cfg inp s)) k1 k2 hquiet
  refine ⟨?_, hT, ?_, h4, h5, h6, h7, h1, h2, h3, a1, ?_⟩
  · rw [h8, List.countP_append, countP_of_routine evs _ h9 isHeaterFailMessage_of_isRoutine]
    rfl
  · rw [h8, List.countP_append, countP_of_routine evs _ h9 isLatchingAction_of_isRoutine]
    rfl
  · rw [a2, k3, hT]

/-- Instance of claim C19: a pending not-heating failure, one slice with a tone
playing, one more such slice, then a slice without a tone. -/
theorem announcement_deferred_while_tone_plays_witness :
    ({ exampleInput with piezoIsPlaying := true }).piezoIsPlaying = true ∧
    (runMotherboardSlice exampleConfig { exampleInput with piezoIsPlaying := true }
      { exampleBoard with heatShutdown := true,
                          heatFailMode := .HEATER_FAIL_NOT_HEATING }).triggered = false ∧
    (runMotherboardSlice exampleConfig exampleInput
      (runSlices exampleConfig [{ exampleInput with piezoIsPlaying := true }]
        (runMotherboardSlice exampleConfig { exampleInput with piezoIsPlaying := true }
          { exampleBoard with heatShutdown := true,
                              heatFailMode := .HEATER_FAIL_NOT_HEATING }))).triggered = true :=
  ⟨rfl,
   (announcement_deferred_while_tone_plays exampleConfig
      { exampleInput with piezoIsPlaying := true }
      [{ exampleInput with piezoIsPlaying := true }] exampleInput
      { exampleBoard with heatShutdown := true, heatFailMode := .HEATER_FAIL_NOT_HEATING }
      rfl rfl rfl (by decide) rfl).2.2.2.2.2.2.2.2.1,
   (announcement_deferred_while_tone_plays exampleConfig
      { exampleInput with piezoIsPlaying := true }
      [{ exampleInput with piezoIsPlaying := true }] exampleInput
      { exampleBoard with heatShutdown := true, heatFailMode := .HEATER_FAIL_NOT_HEATING }
      rfl rfl rfl (by decide) rfl).2.2.2.2.2.2.2.2.2.2.1⟩

/-! ## The inactivity path -/

theorem inactivityWarns_iff (cfg : Config) (inp : SliceInput) (s : Motherboard) :
    inactivityWarns cfg inp s = true ↔
      ((s.extruder_one_target ≠ 0 ∨ s.extruder_two_target ≠ 0 ∨ s.platform_target ≠ 0) ∧
        ¬ (s.restart_timeout = ONE_SECOND ∧
          inp.userInputCurrentElapsed < cfg.USER_INPUT_TIMEOUT)) := by
  unfold inactivityWarns
  simp only [Bool.and_eq_true, Bool.or_eq_true, decide_eq_true_eq, Bool.not_eq_true',
    Bool.and_eq_false_iff, decide_eq_false_iff_not, Nat.pos_iff_ne_zero, or_assoc]
  constructor
  · rintro ⟨h1, h2⟩
    exact ⟨h1, fun ⟨a, b⟩ => by rcases h2 with h | h <;> [exact h a; exact h b]⟩
  · rintro ⟨h1, h2⟩
    refine ⟨h1, ?_⟩
    by_cases ha : s.restart_timeout = ONE_SECOND
    · exact Or.inr (fun hb => h2 ⟨ha, hb⟩)
    · exact Or.inl ha

/-- Claim C20: in every slice in which the inactivity path runs (status byte and
`STATUS_HEAT_INACTIVE_SHUTDOWN` within 8 bits, the two flags disjoint), every bit
of `STATUS_HEAT_INACTIVE_SHUTDOWN` ends set, every bit of `STATUS_PREHEATING`
ends clear and every other bit of `board_status` is unchanged; the three heater
targets end at zero; and the acknowledgment (one `HEATER_INACTIVITY_MSG`, the
only message of the slice, one button wait, `buttonWait` set) is raised if and
only if some target was nonzero before the slice and the slice is not inside
the grace window - otherwise no message is sent, no wait is armed and
`buttonWait` is not newly set. -/
theorem runMotherboardSlice_inactivity_path (cfg : Config) (inp : SliceInput)
    (s : Motherboard)
    (hi : inactivityGuard cfg inp s = true)
    (hb : s.board_status < 256)
    (hI : cfg.STATUS_HEAT_INACTIVE_SHUTDOWN < 256)
    (hd : cfg.STATUS_HEAT_INACTIVE_SHUTDOWN &&& cfg.STATUS_PREHEATING = 0) :
    (∀ i, cfg.STATUS_HEAT_INACTIVE_SHUTDOWN.testBit i = true →
      (runMotherboardSlice cfg inp s).board_status.testBit i = true) ∧
    (∀ i, cfg.STATUS_PREHEATING.testBit i = true →
      (runMotherboardSlice cfg inp s).board_status.testBit i = false) ∧
    (∀ i, cfg.STATUS_HEAT_INACTIVE_SHUTDOWN.testBit i = false →
      cfg.STATUS_PREHEATING.testBit i = false →
      (runMotherboardSlice cfg inp s).board_status.testBit i = s.board_status.testBit i) ∧
    (runMotherboardSlice cfg inp s).extruder_one_target = 0 ∧
    (runMotherboardSlice cfg inp s).extruder_two_target = 0 ∧
    (runMotherboardSlice cfg inp s).platform_target = 0 ∧
    (inactivityWarns cfg inp s = true ↔
      ((s.extruder_one_target ≠ 0 ∨ s.extruder_two_target ≠ 0 ∨ s.platform_target ≠ 0) ∧
        ¬ (s.restart_timeout = ONE_SECOND ∧
          inp.userInputCurrentElapsed < cfg.USER_INPUT_TIMEOUT))) ∧
    (runMotherboardSlice cfg inp s).log.count (.errorMessage .HEATER_INACTIVITY_MSG) =
      s.log.count (.errorMessage .HEATER_INACTIVITY_MSG) +
        (if inactivityWarns cfg inp s then 1 else 0) ∧
    (runMotherboardSlice cfg inp s).log.countP Event.isErrorMessage =
      s.log.countP Event.isErrorMessage + (if inactivityWarns cfg inp s then 1 else 0) ∧
    (runMotherboardSlice cfg inp s).log.count (.waitForButton 255) =
      s.log.count (.waitForButton 255) + (if inactivityWarns cfg inp s then 1 else 0) ∧
    (runMotherboardSlice cfg inp s).buttonWait =
      ((s.buttonWait && !inp.buttonPushed) || inactivityWarns cfg inp s) := by
  obtain ⟨e1, evs, e2, ps, t1, t2, t3, t4, u, h, he1, hack, he2⟩ :=
    runMotherboardSlice_inactivity cfg inp s hi
  rw [h]
  clear h
  have hbit : ∀ i, ((s.board_status ||| cfg.STATUS_HEAT_INACTIVE_SHUTDOWN) &&&
      (0xFF ^^^ cfg.STATUS_PREHEATING)).testBit i =
      ((s.board_status.testBit i || cfg.STATUS_HEAT_INACTIVE_SHUTDOWN.testBit i) &&
        !cfg.STATUS_PREHEATING.testBit i) := by
    intro i
    rw [testBit_clear _ _ i (lor_lt_256 _ _ hb hI), Nat.testBit_or]
  have hdis : ∀ i, cfg.STATUS_HEAT_INACTIVE_SHUTDOWN.testBit i = true →
      cfg.STATUS_PREHEATING.testBit i = false := by
    intro i h1
    have h2 : (cfg.STATUS_HEAT_INACTIVE_SHUTDOWN &&& cfg.STATUS_PREHEATING).testBit i =
        false := by rw [hd]; exact Nat.zero_testBit i
    rw [Nat.testBit_and, h1] at h2
    simpa using h2
  refine ⟨?_, ?_, ?_, rfl, rfl, rfl, inactivityWarns_iff cfg inp s, ?_, ?_, ?_, rfl⟩
  · intro i h1
    show ((s.board_status ||| cfg.STATUS_HEAT_INACTIVE_SHUTDOWN) &&&
      (0xFF ^^^ cfg.STATUS_PREHEATING)).testBit i = true
    rw [hbit, h1, hdis i h1]
    simp
  · intro i h1
    show ((s.board_status ||| cfg.STATUS_HEAT_INACTIVE_SHUTDOWN) &&&
      (0xFF ^^^ cfg.STATUS_PREHEATING)).testBit i = false
    rw [hbit, h1]
    simp
  · intro i h1 h2
    show ((s.board_status ||| cfg.STATUS_HEAT_INACTIVE_SHUTDOWN) &&&
      (0xFF ^^^ cfg.STATUS_PREHEATING)).testBit i = _
    rw [hbit, h1, h2]
    simp
  · cases inactivityWarns cfg inp s <;>
      simp [List.count_append, count_of_sampling e1 he1, count_of_sampling e2 he2,
        count_of_acknowledge evs hack, Event.isSampling, Event.isAcknowledge]
  · cases inactivityWarns cfg inp s <;>
      simp [List.countP_append, countP_of_sampling e1 he1 _ isErrorMessage_of_isSampling,
        countP_of_sampling e2 he2 _ isErrorMessage_of_isSampling,
        countP_of_acknowledge evs hack _ isErrorMessage_of_isAcknowledge,
        Event.isErrorMessage]
  · cases inactivityWarns cfg inp s <;>
      simp [List.count_append, count_of_sampling e1 he1, count_of_sampling e2 he2,
        count_of_acknowledge evs hack, Event.isSampling, Event.isAcknowledge]

/-- Instance of claim C20: the user-input timeout has elapsed on the example board
(targets 230, 230, 110; status byte 0x01). -/
theorem runMotherboardSlice_inactivity_path_witness :
    inactivityGuard exampleConfig exampleInput
      { exampleBoard with user_input_timeout := { deadline := 0, armed := true } } = true ∧
    (runMotherboardSlice exampleConfig exampleInput
      { exampleBoard with user_input_timeout := { deadline := 0, armed := true } }
      ).extruder_one_target = 0 ∧
    (runMotherboardSlice exampleConfig exampleInput
      { exampleBoard with user_input_timeout := { deadline := 0, armed := true } }
      ).buttonWait =
      ((({ exampleBoard with user_input_timeout := { deadline := 0, armed := true } }
          ).buttonWait && !exampleInput.buttonPushed) ||
        inactivityWarns exampleConfig exampleInput
          { exampleBoard with user_input_timeout := { deadline := 0, armed := true } }) :=
  ⟨by decide,
   (runMotherboardSlice_inactivity_path exampleConfig exampleInput
      { exampleBoard with user_input_timeout := { deadline := 0, armed := true } }
      (by decide) (by decide) (by decide) (by decide)).2.2.2.1,
   (runMotherboardSlice_inactivity_path exampleConfig exampleInput
      { exampleBoard with user_input_timeout := { deadline := 0, armed := true } }
      (by decide) (by decide) (by decide) (by decide)).2.2.2.2.2.2.2.2.2.2⟩

/-! ## Staggering of the extruder steps -/

theorem sliceInterface_count_extruder (cfg : Config) (inp : SliceInput) (s : Motherboard)
    (a : Event) (ha : a = .extruderOneSlice ∨ a = .extruderTwoSlice) :
    (sliceInterface cfg inp s).1.log.count a = s.log.count a ∧
    (sliceInterface cfg inp s).1.extruder_update = s.extruder_update := by
  simp only [sliceInterface, emit]
  rcases ha with h | h <;> subst h <;> split_ifs <;> simp [List.count_append]

theorem slicePlatform_count_extruder (cfg : Config) (s : Motherboard)
    (a : Event) (ha : a = .extruderOneSlice ∨ a = .extruderTwoSlice) :
    (slicePlatform cfg s).log.count a = s.log.count a ∧
    (slicePlatform cfg s).extruder_update = s.extruder_update := by
  simp only [slicePlatform, emit]
  rcases ha with h | h <;> subst h <;> split_ifs <;> simp [List.count_append]

theorem announceEvents_count_extruder (m : HeaterFailMode) (a : Event)
    (ha : a = .extruderOneSlice ∨ a = .extruderTwoSlice) :
    (announceEvents m).count a = 0 := by
  rcases ha with h | h <;> subst h <;> exact announceEvents_count m _ rfl

/-- The core step issues no extruder step and leaves `extruder_update` alone. -/
theorem sliceCore_count_extruder (cfg : Config) (inp : SliceInput) (s : Motherboard)
    (a : Event) (ha : a = .extruderOneSlice ∨ a = .extruderTwoSlice) :
    (sliceCore cfg inp s).log.count a = s.log.count a ∧
    (sliceCore cfg inp s).extruder_update = s.extruder_update := by
  have hack : Event.isAcknowledge a = false := by rcases ha with h | h <;> subst h <;> rfl
  have hm := fun m => announceEvents_count_extruder m a ha
  rcases slice_guard_cases cfg inp s with ⟨hi, hg⟩ | hi | ⟨hs, ht, hp⟩
  · obtain ⟨evs, ps, h, hev, _⟩ := sliceCore_skip cfg inp s hi hg
    rw [h]
    exact ⟨by simp [List.count_append, count_of_acknowledge evs hev a hack], rfl⟩
  · obtain ⟨evs, ps, h, hev⟩ := sliceCore_inactivity cfg inp s hi
    rw [h]
    refine ⟨?_, rfl⟩
    rcases ha with h1 | h1 <;> subst h1 <;> cases inactivityWarns cfg inp s <;>
      simp [List.count_append, count_of_acknowledge evs hev _ hack]
  · by_cases hmode : s.heatFailMode = .HEATER_FAIL_NOT_PLUGGED_IN
    · obtain ⟨evs, h, hev⟩ := sliceCore_notPluggedIn cfg inp s hs ht hp hmode
      rw [h]
      refine ⟨?_, rfl⟩
      rcases ha with h1 | h1 <;> subst h1 <;>
        simp [List.count_append, count_of_acknowledge evs hev _ hack]
    · obtain ⟨evs, ps, h, hev⟩ := sliceCore_shutdown cfg inp s hs ht hp hmode
      rw [h]
      refine ⟨?_, rfl⟩
      rcases ha with h1 | h1 <;> subst h1 <;>
        simp [List.count_append, count_of_acknowledge evs hev _ hack, hm,
          count_enableAxis_map]

/-- The extruder block of the build without `MODEL_REPLICATOR2`: it runs `d1`
steps of Extruder_One and `d2` steps of Extruder_Two, at most one in all, and
an Extruder_Two step uses up the `extruder_update` an Extruder_One step set. -/
theorem sliceExtruders_steps (cfg : Config) (inp : SliceInput) (b : Bool) (s : Motherboard)
    (hR : cfg.MODEL_REPLICATOR2 = false) :
    ∃ d1 d2 : Nat,
      (sliceExtruders cfg inp b s).log.count .extruderOneSlice =
        s.log.count .extruderOneSlice + d1 ∧
      (sliceExtruders cfg inp b s).log.count .extruderTwoSlice =
        s.log.count .extruderTwoSlice + d2 ∧
      d1 + d2 ≤ 1 ∧
      d2 + (sliceExtruders cfg inp b s).extruder_update.toNat ≤
        d1 + s.extruder_update.toNat := by
  simp only [sliceExtruders, hR, emit]
  by_cases h1 : (s.extruder_manage_timeout.hasElapsed cfg.MICROS_WIDTH s.micros && !b) = true
  · refine ⟨1, 0, ?_, ?_, by omega, ?_⟩
    · simp [h1, List.count_append]
    · simp [h1, List.count_append]
    · simp [h1]
  · by_cases h2 : s.extruder_update = true
    · refine ⟨0, 1, ?_, ?_, by omega, ?_⟩
      · simp [h1, h2, List.count_append]
      · simp [h1, h2, List.count_append]
      · simp [h1, h2]
    · refine ⟨0, 0, ?_, ?_, by omega, ?_⟩
      · simp [h1, h2]
      · simp [h1, h2]
      · simp [h1, h2]

/-- One slice of the build without `MODEL_REPLICATOR2`, counted in extruder
steps. -/
theorem runMotherboardSlice_steps (cfg : Config) (inp : SliceInput) (s : Motherboard)
    (hR : cfg.MODEL_REPLICATOR2 = false) :
    ∃ d1 d2 : Nat,
      (runMotherboardSlice cfg inp s).log.count .extruderOneSlice =
        s.log.count .extruderOneSlice + d1 ∧
      (runMotherboardSlice cfg inp s).log.count .extruderTwoSlice =
        s.log.count .extruderTwoSlice + d2 ∧
      d1 + d2 ≤ 1 ∧
      d2 + (runMotherboardSlice cfg inp s).extruder_update.toNat ≤
        d1 + s.extruder_update.toNat := by
  have hi1 := sliceInterface_count_extruder cfg inp s .extruderOneSlice (Or.inl rfl)
  have hi2 := sliceInterface_count_extruder cfg inp s .extruderTwoSlice (Or.inr rfl)
  have hp1 := slicePlatform_count_extruder cfg (sliceInterface cfg inp s).1
    .extruderOneSlice (Or.inl rfl)
  have hp2 := slicePlatform_count_extruder cfg (sliceInterface cfg inp s).1
    .extruderTwoSlice (Or.inr rfl)
  have hc1 := sliceCore_count_extruder cfg inp (slicePlatform cfg (sliceInterface cfg inp s).1)
    .extruderOneSlice (Or.inl rfl)
  have hc2 := sliceCore_count_extruder cfg inp (slicePlatform cfg (sliceInterface cfg inp s).1)
    .extruderTwoSlice (Or.inr rfl)
  have k1 : (sliceCore cfg inp (slicePlatform cfg (sliceInterface cfg inp s).1)).log.count
      .extruderOneSlice = s.log.count .extruderOneSlice := by
    rw [hc1.1, hp1.1, hi1.1]
  have k2 : (sliceCore cfg inp (slicePlatform cfg (sliceInterface cfg inp s).1)).log.count
      .extruderTwoSlice = s.log.count .extruderTwoSlice := by
    rw [hc2.1, hp2.1, hi2.1]
  have k3 : (sliceCore cfg inp (slicePlatform cfg (sliceInterface cfg inp s).1)).extruder_update
      = s.extruder_update := by
    rw [hc1.2, hp1.2, hi1.2]
  have hdef : runMotherboardSlice cfg inp s =
      if (sliceAnnounce cfg inp (sliceInactivity cfg inp (sliceOnboard cfg
            (sliceButtonWait inp (slicePlatform cfg (sliceInterface cfg inp s).1))))).2 = true
      then sliceCore cfg inp (slicePlatform cfg (sliceInterface cfg inp s).1)
      else sliceExtruders cfg inp (sliceInterface cfg inp s).2
        (sliceCore cfg inp (slicePlatform cfg (sliceInterface cfg inp s).1)) := rfl
  rw [hdef]
  split_ifs
  · exact ⟨0, 0, k1, k2, by omega, by rw [k3]⟩
  · obtain ⟨d1, d2, h1, h2, h3, h4⟩ := sliceExtruders_steps cfg inp (sliceInterface cfg inp s).2
      (sliceCore cfg inp (slicePlatform cfg (sliceInterface cfg inp s).1)) hR
    exact ⟨d1, d2, by rw [h1, k1], by rw [h2, k2], h3, by rw [k3] at h4; exact h4⟩

theorem runTimedOps_steps (cfg : Config) (hR : cfg.MODEL_REPLICATOR2 = false)
    (ops : List TimedOp) :
    ∀ s : Motherboard,
      s.log.count .extruderOneSlice ≤ (runTimedOps cfg ops s).log.count .extruderOneSlice ∧
      (runTimedOps cfg ops s).log.count .extruderTwoSlice + s.log.count .extruderOneSlice +
          (runTimedOps cfg ops s).extruder_update.toNat ≤
        (runTimedOps cfg ops s).log.count .extruderOneSlice + s.log.count .extruderTwoSlice +
          s.extruder_update.toNat := by
  induction ops with
  | nil =>
    intro s
    have e : runTimedOps cfg [] s = s := rfl
    rw [e]
    exact ⟨Nat.le_refl _, by omega⟩
  | cons op rest ih =>
    intro s
    show _ ≤ (runTimedOps cfg rest (runTimedOp cfg s op)).log.count _ ∧
      (runTimedOps cfg rest (runTimedOp cfg s op)).log.count _ + _ +
        (runTimedOps cfg rest (runTimedOp cfg s op)).extruder_update.toNat ≤
      (runTimedOps cfg rest (runTimedOp cfg s op)).log.count _ + _ + _
    obtain ⟨i1, i2⟩ := ih (runTimedOp cfg s op)
    cases op with
    | tick =>
      have e1 : (runTimedOp cfg s .tick).log = s.log := rfl
      have e2 : (runTimedOp cfg s .tick).extruder_update = s.extruder_update := rfl
      rw [e1] at i1 i2
      rw [e2] at i2
      exact ⟨i1, i2⟩
    | slice inp =>
      obtain ⟨d1, d2, h1, h2, h3, h4⟩ := runMotherboardSlice_steps cfg inp s hR
      have e1 : runTimedOp cfg s (.slice inp) = runMotherboardSlice cfg inp s := rfl
      rw [e1] at i1 i2 ⊢
      rw [h1] at i1 i2
      rw [h2] at i2
      constructor
      · omega
      · omega

theorem ticks_frame (cfg : Config) (n : Nat) (s : Motherboard) :
    (ticks cfg n s).log = s.log ∧ (ticks cfg n s).extruder_update = s.extruder_update := by
  induction n with
  | zero => exact ⟨rfl, rfl⟩
  | succ k ih => exact ih

/-! ## The stepper interrupt -/

/-- Claim C21: while `command::isPaused()` is true `doStepperInterrupt` leaves the
whole state as it was (no motion-advance step, no interrupt enable bit and no
timer register changed); while it is false the call invokes
`steppers::doStepperInterrupt` exactly once, between `sei` and `cli`, and on
return bit `OCIE5A` of `TIMSK5` (stepper timer) and bit `OCIE2A` of `TIMSK2`
(tick timer) are set, whatever they were before and with or without
`ANTI_CLUNK_PROTECTION`. -/
theorem doStepperInterrupt_paused_or_once (anti : Bool) (inp : IrqInput) (st : IrqState) :
    doStepperInterrupt anti { inp with isPaused := true } st = st ∧
    (doStepperInterrupt anti { inp with isPaused := false } st).calls.count
        .steppersDoStepperInterrupt =
      st.calls.count .steppersDoStepperInterrupt + 1 ∧
    (doStepperInterrupt anti { inp with isPaused := false } st).calls =
      st.calls ++ [.sei, .steppersDoStepperInterrupt, .cli] ∧
    (doStepperInterrupt anti { inp with isPaused := false } st).TIMSK5.testBit OCIE5A = true ∧
    (doStepperInterrupt anti { inp with isPaused := false } st).TIMSK2.testBit OCIE2A = true ∧
    (doStepperInterrupt anti { inp with isPaused := false } st).interrupts_enabled = false := by
  have hbit : ∀ x : Nat, (x ||| (1 <<< 1)).testBit 1 = true := by
    intro x
    rw [Nat.testBit_or]
    have h : (1 <<< 1 : Nat).testBit 1 = true := by decide
    rw [h, Bool.or_true]
  have hrun : ∃ o t, doStepperInterrupt anti { inp with isPaused := false } st =
      { TIMSK2 := (st.TIMSK2 &&& (0xFF ^^^ (1 <<< 1))) ||| (1 <<< 1),
        TIMSK5 := (st.TIMSK5 &&& (0xFF ^^^ (1 <<< 1))) ||| (1 <<< 1),
        OCR5A := o, TCNT5 := t, interrupts_enabled := false,
        calls := st.calls ++ [.sei, .steppersDoStepperInterrupt, .cli] } := by
    by_cases hc : (anti && decide (inp.TCNT5 ≥ inp.OCR5A)) = true
    · exact ⟨0x01, 0, by
        simp [doStepperInterrupt, DISABLE_TIMER_INTERRUPTS, ENABLE_TIMER_INTERRUPTS,
          OCIE2A, OCIE5A, hc]⟩
    · exact ⟨st.OCR5A, st.TCNT5, by
        simp [doStepperInterrupt, DISABLE_TIMER_INTERRUPTS, ENABLE_TIMER_INTERRUPTS,
          OCIE2A, OCIE5A, hc]⟩
  obtain ⟨o, t, h⟩ := hrun
  rw [h]
  refine ⟨rfl, ?_, rfl, hbit _, hbit _, rfl⟩
  simp [List.count_append]

/-! ## Heater targets under a slice -/

/-- Claim C23: for every state and every input, after one invocation of
`runMotherboardSlice` each of the three heater targets is equal to its value
before the slice or equal to zero; the slice never raises a target. -/
theorem runMotherboardSlice_never_raises_target (cfg : Config) (inp : SliceInput)
    (s : Motherboard) :
    ((runMotherboardSlice cfg inp s).extruder_one_target = s.extruder_one_target ∨
      (runMotherboardSlice cfg inp s).extruder_one_target = 0) ∧
    ((runMotherboardSlice cfg inp s).extruder_two_target = s.extruder_two_target ∨
      (runMotherboardSlice cfg inp s).extruder_two_target = 0) ∧
    ((runMotherboardSlice cfg inp s).platform_target = s.platform_target ∨
      (runMotherboardSlice cfg inp s).platform_target = 0) := by
  rcases slice_guard_cases cfg inp s with ⟨hi, ha⟩ | hi | ⟨hs, ht, hp⟩
  · obtain ⟨e1, evs, e2, ps, t1, t2, t3, t4, u, h, _⟩ :=
      runMotherboardSlice_skip cfg inp s hi ha
    rw [h]
    exact ⟨Or.inl rfl, Or.inl rfl, Or.inl rfl⟩
  · obtain ⟨e1, evs, e2, ps, t1, t2, t3, t4, u, h, _⟩ :=
      runMotherboardSlice_inactivity cfg inp s hi
    rw [h]
    exact ⟨Or.inr rfl, Or.inr rfl, Or.inr rfl⟩
  · by_cases hm : s.heatFailMode = .HEATER_FAIL_NOT_PLUGGED_IN
    · obtain ⟨e1, evs, e2, t1, t2, t3, t4, u, h, _⟩ :=
        runMotherboardSlice_notPluggedIn cfg inp s hs ht hp hm
      rw [h]
      refine ⟨?_, ?_, ?_⟩
      · show (if inp.has_failed.extruder_one = true then 0 else s.extruder_one_target) = _ ∨
          (if inp.has_failed.extruder_one = true then 0 else s.extruder_one_target) = 0
        split_ifs
        · exact Or.inr rfl
        · exact Or.inl rfl
      · show (if inp.has_failed.extruder_two = true then 0 else s.extruder_two_target) = _ ∨
          (if inp.has_failed.extruder_two = true then 0 else s.extruder_two_target) = 0
        split_ifs
        · exact Or.inr rfl
        · exact Or.inl rfl
      · show (if inp.has_failed.platform = true then 0 else s.platform_target) = _ ∨
          (if inp.has_failed.platform = true then 0 else s.platform_target) = 0
        split_ifs
        · exact Or.inr rfl
        · exact Or.inl rfl
    · obtain ⟨e1, evs, e2, ps, t1, t2, t3, t4, u, h, _⟩ :=
        runMotherboardSlice_shutdown cfg inp s hs ht hp hm
      rw [h]
      exact ⟨Or.inr rfl, Or.inr rfl, Or.inr rfl⟩

/-! ## Extruder_Two follows Extruder_One -/

theorem pendingAfter_append (l1 l2 : List Event) :
    ∀ p, pendingAfter p (l1 ++ l2) = pendingAfter (pendingAfter p l1) l2 := by
  induction l1 with
  | nil => intro p; rfl
  | cons e l ih =>
    intro p
    cases e <;> simp [pendingAfter, ih]

theorem staggeredFrom_append (l1 l2 : List Event) :
    ∀ p, staggeredFrom p (l1 ++ l2) =
      (staggeredFrom p l1 && staggeredFrom (pendingAfter p l1) l2) := by
  induction l1 with
  | nil => intro p; simp [staggeredFrom, pendingAfter]
  | cons e l ih =>
    intro p
    cases e <;> simp [staggeredFrom, pendingAfter, ih, Bool.and_assoc]

/-- A list without extruder steps satisfies the ordering and answers nothing. -/
theorem staggeredFrom_of_no_steps (l : List Event)
    (h1 : l.count .extruderOneSlice = 0) (h2 : l.count .extruderTwoSlice = 0) :
    ∀ p, staggeredFrom p l = true ∧ pendingAfter p l = p := by
  induction l with
  | nil => intro p; exact ⟨rfl, rfl⟩
  | cons e l ih =>
    intro p
    have n1 : Event.extruderOneSlice ∉ e :: l := List.count_eq_zero.1 h1
    have n2 : Event.extruderTwoSlice ∉ e :: l := List.count_eq_zero.1 h2
    have m1 : l.count .extruderOneSlice = 0 :=
      List.count_eq_zero.2 (fun h => n1 (List.mem_cons_of_mem e h))
    have m2 : l.count .extruderTwoSlice = 0 :=
      List.count_eq_zero.2 (fun h => n2 (List.mem_cons_of_mem e h))
    have e1 : e ≠ .extruderOneSlice := fun h => n1 (h ▸ List.mem_cons_self e l)
    have e2 : e ≠ .extruderTwoSlice := fun h => n2 (h ▸ List.mem_cons_self e l)
    cases e <;> first
      | exact absurd rfl e1
      | exact absurd rfl e2
      | exact ih m1 m2 p

theorem sliceCore_log_append (cfg : Config) (inp : SliceInput) (s : Motherboard) :
    ∃ evs, (sliceCore cfg inp s).log = s.log ++ evs := by
  rcases slice_guard_cases cfg inp s with ⟨hi, hg⟩ | hi | ⟨hs, ht, hp⟩
  · obtain ⟨evs, ps, h, _⟩ := sliceCore_skip cfg inp s hi hg
    exact ⟨evs, by rw [h]⟩
  · obtain ⟨evs, ps, h, _⟩ := sliceCore_inactivity cfg inp s hi
    exact ⟨_, by rw [h]; exact List.append_assoc _ _ _⟩
  · by_cases hmode : s.heatFailMode = .HEATER_FAIL_NOT_PLUGGED_IN
    · obtain ⟨evs, h, _⟩ := sliceCore_notPluggedIn cfg inp s hs ht hp hmode
      exact ⟨_, by rw [h]; exact List.append_assoc _ _ _⟩
    · obtain ⟨evs, ps, h, _⟩ := sliceCore_shutdown cfg inp s hs ht hp hmode
      exact ⟨evs ++ [Event.interfaceBlink 10 10] ++ announceEvents s.heatFailMode ++
          [Event.playTune .TUNE_ERROR, .errorSequence, .hostHeatShutdown,
            .commandHeatShutdown, .steppersAbort] ++
          (List.range cfg.STEPPER_COUNT).map (fun i => Event.enableAxis i false),
        by rw [h]; simp only [List.append_assoc]⟩

/-- The log of the extruder block in the build without `MODEL_REPLICATOR2`. -/
theorem sliceExtruders_tail (cfg : Config) (inp : SliceInput) (b : Bool) (s : Motherboard)
    (hR : cfg.MODEL_REPLICATOR2 = false) :
    ∃ tail, (sliceExtruders cfg inp b s).log = s.log ++ tail ∧
      ((tail = [.extruderOneSlice, .heatingAlerts] ∧
          (sliceExtruders cfg inp b s).extruder_update = true) ∨
        (tail = [.extruderTwoSlice] ∧ s.extruder_update = true ∧
          (sliceExtruders cfg inp b s).extruder_update = false) ∨
        (tail = [] ∧ (sliceExtruders cfg inp b s).extruder_update = s.extruder_update)) := by
  simp only [sliceExtruders, hR, emit]
  by_cases h1 : (s.extruder_manage_timeout.hasElapsed cfg.MICROS_WIDTH s.micros && !b) = true
  · exact ⟨[.extruderOneSlice, .heatingAlerts], by simp [h1], Or.inl ⟨rfl, by simp [h1]⟩⟩
  · by_cases h2 : s.extruder_update = true
    · exact ⟨[.extruderTwoSlice], by simp [h1, h2], Or.inr (Or.inl ⟨rfl, h2, by simp [h1, h2]⟩)⟩
    · exact ⟨[], by simp [h1, h2], Or.inr (Or.inr ⟨rfl, by simp [h1, h2]⟩)⟩

/-- The calls of one slice of the build without `MODEL_REPLICATOR2` satisfy the
ordering, and `extruder_update` tells whether an Extruder_One step is
unanswered. -/
theorem runMotherboardSlice_staggered (cfg : Config) (inp : SliceInput) (s : Motherboard)
    (hR : cfg.MODEL_REPLICATOR2 = false) :
    ∃ evs, (runMotherboardSlice cfg inp s).log = s.log ++ evs ∧
      staggeredFrom s.extruder_update evs = true ∧
      (runMotherboardSlice cfg inp s).extruder_update = pendingAfter s.extruder_update evs := by
  have hdef : runMotherboardSlice cfg inp s =
      if (sliceAnnounce cfg inp (sliceInactivity cfg inp (sliceOnboard cfg
            (sliceButtonWait inp (slicePlatform cfg (sliceInterface cfg inp s).1))))).2 = true
      then sliceCore cfg inp (slicePlatform cfg (sliceInterface cfg inp s).1)
      else sliceExtruders cfg inp (sliceInterface cfg inp s).2
        (sliceCore cfg inp (slicePlatform cfg (sliceInterface cfg inp s).1)) := rfl
  rw [hdef]
  have hi1 := sliceInterface_count_extruder cfg inp s .extruderOneSlice (Or.inl rfl)
  have hi2 := sliceInterface_count_extruder cfg inp s .extruderTwoSlice (Or.inr rfl)
  have hp1 := slicePlatform_count_extruder cfg (sliceInterface cfg inp s).1
    .extruderOneSlice (Or.inl rfl)
  have hp2 := slicePlatform_count_extruder cfg (sliceInterface cfg inp s).1
    .extruderTwoSlice (Or.inr rfl)
  have hc1 := sliceCore_count_extruder cfg inp (slicePlatform cfg (sliceInterface cfg inp s).1)
    .extruderOneSlice (Or.inl rfl)
  have hc2 := sliceCore_count_extruder cfg inp (slicePlatform cfg (sliceInterface cfg inp s).1)
    .extruderTwoSlice (Or.inr rfl)
  obtain ⟨a1, ta, ha, _⟩ := sliceInterface_eq cfg inp s
  obtain ⟨a2, tb, hb, _⟩ := slicePlatform_eq cfg (sliceInterface cfg inp s).1
  obtain ⟨a3, hc⟩ := sliceCore_log_append cfg inp (slicePlatform cfg (sliceInterface cfg inp s).1)
  have hlog : (sliceCore cfg inp (slicePlatform cfg (sliceInterface cfg inp s).1)).log =
      s.log ++ (a1 ++ a2 ++ a3) := by
    rw [hc, hb, ha]
    simp only [List.append_assoc]
  generalize sliceCore cfg inp (slicePlatform cfg (sliceInterface cfg inp s).1) = c
    at hc1 hc2 hlog ⊢
  have k3 : c.extruder_update = s.extruder_update := by rw [hc1.2, hp1.2, hi1.2]
  have q1 : (a1 ++ a2 ++ a3).count .extruderOneSlice = 0 := by
    have h := hc1.1
    rw [hp1.1, hi1.1, hlog, List.count_append] at h
    omega
  have q2 : (a1 ++ a2 ++ a3).count .extruderTwoSlice = 0 := by
    have h := hc2.1
    rw [hp2.1, hi2.1, hlog, List.count_append] at h
    omega
  have hq := staggeredFrom_of_no_steps (a1 ++ a2 ++ a3) q1 q2
  split_ifs
  · exact ⟨a1 ++ a2 ++ a3, hlog, (hq _).1, by rw [(hq _).2, k3]⟩
  · obtain ⟨tail, ht, hcases⟩ := sliceExtruders_tail cfg inp (sliceInterface cfg inp s).2 c hR
    refine ⟨(a1 ++ a2 ++ a3) ++ tail, by rw [ht, hlog, List.append_assoc], ?_, ?_⟩
    · rw [staggeredFrom_append, (hq _).1, (hq _).2, Bool.true_and]
      rcases hcases with ⟨h1, _⟩ | ⟨h1, h2, _⟩ | ⟨h1, _⟩
      · rw [h1]; rfl
      · rw [h1, ← k3, h2]; rfl
      · rw [h1]; rfl
    · rw [pendingAfter_append, (hq _).2]
      rcases hcases with ⟨h1, h2⟩ | ⟨h1, _, h3⟩ | ⟨h1, h2⟩
      · rw [h1, h2]; rfl
      · rw [h1, h3]; rfl
      · rw [h1, h2, k3]; rfl

theorem runTimedOps_staggered (cfg : Config) (hR : cfg.MODEL_REPLICATOR2 = false)
    (ops : List TimedOp) :
    ∀ s : Motherboard, ∃ evs, (runTimedOps cfg ops s).log = s.log ++ evs ∧
      staggeredFrom s.extruder_update evs = true ∧
      (runTimedOps cfg ops s).extruder_update = pendingAfter s.extruder_update evs := by
  induction ops with
  | nil => intro s; exact ⟨[], by simp [runTimedOps], rfl, rfl⟩
  | cons op rest ih =>
    intro s
    obtain ⟨e2, h1, h2, h3⟩ := ih (runTimedOp cfg s op)
    have hrun : runTimedOps cfg (op :: rest) s = runTimedOps cfg rest (runTimedOp cfg s op) := rfl
    rw [hrun]
    cases op with
    | tick =>
      have f1 : (runTimedOp cfg s .tick).log = s.log := rfl
      have f2 : (runTimedOp cfg s .tick).extruder_update = s.extruder_update := rfl
      rw [f1] at h1
      rw [f2] at h2 h3
      exact ⟨e2, h1, h2, h3⟩
    | slice inp =>
      obtain ⟨e1, g1, g2, g3⟩ := runMotherboardSlice_staggered cfg inp s hR
      have f : runTimedOp cfg s (.slice inp) = runMotherboardSlice cfg inp s := rfl
      rw [f] at h1 h2 h3 ⊢
      rw [g3] at h2 h3
      refine ⟨e1 ++ e2, by rw [h1, g1, List.append_assoc], ?_, ?_⟩
      · rw [staggeredFrom_append, g2, h2]; rfl
      · rw [pendingAfter_append, h3]

/-- Claim C22: in the build without `MODEL_REPLICATOR2`, over every sequence of
slices (clock ticks in between) started with `extruder_update` false, the calls
issued satisfy the ordering `staggeredFrom false`: every Extruder_Two step comes
after an Extruder_One step run since the previous Extruder_Two step, so none
comes before the first Extruder_One step and no two come without an
Extruder_One step between them; there are never more Extruder_Two steps than
Extruder_One steps; and no slice, from any state, runs both steps. -/
theorem extruder_two_only_after_extruder_one (cfg : Config)
    (hR : cfg.MODEL_REPLICATOR2 = false) (ops : List TimedOp) (inp : SliceInput)
    (s t : Motherboard) (h0 : s.extruder_update = false) :
    staggeredFrom false ((runTimedOps cfg ops s).log.drop s.log.length) = true ∧
    ((runTimedOps cfg ops s).log.drop s.log.length).count .extruderTwoSlice ≤
      ((runTimedOps cfg ops s).log.drop s.log.length).count .extruderOneSlice ∧
    (runMotherboardSlice cfg inp t).log.count .extruderOneSlice +
        (runMotherboardSlice cfg inp t).log.count .extruderTwoSlice ≤
      t.log.count .extruderOneSlice + t.log.count .extruderTwoSlice + 1 := by
  obtain ⟨evs, h1, h2, _⟩ := runTimedOps_staggered cfg hR ops s
  obtain ⟨_, r2⟩ := runTimedOps_steps cfg hR ops s
  obtain ⟨d1, d2, k1, k2, k3, _⟩ := runMotherboardSlice_steps cfg inp t hR
  rw [h0] at h2
  rw [h1, List.count_append, List.count_append, h0] at r2
  rw [h1, List.drop_left]
  refine ⟨h2, ?_, by omega⟩
  simp only [Bool.toNat_false] at r2
  omega

/-- Instance of claim C22: the example board starts with `extruder_update` false;
with the extruder timeout elapsed, two slices run Extruder_One then
Extruder_Two. -/
theorem extruder_two_only_after_extruder_one_witness :
    exampleConfig.MODEL_REPLICATOR2 = false ∧
    ({ exampleBoard with
        extruder_manage_timeout := { deadline := 0, armed := true } }).extruder_update
      = false ∧
    staggeredFrom false
      ((runTimedOps exampleConfig [.slice exampleInput, .tick, .slice exampleInput]
        { exampleBoard with
          extruder_manage_timeout := { deadline := 0, armed := true } }).log.drop
        ({ exampleBoard with
            extruder_manage_timeout := { deadline := 0, armed := true } }).log.length) = true :=
  ⟨rfl, rfl,
   (extruder_two_only_after_extruder_one exampleConfig rfl
      [.slice exampleInput, .tick, .slice exampleInput] exampleInput
      { exampleBoard with extruder_manage_timeout := { deadline := 0, armed := true } }
      exampleBoard rfl).1⟩

/-! ## Round-robin of the extruder steps -/

/-- The state after `n` ticks from a state whose clock reads zero. -/
theorem ticks_eq (cfg : Config) (n : Nat) (s : Motherboard) (h0 : s.micros = 0) :
    ticks cfg n s = { s with micros := (MICROS_INTERVAL * n) % 2 ^ cfg.MICROS_WIDTH } := by
  induction n with
  | zero =>
    cases s
    simp only [ticks, Nat.mul_zero, Nat.zero_mod] at h0 ⊢
    rw [h0]
  | succ k ih =>
    rw [ticks, ih]
    simp only [UpdateMicros]
    rw [Nat.mul_succ, Nat.mod_add_mod]

theorem extruderSteps_append (l1 l2 : List Event) :
    extruderSteps (l1 ++ l2) = extruderSteps l1 ++ extruderSteps l2 := by
  simp [extruderSteps]

theorem extruderSteps_of_no_steps (l : List Event)
    (h1 : l.count .extruderOneSlice = 0) (h2 : l.count .extruderTwoSlice = 0) :
    extruderSteps l = [] := by
  have n1 : Event.extruderOneSlice ∉ l := List.count_eq_zero.1 h1
  have n2 : Event.extruderTwoSlice ∉ l := List.count_eq_zero.1 h2
  unfold extruderSteps
  rw [List.filter_eq_nil_iff]
  intro e he
  cases e <;> first
    | exact absurd he n1
    | exact absurd he n2
    | simp [Event.isExtruderStep]

theorem count_extruderSteps (l : List Event) :
    (extruderSteps l).count .extruderOneSlice = l.count .extruderOneSlice ∧
    (extruderSteps l).count .extruderTwoSlice = l.count .extruderTwoSlice := by
  unfold extruderSteps
  constructor
  · exact List.count_filter rfl
  · exact List.count_filter rfl

theorem alternatingSteps_count (n : Nat) : ∀ two : Bool,
    (alternatingSteps two n).count .extruderOneSlice = (n + (!two).toNat) / 2 ∧
    (alternatingSteps two n).count .extruderTwoSlice = (n + two.toNat) / 2 := by
  induction n with
  | zero => intro two; cases two <;> exact ⟨rfl, rfl⟩
  | succ k ih =>
    intro two
    cases two
    · obtain ⟨h1, h2⟩ := ih true
      simp only [alternatingSteps, Bool.not_false, Bool.not_true, Bool.toNat_true,
        Bool.toNat_false] at h1 h2 ⊢
      simp only [Bool.false_eq_true, if_false, List.count_cons, h1, h2]
      constructor
      · simp; omega
      · simp
    · obtain ⟨h1, h2⟩ := ih false
      simp only [alternatingSteps, Bool.not_false, Bool.not_true, Bool.toNat_true,
        Bool.toNat_false] at h1 h2 ⊢
      simp only [if_true, List.count_cons, h1, h2]
      constructor
      · simp
      · simp; omega

theorem alternatingSteps_length (n : Nat) : ∀ two : Bool,
    (alternatingSteps two n).length = n := by
  induction n with
  | zero => intro two; rfl
  | succ k ih => intro two; simp [alternatingSteps, ih]

theorem alternatingSteps_chain (n : Nat) : ∀ two : Bool,
    List.Chain' (fun a b => a ≠ b) (alternatingSteps two n) := by
  induction n with
  | zero => intro two; exact List.chain'_nil
  | succ k ih =>
    intro two
    cases k with
    | zero => simp [alternatingSteps]
    | succ j =>
      have h := ih (!two)
      cases two <;> simp only [alternatingSteps] at h ⊢ <;>
        exact List.Chain'.cons (by simp) h

/-- Whether the slice returns at line 636, read off the state the announcement
block starts from. -/
theorem sliceAnnounce_returned (cfg : Config) (inp : SliceInput) (s : Motherboard) :
    (sliceAnnounce cfg inp s).2 =
      (s.heatShutdown && !s.triggered && !inp.piezoIsPlaying &&
        decide (s.heatFailMode = .HEATER_FAIL_NOT_PLUGGED_IN)) := by
  by_cases hg : (s.heatShutdown && !s.triggered && !inp.piezoIsPlaying) = true
  · by_cases hm : s.heatFailMode = .HEATER_FAIL_NOT_PLUGGED_IN
    · have hs : s.heatShutdown = true := by simp at hg; exact hg.1.1
      have ht : s.triggered = false := by simp at hg; exact hg.1.2
      have hp : inp.piezoIsPlaying = false := by simp at hg; exact hg.2
      rw [sliceAnnounce_notPluggedIn cfg inp s hs ht hp hm, hg]
      simp [hm]
    · have hs : s.heatShutdown = true := by simp at hg; exact hg.1.1
      have ht : s.triggered = false := by simp at hg; exact hg.1.2
      have hp : inp.piezoIsPlaying = false := by simp at hg; exact hg.2
      rw [sliceAnnounce_shutdown cfg inp s hs ht hp hm, hg]
      simp [hm]
  · have hg2 : (s.heatShutdown && !s.triggered && !inp.piezoIsPlaying) = false := by
      simpa using hg
    rw [sliceAnnounce_of_guard_false cfg inp s hg2, hg2]
    rfl

/-- The inactivity path leaves the failure flags as they were. -/
theorem sliceInactivity_frame (cfg : Config) (inp : SliceInput) (s : Motherboard) :
    (sliceInactivity cfg inp s).heatShutdown = s.heatShutdown ∧
    (sliceInactivity cfg inp s).triggered = s.triggered ∧
    (sliceInactivity cfg inp s).heatFailMode = s.heatFailMode := by
  simp only [sliceInactivity, abortHeatHoldTimeout, startButtonWait, interfaceBlink, emit]
  split_ifs <;> exact ⟨rfl, rfl, rfl⟩

/-- Whether the slice returns early, in terms of the state the core step starts
from. -/
theorem sliceCore_returned (cfg : Config) (inp : SliceInput) (s : Motherboard) :
    (sliceAnnounce cfg inp (sliceInactivity cfg inp (sliceOnboard cfg
      (sliceButtonWait inp s)))).2 = returnsEarly inp s := by
  obtain ⟨evs, ps, hB, _, _⟩ := slicePrelude_eq cfg inp s
  obtain ⟨f1, f2, f3⟩ := sliceInactivity_frame cfg inp (sliceOnboard cfg (sliceButtonWait inp s))
  rw [sliceAnnounce_returned, f1, f2, f3, hB]
  rfl

/-- The core step leaves the clock and the variables of the extruder block as
they were. -/
theorem sliceCore_frame (cfg : Config) (inp : SliceInput) (s : Motherboard) :
    (sliceCore cfg inp s).micros = s.micros ∧
    (sliceCore cfg inp s).extruder_manage_timeout = s.extruder_manage_timeout ∧
    (sliceCore cfg inp s).therm_sensor_timeout = s.therm_sensor_timeout ∧
    (sliceCore cfg inp s).extruder_update = s.extruder_update := by
  rcases slice_guard_cases cfg inp s with ⟨hi, hg⟩ | hi | ⟨hs, ht, hp⟩
  · obtain ⟨evs, ps, h, _⟩ := sliceCore_skip cfg inp s hi hg
    rw [h]
    exact ⟨rfl, rfl, rfl, rfl⟩
  · obtain ⟨evs, ps, h, _⟩ := sliceCore_inactivity cfg inp s hi
    rw [h]
    exact ⟨rfl, rfl, rfl, rfl⟩
  · by_cases hmode : s.heatFailMode = .HEATER_FAIL_NOT_PLUGGED_IN
    · obtain ⟨evs, h, _⟩ := sliceCore_notPluggedIn cfg inp s hs ht hp hmode
      rw [h]
      exact ⟨rfl, rfl, rfl, rfl⟩
    · obtain ⟨evs, ps, h, _⟩ := sliceCore_shutdown cfg inp s hs ht hp hmode
      rw [h]
      exact ⟨rfl, rfl, rfl, rfl⟩

/-- The extruder block in a slice in which the interface has not refreshed: it
runs the step that is due, and no other. -/
theorem sliceExtruders_due (cfg : Config) (inp : SliceInput) (s : Motherboard) :
    ∃ tail, (sliceExtruders cfg inp false s).log = s.log ++ tail ∧
      extruderSteps tail =
        (if extruderOneDue cfg inp s then [Event.extruderOneSlice]
         else if extruderTwoDue cfg inp s then [Event.extruderTwoSlice] else []) := by
  cases hR : cfg.MODEL_REPLICATOR2
  · simp only [sliceExtruders, extruderOneDue, extruderTwoDue, hR, emit]
    by_cases h1 : s.extruder_manage_timeout.hasElapsed cfg.MICROS_WIDTH s.micros = true
    · exact ⟨[.extruderOneSlice, .heatingAlerts], by simp [h1],
        by simp [h1, extruderSteps, Event.isExtruderStep]⟩
    · by_cases h2 : s.extruder_update = true
      · exact ⟨[.extruderTwoSlice], by simp [h1, h2],
          by simp [h1, h2, extruderSteps, Event.isExtruderStep]⟩
      · exact ⟨[], by simp [h1, h2], by simp [h1, h2, extruderSteps]⟩
  · simp only [sliceExtruders, extruderOneDue, extruderTwoDue, hR, emit]
    by_cases h1 : s.therm_sensor_timeout.hasElapsed cfg.MICROS_WIDTH s.micros = true
    · by_cases h2 : inp.thermUpdateSuccess = true
      · cases h3 : inp.thermLastUpdated
        · exact ⟨[.thermSensorUpdate, .extruderOneSlice, .heatingAlerts], by simp [h1, h2, h3],
            by simp [h1, h2, extruderSteps, Event.isExtruderStep]⟩
        · exact ⟨[.thermSensorUpdate, .extruderTwoSlice], by simp [h1, h2, h3],
            by simp [h1, h2, extruderSteps, Event.isExtruderStep]⟩
        · exact ⟨[.thermSensorUpdate], by simp [h1, h2, h3],
            by simp [h1, h2, extruderSteps, Event.isExtruderStep]⟩
      · exact ⟨[.thermSensorUpdate], by simp [h1, h2],
          by simp [h1, h2, extruderSteps, Event.isExtruderStep]⟩
    · exact ⟨[], by simp [h1], by simp [h1, extruderSteps]⟩

/-- One slice in which the interface does not refresh: unless it returns early,
it runs the extruder step that is due, and no other. -/
theorem runMotherboardSlice_due (cfg : Config) (inp : SliceInput) (s : Motherboard)
    (hiu : (sliceInterface cfg inp s).2 = false) :
    ∃ evs, (runMotherboardSlice cfg inp s).log = s.log ++ evs ∧
      extruderSteps evs =
        (if returnsEarly inp s then []
         else if extruderOneDue cfg inp s then [Event.extruderOneSlice]
         else if extruderTwoDue cfg inp s then [Event.extruderTwoSlice] else []) := by
  have hdef : runMotherboardSlice cfg inp s =
      if (sliceAnnounce cfg inp (sliceInactivity cfg inp (sliceOnboard cfg
            (sliceButtonWait inp (slicePlatform cfg (sliceInterface cfg inp s).1))))).2 = true
      then sliceCore cfg inp (slicePlatform cfg (sliceInterface cfg inp s).1)
      else sliceExtruders cfg inp (sliceInterface cfg inp s).2
        (sliceCore cfg inp (slicePlatform cfg (sliceInterface cfg inp s).1)) := rfl
  rw [hdef, sliceCore_returned, hiu]
  have hi1 := sliceInterface_count_extruder cfg inp s .extruderOneSlice (Or.inl rfl)
  have hi2 := sliceInterface_count_extruder cfg inp s .extruderTwoSlice (Or.inr rfl)
  have hp1 := slicePlatform_count_extruder cfg (sliceInterface cfg inp s).1
    .extruderOneSlice (Or.inl rfl)
  have hp2 := slicePlatform_count_extruder cfg (sliceInterface cfg inp s).1
    .extruderTwoSlice (Or.inr rfl)
  have hc1 := sliceCore_count_extruder cfg inp (slicePlatform cfg (sliceInterface cfg inp s).1)
    .extruderOneSlice (Or.inl rfl)
  have hc2 := sliceCore_count_extruder cfg inp (slicePlatform cfg (sliceInterface cfg inp s).1)
    .extruderTwoSlice (Or.inr rfl)
  obtain ⟨a1, ta, ha, _⟩ := sliceInterface_eq cfg inp s
  obtain ⟨a2, tb, hb, _⟩ := slicePlatform_eq cfg (sliceInterface cfg inp s).1
  obtain ⟨a3, hc⟩ := sliceCore_log_append cfg inp (slicePlatform cfg (sliceInterface cfg inp s).1)
  obtain ⟨g1, g2, g3, g4⟩ :=
    sliceCore_frame cfg inp (slicePlatform cfg (sliceInterface cfg inp s).1)
  have hlog : (sliceCore cfg inp (slicePlatform cfg (sliceInterface cfg inp s).1)).log =
      s.log ++ (a1 ++ a2 ++ a3) := by
    rw [hc, hb, ha]
    simp only [List.append_assoc]
  have r0 : returnsEarly inp (slicePlatform cfg (sliceInterface cfg inp s).1) =
      returnsEarly inp s := by
    rw [hb, ha]
    rfl
  have p1 : (slicePlatform cfg (sliceInterface cfg inp s).1).micros = s.micros := by
    rw [hb, ha]
  have p2 : (slicePlatform cfg (sliceInterface cfg inp s).1).extruder_manage_timeout =
      s.extruder_manage_timeout := by
    rw [hb, ha]
  have p3 : (slicePlatform cfg (sliceInterface cfg inp s).1).therm_sensor_timeout =
      s.therm_sensor_timeout := by
    rw [hb, ha]
  have p4 : (slicePlatform cfg (sliceInterface cfg inp s).1).extruder_update =
      s.extruder_update := by
    rw [hb, ha]
  rw [r0]
  generalize sliceCore cfg inp (slicePlatform cfg (sliceInterface cfg inp s).1) = c
    at hc1 hc2 hlog g1 g2 g3 g4 ⊢
  have d1 : extruderOneDue cfg inp c = extruderOneDue cfg inp s := by
    unfold extruderOneDue
    rw [g1, g2, g3, p1, p2, p3]
  have d2 : extruderTwoDue cfg inp c = extruderTwoDue cfg inp s := by
    unfold extruderTwoDue
    rw [g1, g2, g3, g4, p1, p2, p3, p4]
  have q1 : (a1 ++ a2 ++ a3).count .extruderOneSlice = 0 := by
    have h := hc1.1
    rw [hp1.1, hi1.1, hlog, List.count_append] at h
    omega
  have q2 : (a1 ++ a2 ++ a3).count .extruderTwoSlice = 0 := by
    have h := hc2.1
    rw [hp2.1, hi2.1, hlog, List.count_append] at h
    omega
  have hq := extruderSteps_of_no_steps (a1 ++ a2 ++ a3) q1 q2
  by_cases hr : returnsEarly inp s = true
  · rw [if_pos hr, if_pos hr]
    exact ⟨a1 ++ a2 ++ a3, hlog, hq⟩
  · rw [if_neg hr, if_neg hr]
    obtain ⟨tail, ht, hsteps⟩ := sliceExtruders_due cfg inp c
    refine ⟨(a1 ++ a2 ++ a3) ++ tail, by rw [ht, hlog, List.append_assoc], ?_⟩
    rw [extruderSteps_append, hq, List.nil_append, hsteps, d1, d2]

/-- A run in steady state issues the extruder steps in strict alternation, one
in each slice. -/
theorem runTimedOps_steady (cfg : Config) (ops : List TimedOp) :
    ∀ (two : Bool) (s : Motherboard), steadyRun cfg two ops s = true →
      ∃ evs, (runTimedOps cfg ops s).log = s.log ++ evs ∧
        extruderSteps evs = alternatingSteps two (sliceCount ops) := by
  induction ops with
  | nil => intro two s _; exact ⟨[], by simp [runTimedOps], rfl⟩
  | cons op rest ih =>
    intro two s h
    have hrun : runTimedOps cfg (op :: rest) s = runTimedOps cfg rest (runTimedOp cfg s op) := rfl
    rw [hrun]
    cases op with
    | tick =>
      have h1 : steadyRun cfg two rest (UpdateMicros cfg s) = true := h
      obtain ⟨evs, e1, e2⟩ := ih two (UpdateMicros cfg s) h1
      exact ⟨evs, e1, e2⟩
    | slice inp =>
      have h1 : (!(sliceInterface cfg inp s).2 && !returnsEarly inp s &&
          (if two then extruderTwoDue cfg inp s else extruderOneDue cfg inp s) &&
          steadyRun cfg (!two) rest (runMotherboardSlice cfg inp s)) = true := h
      simp only [Bool.and_eq_true, Bool.not_eq_true'] at h1
      obtain ⟨⟨⟨hiu, hret⟩, hdue⟩, hrest⟩ := h1
      obtain ⟨e1, g1, g2⟩ := runMotherboardSlice_due cfg inp s hiu
      obtain ⟨e2, k1, k2⟩ := ih (!two) (runMotherboardSlice cfg inp s) hrest
      have f : runTimedOp cfg s (.slice inp) = runMotherboardSlice cfg inp s := rfl
      rw [f]
      refine ⟨e1 ++ e2, by rw [k1, g1, List.append_assoc], ?_⟩
      rw [extruderSteps_append, g2, k2, hret]
      cases two
      · simp only [Bool.false_eq_true, if_false] at hdue ⊢
        rw [if_pos hdue]
        rfl
      · simp only [if_true, Bool.false_eq_true, if_false] at hdue ⊢
        have hone : extruderOneDue cfg inp s = false := by
          unfold extruderOneDue extruderTwoDue at *
          cases hR : cfg.MODEL_REPLICATOR2
          · simp only [hR, Bool.false_eq_true, if_false, Bool.and_eq_true,
              Bool.not_eq_true'] at hdue ⊢
            exact hdue.1
          · simp only [hR, if_true, Bool.and_eq_true, decide_eq_true_eq] at hdue ⊢
            simp [hdue.2]
        rw [hone, if_neg (by simp), if_pos hdue]
        rfl

/-- Claim C13, as stated, fails, in each of its three parts and in both builds;
the interface refreshes in none of the slices below (the boards have no
interface board).
(1) With the extruder sample timeout elapsed at the start, four consecutive
slices run the Extruder_One step once and the Extruder_Two step once - in the
first two slices; the third and fourth slice run neither step, the timeout not
having elapsed again.
(2) When a sample interval (5000 ticks) passes between two consecutive slices,
both run the Extruder_One step and the Extruder_Two step is not run.
(3) A slice that answers a not-plugged-in failure returns before the extruder
block: it runs neither step although the Extruder_One step is due.
(4) With `MODEL_REPLICATOR2` the step follows the channel the thermocouple
reader updated last: two consecutive slices (an update interval apart) after
updates of channel one both run the Extruder_One step, and after updates of
channel two both run the Extruder_Two step. -/
theorem extruder_steps_do_not_alternate_every_slice :
    (sliceInterface exampleConfig exampleInput exampleSamplingBoard).2 = false ∧
    (runSlices exampleConfig [exampleInput, exampleInput]
      exampleSamplingBoard).log.count .extruderOneSlice = 1 ∧
    (runSlices exampleConfig [exampleInput, exampleInput]
      exampleSamplingBoard).log.count .extruderTwoSlice = 1 ∧
    (runSlices exampleConfig [exampleInput, exampleInput, exampleInput, exampleInput]
      exampleSamplingBoard).log.count .extruderOneSlice = 1 ∧
    (runSlices exampleConfig [exampleInput, exampleInput, exampleInput, exampleInput]
      exampleSamplingBoard).log.count .extruderTwoSlice = 1 ∧
    (runMotherboardSlice exampleConfig exampleInput
      (ticks exampleConfig 5000
        (runMotherboardSlice exampleConfig exampleInput exampleSamplingBoard))).log.count
      .extruderOneSlice = 2 ∧
    (runMotherboardSlice exampleConfig exampleInput
      (ticks exampleConfig 5000
        (runMotherboardSlice exampleConfig exampleInput exampleSamplingBoard))).log.count
      .extruderTwoSlice = 0 ∧
    extruderOneDue exampleConfig exampleInput
      { exampleSamplingBoard with heatShutdown := true,
                                  heatFailMode := .HEATER_FAIL_NOT_PLUGGED_IN } = true ∧
    (runMotherboardSlice exampleConfig exampleInput
      { exampleSamplingBoard with heatShutdown := true,
                                  heatFailMode := .HEATER_FAIL_NOT_PLUGGED_IN }).log.count
      .extruderOneSlice = 0 ∧
    (runMotherboardSlice exampleConfig exampleInput
      { exampleSamplingBoard with heatShutdown := true,
                                  heatFailMode := .HEATER_FAIL_NOT_PLUGGED_IN }).log.count
      .extruderTwoSlice = 0 ∧
    (runMotherboardSlice exampleReplicator2Config exampleChannelOneInput
      (ticks exampleReplicator2Config 2500
        (runMotherboardSlice exampleReplicator2Config exampleChannelOneInput
          exampleThermocoupleBoard))).log.count .extruderOneSlice = 2 ∧
    (runMotherboardSlice exampleReplicator2Config exampleChannelOneInput
      (ticks exampleReplicator2Config 2500
        (runMotherboardSlice exampleReplicator2Config exampleChannelOneInput
          exampleThermocoupleBoard))).log.count .extruderTwoSlice = 0 ∧
    (runMotherboardSlice exampleReplicator2Config exampleChannelTwoInput
      (ticks exampleReplicator2Config 2500
        (runMotherboardSlice exampleReplicator2Config exampleChannelTwoInput
          exampleThermocoupleBoard))).log.count .extruderTwoSlice = 2 ∧
    (runMotherboardSlice exampleReplicator2Config exampleChannelTwoInput
      (ticks exampleReplicator2Config 2500
        (runMotherboardSlice exampleReplicator2Config exampleChannelTwoInput
          exampleThermocoupleBoard))).log.count .extruderOneSlice = 0 := by
  rw [ticks_eq exampleConfig 5000
      (runMotherboardSlice exampleConfig exampleInput exampleSamplingBoard) (by decide),
    ticks_eq exampleReplicator2Config 2500
      (runMotherboardSlice exampleReplicator2Config exampleChannelOneInput
        exampleThermocoupleBoard) (by decide),
    ticks_eq exampleReplicator2Config 2500
      (runMotherboardSlice exampleReplicator2Config exampleChannelTwoInput
        exampleThermocoupleBoard) (by decide)]
  decide

/-- Claim C13, amended: round-robin in steady state.  A step is due in a slice
as `extruderOneDue` and `extruderTwoDue` say: Extruder_One's when its sample
timeout has elapsed, Extruder_Two's when it has not and `extruder_update` is
set (with `MODEL_REPLICATOR2`: when the thermocouple timeout has elapsed and the
sensor update succeeds, the step of the channel updated last).
In every slice in which the interface does not refresh, the extruder steps run
are exactly: none if the slice returns through the not-plugged-in response,
else the Extruder_One step if it is due, else the Extruder_Two step if it is
due, else none; and without `MODEL_REPLICATOR2` the Extruder_Two step does not
run both in that slice and in the slice after it, whatever that one's inputs.
And for every N and every run of N consecutive slices (clock ticks in between)
in steady state - the interface does not refresh, no slice returns early, and
the steps are due alternately - exactly one step runs in each slice, in strict
alternation, the same step never in two consecutive slices, and the two steps
run floor(N/2) and ceil(N/2) times. -/
theorem extruder_steps_round_robin (cfg : Config) (inp1 inp2 : SliceInput) (n : Nat)
    (s : Motherboard) (two : Bool) (ops : List TimedOp) (t : Motherboard)
    (hiu : (sliceInterface cfg inp1 s).2 = false)
    (hsteady : steadyRun cfg two ops t = true) :
    extruderSteps ((runMotherboardSlice cfg inp1 s).log.drop s.log.length) =
      (if returnsEarly inp1 s then []
       else if extruderOneDue cfg inp1 s then [Event.extruderOneSlice]
       else if extruderTwoDue cfg inp1 s then [Event.extruderTwoSlice] else []) ∧
    (cfg.MODEL_REPLICATOR2 = false →
      (runMotherboardSlice cfg inp2
          (ticks cfg n (runMotherboardSlice cfg inp1 s))).log.count .extruderTwoSlice ≤
        s.log.count .extruderTwoSlice + 1) ∧
    extruderSteps ((runTimedOps cfg ops t).log.drop t.log.length) =
      alternatingSteps two (sliceCount ops) ∧
    ((runTimedOps cfg ops t).log.drop t.log.length).count .extruderOneSlice =
      (sliceCount ops + (!two).toNat) / 2 ∧
    ((runTimedOps cfg ops t).log.drop t.log.length).count .extruderTwoSlice =
      (sliceCount ops + two.toNat) / 2 ∧
    List.Chain' (fun a b => a ≠ b)
      (extruderSteps ((runTimedOps cfg ops t).log.drop t.log.length)) := by
  obtain ⟨e1, g1, g2⟩ := runMotherboardSlice_due cfg inp1 s hiu
  obtain ⟨evs, k1, k2⟩ := runTimedOps_steady cfg ops two t hsteady
  obtain ⟨c1, c2⟩ := alternatingSteps_count (sliceCount ops) two
  obtain ⟨f1, f2⟩ := count_extruderSteps evs
  rw [g1, k1, List.drop_left, List.drop_left]
  refine ⟨g2, ?_, k2, ?_, ?_, ?_⟩
  · intro hR
    obtain ⟨d1, d2, h1, h2, h3, h4⟩ := runMotherboardSlice_steps cfg inp1 s hR
    obtain ⟨b1, b2, m1, m2, m3, m4⟩ := runMotherboardSlice_steps cfg inp2
      (ticks cfg n (runMotherboardSlice cfg inp1 s)) hR
    obtain ⟨t1, t2⟩ := ticks_frame cfg n (runMotherboardSlice cfg inp1 s)
    rw [t1] at m1 m2
    rw [t2] at m4
    have b0 := Bool.toNat_le s.extruder_update
    have b3 := Bool.toNat_le (runMotherboardSlice cfg inp1 s).extruder_update
    omega
  · rw [← f1, k2]
    exact c1
  · rw [← f2, k2]
    exact c2
  · rw [k2]
    exact alternatingSteps_chain _ _

/-- Instance of claim C13 (amended): with a sample interval of one tick, four
slices with a tick after the second are in steady state, and run Extruder_One,
Extruder_Two, Extruder_One and Extruder_Two in turn; the first slice alone runs
the Extruder_One step, which is due. -/
theorem extruder_steps_round_robin_witness :
    (sliceInterface exampleFastSamplingConfig exampleInput exampleSamplingBoard).2 = false ∧
    steadyRun exampleFastSamplingConfig false
      [.slice exampleInput, .slice exampleInput, .tick, .slice exampleInput,
        .slice exampleInput] exampleSamplingBoard = true ∧
    exampleFastSamplingConfig.MODEL_REPLICATOR2 = false ∧
    returnsEarly exampleInput exampleSamplingBoard = false ∧
    extruderOneDue exampleFastSamplingConfig exampleInput exampleSamplingBoard = true ∧
    extruderSteps
      ((runMotherboardSlice exampleFastSamplingConfig exampleInput
        exampleSamplingBoard).log.drop exampleSamplingBoard.log.length) =
      (if returnsEarly exampleInput exampleSamplingBoard then []
       else if extruderOneDue exampleFastSamplingConfig exampleInput exampleSamplingBoard
         then [Event.extruderOneSlice]
       else if extruderTwoDue exampleFastSamplingConfig exampleInput exampleSamplingBoard
         then [Event.extruderTwoSlice] else []) ∧
    (runMotherboardSlice exampleFastSamplingConfig exampleInput
        (ticks exampleFastSamplingConfig 1
          (runMotherboardSlice exampleFastSamplingConfig exampleInput
            exampleSamplingBoard))).log.count Event.extruderTwoSlice ≤
      exampleSamplingBoard.log.count Event.extruderTwoSlice + 1 ∧
    extruderSteps
      ((runTimedOps exampleFastSamplingConfig
        [.slice exampleInput, .slice exampleInput, .tick, .slice exampleInput,
          .slice exampleInput] exampleSamplingBoard).log.drop
        exampleSamplingBoard.log.length) =
      alternatingSteps false
        (sliceCount [.slice exampleInput, .slice exampleInput, .tick, .slice exampleInput,
          .slice exampleInput]) ∧
    alternatingSteps false
        (sliceCount [.slice exampleInput, .slice exampleInput, .tick, .slice exampleInput,
          .slice exampleInput]) =
      [.extruderOneSlice, .extruderTwoSlice, .extruderOneSlice, .extruderTwoSlice] :=
  ⟨by decide, by decide, rfl, by decide, by decide,
   (extruder_steps_round_robin exampleFastSamplingConfig exampleInput exampleInput 1
      exampleSamplingBoard false
      [.slice exampleInput, .slice exampleInput, .tick, .slice exampleInput,
        .slice exampleInput] exampleSamplingBoard (by decide) (by decide)).1,
   (extruder_steps_round_robin exampleFastSamplingConfig exampleInput exampleInput 1
      exampleSamplingBoard false
      [.slice exampleInput, .slice exampleInput, .tick, .slice exampleInput,
        .slice exampleInput] exampleSamplingBoard (by decide) (by decide)).2.1 rfl,
   (extruder_steps_round_robin exampleFastSamplingConfig exampleInput exampleInput 1
      exampleSamplingBoard false
      [.slice exampleInput, .slice exampleInput, .tick, .slice exampleInput,
        .slice exampleInput] exampleSamplingBoard (by decide) (by decide)).2.2.1,
   by decide⟩

end MightyBoard
